import Mathlib

/-!
# Solar System Simulator: physics core

A shallow embedding of `CelestialBody.cpp` and `PhysicsEngine.cpp`.

Modelling conventions
* `float` is idealised as an arbitrary linearly ordered field `F` (exact arithmetic, no rounding,
  no NaN or infinity; a division by zero yields `0` as in every Lean field).  The two
  non-algebraic library functions the code calls, `sqrt` (inside `glm::length` and
  `glm::normalize`) and `sin`, are carried in a record `FloatOps F`.
* Applied to the zero vector, `glm::normalize` returns NaN in every component.  `normalize` is
  the code's function for every other argument; the definitions named `...Checked` follow the
  code through the NaN case, with `none` for a NaN vector, and agree with the plain definitions
  wherever no zero vector is normalised.
* `glm::vec3` is `Vec3 F`; `glm::length v = sqrt (dot v v)` and
  `glm::normalize v = v * (1 / sqrt (dot v v))` as in the GLM sources.
* `CelestialBody*` arguments are passed and returned by value; a `vector<CelestialBody*>` is a
  `List (CelestialBody F)` whose entries are distinct objects, and the pointers `moon`, `earth`,
  `sun` of `updatePhysics` are indices into that list.
* The function-local `static` variables of `resolveCollision` are the record `CollisionStatics F`,
  threaded explicitly, and a reading of `glfwGetTime()` is an explicit argument.
* Console output (`cout`) is not modelled.
-/

namespace SolarSystem

/-! ## glm::vec3 -/

/-- The type `glm::vec3` over the scalar type `F`. -/
structure Vec3 (F : Type) where
  x : F
  y : F
  z : F
deriving DecidableEq, Repr

namespace Vec3

variable {F : Type} [LinearOrderedField F]

/-- Constructor `glm::vec3(s)`: all three components equal to `s`. -/
def splat (s : F) : Vec3 F := ⟨s, s, s⟩

/-- Componentwise `a + b`. -/
def add (a b : Vec3 F) : Vec3 F := ⟨a.x + b.x, a.y + b.y, a.z + b.z⟩

/-- Componentwise `a - b`. -/
def sub (a b : Vec3 F) : Vec3 F := ⟨a.x - b.x, a.y - b.y, a.z - b.z⟩

/-- Unary minus `-a`. -/
def neg (a : Vec3 F) : Vec3 F := ⟨-a.x, -a.y, -a.z⟩

/-- Vector times scalar, `v * s`. -/
def scale (v : Vec3 F) (s : F) : Vec3 F := ⟨v.x * s, v.y * s, v.z * s⟩

/-- Vector divided by scalar, `v / s`. -/
def sdiv (v : Vec3 F) (s : F) : Vec3 F := ⟨v.x / s, v.y / s, v.z / s⟩

/-- The function `glm::dot`. -/
def dot (a b : Vec3 F) : F := a.x * b.x + a.y * b.y + a.z * b.z

/-- The function `glm::cross`. -/
def cross (a b : Vec3 F) : Vec3 F :=
  ⟨a.y * b.z - b.y * a.z, a.z * b.x - b.z * a.x, a.x * b.y - b.x * a.y⟩

/-- The function `glm::mix(a, b, t) = a * (1 - t) + b * t`. -/
def mix (a b : Vec3 F) (t : F) : Vec3 F := add (scale a (1 - t)) (scale b t)

instance : Add (Vec3 F) := ⟨add⟩
instance : Sub (Vec3 F) := ⟨sub⟩
instance : Neg (Vec3 F) := ⟨neg⟩

end Vec3

/-- The non-algebraic `float` functions used by the code. -/
structure FloatOps (F : Type) where
  sqrt : F → F
  sin : F → F

/-- An exact square root: `sqrt x` is the non-negative root of every non-negative `x`. -/
def FloatOps.ExactSqrt {F : Type} [LinearOrderedField F] (ops : FloatOps F) : Prop :=
  ∀ x : F, 0 ≤ x → 0 ≤ ops.sqrt x ∧ ops.sqrt x * ops.sqrt x = x

/-- The function `glm::length`. -/
def length {F : Type} [LinearOrderedField F] (ops : FloatOps F) (v : Vec3 F) : F :=
  ops.sqrt (Vec3.dot v v)

/-- The function `glm::normalize`: `v * inversesqrt(dot(v, v))`. On the zero vector the field
division gives the zero vector where the code gives NaN; `normalizeChecked` below makes that case
explicit. -/
def normalize {F : Type} [LinearOrderedField F] (ops : FloatOps F) (v : Vec3 F) : Vec3 F :=
  v.scale (1 / ops.sqrt (Vec3.dot v v))

/-- The function `glm::clamp(x, lo, hi) = min(max(x, lo), hi)`. -/
def clamp {F : Type} [LinearOrderedField F] (x lo hi : F) : F := min (max x lo) hi

/-! ## CelestialBody -/

/-- The class `CelestialBody` (`CelestialBody.h`). `parentBody` is the index of the parent in the
scene, `textureID` and `ringTextureID` are OpenGL handles. -/
structure CelestialBody (F : Type) where
  position : Vec3 F
  velocity : Vec3 F
  acceleration : Vec3 F
  mass : F
  radius : F
  color : Vec3 F
  name : String
  hasTexture : Bool
  textureID : Nat
  isStatic : Bool
  rotationAngle : F
  rotationSpeed : F
  rotationAxis : Vec3 F
  orbitPoints : List (Vec3 F)
  parentBody : Option Nat
  isOrbitingParent : Bool
  isInShadow : Bool
  shadowIntensity : F
  shadowDirection : Vec3 F
  isColliding : Bool
  collisionTimer : F
  originalRadius : F
  originalColor : Vec3 F
  orbitColor : Vec3 F
  hasRings : Bool
  ringInnerRadius : F
  ringOuterRadius : F
  ringTextureID : Nat
deriving DecidableEq, Repr

namespace CelestialBody

variable {F : Type} [LinearOrderedField F]

/-- The constructor `CelestialBody::CelestialBody`. The member `orbitColor` is left uninitialised
by the C++ constructor; its indeterminate value is the extra argument `orbitColor0`. -/
def new (pos vel : Vec3 F) (massValue radiusValue : F) (col : Vec3 F) (n : String)
    (staticBody : Bool) (parent : Option Nat) (orbitColor0 : Vec3 F) : CelestialBody F :=
  { position := pos
    velocity := vel
    mass := massValue
    radius := radiusValue
    color := col
    name := n
    isStatic := staticBody
    parentBody := parent
    acceleration := Vec3.splat 0
    rotationAngle := 0
    rotationSpeed := 0.5
    rotationAxis := ⟨0, 1, 0⟩
    hasTexture := false
    textureID := 0
    isOrbitingParent := parent.isSome
    isInShadow := false
    shadowIntensity := 1
    shadowDirection := Vec3.splat 0
    isColliding := false
    collisionTimer := 0
    originalRadius := radiusValue
    originalColor := col
    hasRings := false
    ringInnerRadius := 1.2
    ringOuterRadius := 2.5
    ringTextureID := 0
    orbitPoints := []
    orbitColor := orbitColor0 }

/-- The method `CelestialBody::resetAcceleration`. -/
def resetAcceleration (b : CelestialBody F) : CelestialBody F :=
  { b with acceleration := Vec3.splat 0 }

/-- The statement `b->acceleration += a`. -/
def accelerate (b : CelestialBody F) (a : Vec3 F) : CelestialBody F :=
  { b with acceleration := b.acceleration + a }

/-- The method `CelestialBody::addOrbitPoint`: push the position, then erase the first point when
the size exceeds 4000. -/
def addOrbitPoint (b : CelestialBody F) : CelestialBody F :=
  if b.isStatic || b.name == "Sun" then b
  else
    let pts := b.orbitPoints ++ [b.position]
    { b with orbitPoints := if pts.length > 4000 then pts.tail else pts }

/-- The method `CelestialBody::clearOrbit`. -/
def clearOrbit (b : CelestialBody F) : CelestialBody F :=
  { b with orbitPoints := [] }

/-- The method `CelestialBody::startCollisionAnimation`. -/
def startCollisionAnimation (b : CelestialBody F) : CelestialBody F :=
  { b with isColliding := true, collisionTimer := 2, originalRadius := b.radius }

/-- The method `CelestialBody::updateCollisionAnimation`. -/
def updateCollisionAnimation (ops : FloatOps F) (b : CelestialBody F) (deltaTime : F) :
    CelestialBody F :=
  if b.isColliding then
    let timer := b.collisionTimer - deltaTime
    if timer > 0 then
      let pulse := ops.sin (timer * 20) * 0.2 + 1
      { b with
        collisionTimer := timer
        radius := b.originalRadius * pulse
        color := Vec3.mix ⟨1, 0.3, 0.3⟩ b.originalColor (1 - timer) }
    else
      { b with
        collisionTimer := timer
        isColliding := false
        radius := b.originalRadius
        color := b.originalColor }
  else b

/-- The method `CelestialBody::updatePosition`. -/
def updatePosition (ops : FloatOps F) (b : CelestialBody F) (deltaTime : F) : CelestialBody F :=
  if b.isStatic then b
  else
    let b1 := updateCollisionAnimation ops b deltaTime
    let b2 := { b1 with velocity := b1.velocity + b1.acceleration.scale deltaTime }
    let b3 := { b2 with position := b2.position + b2.velocity.scale deltaTime }
    let b4 := { b3 with rotationAngle := b3.rotationAngle + b3.rotationSpeed * deltaTime }
    let b5 := if b4.rotationAngle > 360 then { b4 with rotationAngle := b4.rotationAngle - 360 }
              else b4
    addOrbitPoint b5

end CelestialBody

/-! ## PhysicsEngine -/

/-- The function-local `static` variables of `PhysicsEngine::resolveCollision`; all three start
at `0`. -/
structure CollisionStatics (F : Type) where
  sunCollisionCooldown : F
  lastSunCollisionTime : F
  lastCollisionTime : F
deriving DecidableEq, Repr

/-- The local pointers `moon`, `earth`, `sun` of `PhysicsEngine::updatePhysics`, as indices into
the body list (`none` is `nullptr`). -/
structure NamedBodies where
  moon : Option Nat
  earth : Option Nat
  sun : Option Nat
deriving DecidableEq, Repr

namespace PhysicsEngine

variable {F : Type} [LinearOrderedField F]

/-- Body of the first loop of `updatePhysics` (lines 12-14). -/
def resetBody (b : CelestialBody F) : CelestialBody F :=
  { b.resetAcceleration with isInShadow := false, shadowIntensity := 1 }

/-- First loop of `updatePhysics` (lines 11-15): reset acceleration and shadow state. -/
def resetBodies (bodies : List (CelestialBody F)) : List (CelestialBody F) :=
  bodies.map resetBody

/-- Lookup loop of `updatePhysics` (lines 24-30); `i` is the index of the head of the list and
the loop stops as soon as all three pointers are set. -/
def findNamed : List (CelestialBody F) → Nat → NamedBodies → NamedBodies
  | [], _, acc => acc
  | body :: rest, i, acc =>
    let acc1 := if body.name == "Moon" then { acc with moon := some i } else acc
    let acc2 := if body.name == "Earth" then { acc1 with earth := some i } else acc1
    let acc3 := if body.name == "Sun" then { acc2 with sun := some i } else acc2
    if acc3.moon.isSome && acc3.earth.isSome && acc3.sun.isSome then acc3
    else findNamed rest (i + 1) acc3

/-- Moon override of `updatePhysics` (lines 33-56). -/
def moonOverride (ops : FloatOps F) (nm : NamedBodies) (bodies : List (CelestialBody F)) :
    List (CelestialBody F) :=
  match nm.moon, nm.earth with
  | some m, some e =>
    match bodies[m]?, bodies[e]? with
    | some moon, some earth =>
      let toEarth := earth.position - moon.position
      let distToEarth := length ops toEarth
      if distToEarth ≤ 5 then
        let desiredOrbitRadius : F := 2
        if distToEarth > 0.01 then
          let forceDir := normalize ops toEarth
          let orbitForce := 1 * (distToEarth - desiredOrbitRadius)
          let currentVelRelative := moon.velocity - earth.velocity
          let tangentDir := normalize ops (Vec3.cross toEarth ⟨0, 1, 0⟩)
          let currentTangential := Vec3.dot currentVelRelative tangentDir
          let desiredTangential : F := 1
          let tangentialForce := 1.5 * (desiredTangential - currentTangential)
          let moon1 := moon.accelerate (forceDir.scale orbitForce)
          let moon2 := moon1.accelerate (tangentDir.scale tangentialForce)
          bodies.set m moon2
        else bodies
      else bodies
    | _, _ => bodies
  | _, _ => bodies

/-- The test `earth && glm::length(X->position - earth->position) <= moonEscapeDistance` of
lines 66-67. -/
def withinMoonEscape (ops : FloatOps F) (earth : Option Nat) (bodies : List (CelestialBody F))
    (X : CelestialBody F) : Bool :=
  match earth with
  | some e =>
    match bodies[e]? with
    | some earthBody => decide (length ops (X.position - earthBody.position) ≤ 5)
    | none => false
  | none => false

/-- Body of the inner gravity loop (lines 63-101) for the index pair `(i, j)`. -/
def gravityPair (ops : FloatOps F) (earth : Option Nat) (bodies : List (CelestialBody F))
    (i j : Nat) : List (CelestialBody F) :=
  if i = j then bodies
  else
    match bodies[i]?, bodies[j]? with
    | some A, some B =>
      if A.name == "Moon" && withinMoonEscape ops earth bodies A
          && (B.name == "Earth" || B.name == "Sun") then bodies
      else if B.name == "Moon" && withinMoonEscape ops earth bodies B
          && (A.name == "Earth" || A.name == "Sun") then bodies
      else
        let dir := B.position - A.position
        let dist := length ops dir
        if dist < 0.01 then bodies
        else
          let forceDir := normalize ops dir
          let force := 0.01 * A.mass * B.mass / (dist * dist)
          let distanceMultiplier := 1 / (dist * 0.005)
          if A.name != "Sun" && B.name != "Sun" then
            if dist < 7 then
              if A.mass < B.mass then
                let accelerationA := (forceDir.scale (force / A.mass)).scale distanceMultiplier
                bodies.set i (A.accelerate accelerationA)
              else
                let accelerationB := ((-forceDir).scale (force / B.mass)).scale distanceMultiplier
                bodies.set j (B.accelerate accelerationB)
            else
              let accelerationA := forceDir.scale (force / A.mass)
              let accelerationB := (-forceDir).scale (force / B.mass)
              (bodies.set i (A.accelerate accelerationA)).set j (B.accelerate accelerationB)
          else
            let accelerationA := forceDir.scale (force / A.mass)
            bodies.set i (A.accelerate accelerationA)
    | _, _ => bodies

/-- The double loop "Normal gravity" of `updatePhysics` (lines 59-103). -/
def gravityLoop (ops : FloatOps F) (earth : Option Nat) (bodies : List (CelestialBody F)) :
    List (CelestialBody F) :=
  (List.range bodies.length).foldl
    (fun bs i => (List.range bodies.length).foldl (fun bs1 j => gravityPair ops earth bs1 i j) bs)
    bodies

/-- Lines 11-103 of `updatePhysics`: reset, lookup, Moon override, gravity loop; the state of
the bodies just before `handleCollisions` is called. -/
def gravityPass (ops : FloatOps F) (bodies : List (CelestialBody F)) : List (CelestialBody F) :=
  let bodies1 := resetBodies bodies
  let nm := findNamed bodies1 0 ⟨none, none, none⟩
  gravityLoop ops nm.earth (moonOverride ops nm bodies1)

/-- The method `PhysicsEngine::checkCollision`. -/
def checkCollision (ops : FloatOps F) (a b : CelestialBody F) : Bool :=
  let distance := length ops (a.position - b.position)
  let minDistance := a.radius + b.radius
  let collisionMargin : F := 0.1
  decide (distance < minDistance - collisionMargin)

/-- Clamp stage of the regular branch of `resolveCollision` (lines 276-285 for `a`, 287-296 for
`b`): a speed above `maxCollisionSpeed = 10` is reset to `10 * 0.7`, a speed above `5` is
multiplied by `0.9`. -/
def clampCollisionSpeed (ops : FloatOps F) (p : CelestialBody F) : CelestialBody F :=
  if p.isStatic then p
  else
    let currentSpeed := length ops p.velocity
    let maxCollisionSpeed : F := 10
    if currentSpeed > maxCollisionSpeed then
      let damping : F := 0.7
      { p with velocity := (normalize ops p.velocity).scale (maxCollisionSpeed * damping) }
    else if currentSpeed > 5 then { p with velocity := p.velocity.scale 0.9 }
    else p

/-- Star branch of `resolveCollision` (lines 181-223) with `sun` and `planet` already chosen
(`sun = aIsSun ? a : b`, `planet = aIsSun ? b : a`). Only the statics and `planet` are written;
the result is their new state. -/
def resolveSunCollision (ops : FloatOps F) (st : CollisionStatics F) (currentTime : F)
    (sun planet : CelestialBody F) : CollisionStatics F × CelestialBody F :=
  let collisionNormal := normalize ops (planet.position - sun.position)
  let currentDistance := length ops (planet.position - sun.position)
  let desiredDistance := sun.radius + planet.radius + 2
  let penetration := desiredDistance - currentDistance
  let planet1 :=
    if penetration > 0 then
      { planet with position := sun.position + collisionNormal.scale desiredDistance }
    else planet
  let relativeVelocity := planet1.velocity - sun.velocity
  let velocityTowardSun := Vec3.dot relativeVelocity collisionNormal
  let planet2 :=
    if velocityTowardSun < 0 then
      let p1 :=
        { planet1 with velocity := planet1.velocity - collisionNormal.scale velocityTowardSun }
      let tangentDir := normalize ops (Vec3.cross collisionNormal ⟨0, 1, 0⟩)
      let orbitSpeed := length ops relativeVelocity * 0.2
      let p2 := { p1 with velocity := p1.velocity + tangentDir.scale orbitSpeed }
      let maxCollisionSpeed : F := 10
      if length ops p2.velocity > maxCollisionSpeed then
        { p2 with velocity := (normalize ops p2.velocity).scale maxCollisionSpeed }
      else p2
    else planet1
  let planet3 := planet2.startCollisionAnimation
  let st1 :=
    if currentTime - st.lastSunCollisionTime < 1 then st
    else { st with lastSunCollisionTime := currentTime }
  (st1, planet3)

/-- Positional correction of the regular branch (lines 233-248); `collisionNormal` is the normal
computed at line 227. -/
def separateBodies (ops : FloatOps F) (collisionNormal : Vec3 F) (a b : CelestialBody F) :
    CelestialBody F × CelestialBody F :=
  let overlap := (a.radius + b.radius) - length ops (a.position - b.position)
  if overlap > 0 then
    let totalMass := a.mass + b.mass
    let aRatio := b.mass / totalMass
    let bRatio := a.mass / totalMass
    let separation := collisionNormal.scale overlap
    let a1 :=
      if a.isStatic then a
      else { a with position := a.position + (separation.scale aRatio).scale 0.5 }
    let b1 :=
      if b.isStatic then b
      else { b with position := b.position - (separation.scale bRatio).scale 0.5 }
    let safetyMargin : F := 0.1
    let a2 :=
      if a1.isStatic then a1
      else { a1 with position := a1.position + (collisionNormal.scale safetyMargin).scale aRatio }
    let b2 :=
      if b1.isStatic then b1
      else { b1 with position := b1.position - (collisionNormal.scale safetyMargin).scale bRatio }
    (a2, b2)
  else (a, b)

/-- Impulse magnitude of the regular branch (lines 250-262): restitution `0.8`, damped when less
than `0.1` has passed since `lastCollisionTime`. -/
def impulseScalar (st : CollisionStatics F) (currentTime : F) (a b : CelestialBody F)
    (velocityAlongNormal : F) : F :=
  let restitution : F := 0.8
  let impulseScalar0 := -(1 + restitution) * velocityAlongNormal
  let impulseScalar1 := impulseScalar0 / (1 / a.mass + 1 / b.mass)
  let timeSinceLastCollision := currentTime - st.lastCollisionTime
  if timeSinceLastCollision < 0.1 then
    let dampingFactor := clamp (timeSinceLastCollision / 0.1) 0.1 1
    impulseScalar1 * dampingFactor
  else impulseScalar1

/-- Lines 267-272: add `impulse / mass` to `a` and subtract it from `b`, static bodies
excepted. -/
def applyImpulse (impulse : Vec3 F) (a b : CelestialBody F) :
    CelestialBody F × CelestialBody F :=
  (if a.isStatic then a else { a with velocity := a.velocity + impulse.sdiv a.mass },
   if b.isStatic then b else { b with velocity := b.velocity - impulse.sdiv b.mass })

/-- Spin kick of the regular branch (lines 298-303). -/
def spinKick (ops : FloatOps F) (collisionNormal : Vec3 F) (a b : CelestialBody F) :
    CelestialBody F × CelestialBody F :=
  let tangentDir := normalize ops (Vec3.cross collisionNormal ⟨0, 1, 0⟩)
  if length ops tangentDir > 0.1 then
    let spinStrength : F := 0.5
    (if a.isStatic then a
     else { a with velocity := a.velocity + (tangentDir.scale spinStrength).scale (b.mass / a.mass) },
     if b.isStatic then b
     else { b with velocity := b.velocity - (tangentDir.scale spinStrength).scale (a.mass / b.mass) })
  else (a, b)

/-- The method `PhysicsEngine::resolveCollision`. `st` holds the function's `static` variables
and `currentTime` is the value `glfwGetTime()` returns if the call reads the clock. The result is
the new statics and the new states of `a` and `b`. -/
def resolveCollision (ops : FloatOps F) (st : CollisionStatics F) (currentTime : F)
    (a b : CelestialBody F) : CollisionStatics F × CelestialBody F × CelestialBody F :=
  let aIsSun := a.name == "Sun"
  let bIsSun := b.name == "Sun"
  if aIsSun || bIsSun then
    if aIsSun then
      let r := resolveSunCollision ops st currentTime a b
      (r.1, a, r.2)
    else
      let r := resolveSunCollision ops st currentTime b a
      (r.1, r.2, b)
  else
    let collisionNormal := normalize ops (a.position - b.position)
    let relativeVelocity := a.velocity - b.velocity
    let velocityAlongNormal := Vec3.dot relativeVelocity collisionNormal
    if velocityAlongNormal > 0 then (st, a, b)
    else
      let s1 := separateBodies ops collisionNormal a b
      let impulse := collisionNormal.scale (impulseScalar st currentTime a b velocityAlongNormal)
      let st1 := { st with lastCollisionTime := currentTime }
      let s2 := applyImpulse impulse s1.1 s1.2
      let a3 := clampCollisionSpeed ops s2.1
      let b3 := clampCollisionSpeed ops s2.2
      let s4 := spinKick ops collisionNormal a3 b3
      (st1, s4.1.startCollisionAnimation, s4.2.startCollisionAnimation)

/-- Body of the inner loop of `handleCollisions` for the index pair `(i, j)`; `clock i j` is the
clock reading available to the call `resolveCollision(bodies[i], bodies[j])`. -/
def collidePair (ops : FloatOps F) (clock : Nat → Nat → F)
    (s : CollisionStatics F × List (CelestialBody F)) (i j : Nat) :
    CollisionStatics F × List (CelestialBody F) :=
  match s.2[i]?, s.2[j]? with
  | some a, some b =>
    if checkCollision ops a b then
      let r := resolveCollision ops s.1 (clock i j) a b
      (r.1, (s.2.set i r.2.1).set j r.2.2)
    else s
  | _, _ => s

/-- The method `PhysicsEngine::handleCollisions`: all pairs `i < j` in lexicographic order. -/
def handleCollisions (ops : FloatOps F) (clock : Nat → Nat → F) (st : CollisionStatics F)
    (bodies : List (CelestialBody F)) : CollisionStatics F × List (CelestialBody F) :=
  (List.range bodies.length).foldl
    (fun s i =>
      (List.range' (i + 1) (bodies.length - (i + 1))).foldl
        (fun s1 j => collidePair ops clock s1 i j) s)
    (st, bodies)

/-- The method `PhysicsEngine::checkForEclipse`; the result is the new state of `earth`, the only
body it writes. The locals `sunAngularRadius` and `moonAngularRadius` of the source are computed
and never read, so they are left out. -/
def checkForEclipse (ops : FloatOps F) (sun earth moon : CelestialBody F) : CelestialBody F :=
  let earth0 := { earth with isInShadow := false, shadowIntensity := 1 }
  let sunToEarth := earth0.position - sun.position
  let sunEarthDistance := length ops sunToEarth
  let sunToEarthDir := normalize ops sunToEarth
  let sunToMoon := moon.position - sun.position
  let projection := Vec3.dot sunToMoon sunToEarthDir
  if projection > -moon.radius ∧ projection < sunEarthDistance + moon.radius then
    let closestPoint := sun.position + sunToEarthDir.scale projection
    let distanceToLine := length ops (moon.position - closestPoint)
    let maxShadowDistance := moon.radius * 2
    let alignment := 1 - clamp (distanceToLine / maxShadowDistance) 0 1
    if alignment > 0.3 then
      let shadowStrength := (alignment - 0.3) / 0.7
      { earth0 with
        isInShadow := true
        shadowIntensity := 1 - shadowStrength * 0.8
        shadowDirection := -sunToEarthDir }
    else earth0
  else earth0

/-- Lines 108-110 of `updatePhysics`: run `checkForEclipse` when all three pointers are set. -/
def eclipseStep (ops : FloatOps F) (nm : NamedBodies) (bodies : List (CelestialBody F)) :
    List (CelestialBody F) :=
  match nm.sun, nm.earth, nm.moon with
  | some s, some e, some m =>
    match bodies[s]?, bodies[e]?, bodies[m]? with
    | some sun, some earth, some moon => bodies.set e (checkForEclipse ops sun earth moon)
    | _, _, _ => bodies
  | _, _, _ => bodies

/-- The method `PhysicsEngine::updatePhysics`. -/
def updatePhysics (ops : FloatOps F) (clock : Nat → Nat → F) (st : CollisionStatics F)
    (bodies : List (CelestialBody F)) (deltaTime : F) :
    CollisionStatics F × List (CelestialBody F) :=
  let bodies1 := resetBodies bodies
  let nm := findNamed bodies1 0 ⟨none, none, none⟩
  let bodies2 := gravityLoop ops nm.earth (moonOverride ops nm bodies1)
  let r := handleCollisions ops clock st bodies2
  let bodies3 := eclipseStep ops nm r.2
  (r.1, bodies3.map fun b => b.updatePosition ops deltaTime)

end PhysicsEngine


/-! ## SolarSystemSimulator: the orbit projector -/

/-- The remaining library values `generateFullOrbit` uses: `cos` (inside `glm::rotate`) and the
constant `glm::pi<float>()`. -/
structure TrigOps (F : Type) where
  cos : F → F
  pi : F

/-- The expression `glm::vec3(glm::rotate(glm::mat4(1.0f), angle, v) * glm::vec4(dir, 0.0f))`:
the rotation matrix GLM builds for `angle` about `normalize(v)`, applied to the direction
`dir`. -/
def rotateDirection {F : Type} [LinearOrderedField F] (ops : FloatOps F) (trig : TrigOps F)
    (angle : F) (v dir : Vec3 F) : Vec3 F :=
  let c := trig.cos angle
  let s := ops.sin angle
  let axis := normalize ops v
  let temp : Vec3 F := ⟨(1 - c) * axis.x, (1 - c) * axis.y, (1 - c) * axis.z⟩
  let r00 := c + temp.x * axis.x
  let r01 := temp.x * axis.y + s * axis.z
  let r02 := temp.x * axis.z - s * axis.y
  let r10 := temp.y * axis.x - s * axis.z
  let r11 := c + temp.y * axis.y
  let r12 := temp.y * axis.z + s * axis.x
  let r20 := temp.z * axis.x + s * axis.y
  let r21 := temp.z * axis.y - s * axis.x
  let r22 := c + temp.z * axis.z
  ⟨r00 * dir.x + r10 * dir.y + r20 * dir.z,
   r01 * dir.x + r11 * dir.y + r21 * dir.z,
   r02 * dir.x + r12 * dir.y + r22 * dir.z⟩

/-- The orbit-plane normal computed at the head of `generateFullOrbit` (lines 388-391):
`normalize(cross(toBody, velocity))`, replaced by world-up when shorter than 0.1. -/
def orbitNormal {F : Type} [LinearOrderedField F] (ops : FloatOps F)
    (body centralBody : CelestialBody F) : Vec3 F :=
  let toBody := body.position - centralBody.position
  let normal := normalize ops (Vec3.cross toBody body.velocity)
  if length ops normal < 0.1 then ⟨0, 1, 0⟩ else normal

/-- Body of the loop of `generateFullOrbit` (lines 395-410): the point pushed for index `i`. -/
def orbitPoint {F : Type} [LinearOrderedField F] (ops : FloatOps F) (trig : TrigOps F)
    (body centralBody : CelestialBody F) (i : Nat) : Vec3 F :=
  let toBody := body.position - centralBody.position
  let orbitRadius := length ops toBody
  let normal := orbitNormal ops body centralBody
  let angle := 2 * trig.pi * (i : F) / 64
  let initialDir0 := normalize ops toBody
  let initialDir : Vec3 F :=
    if length ops (Vec3.cross initialDir0 normal) < 0.1 then
      if length ops (Vec3.cross ⟨1, 0, 0⟩ normal) < 0.1 then ⟨0, 0, 1⟩ else ⟨1, 0, 0⟩
    else initialDir0
  let orbitDir := rotateDirection ops trig angle normal initialDir
  centralBody.position + orbitDir.scale orbitRadius

/-- The function `generateFullOrbit` of `SolarSystemSimulator.cpp`; the result is the content of
`orbitPoints` on return: the 65 points for `i = 0, ..., 64` (`segments = 64`). -/
def generateFullOrbit {F : Type} [LinearOrderedField F] (ops : FloatOps F) (trig : TrigOps F)
    (body centralBody : CelestialBody F) : List (Vec3 F) :=
  (List.range 65).map (orbitPoint ops trig body centralBody)

/-! ## NaN results of `glm::normalize`

`glm::normalize(v)` is `v * inversesqrt(dot(v, v))`. For the zero vector `inversesqrt(0)` is
`inf` and every component `0 * inf` is NaN; arithmetic on a NaN gives NaN and the comparisons
`<` and `>` with a NaN operand are false. The definitions of this section follow the code
through these cases: `none` stands for a vector whose three components are NaN. -/

/-- The function `glm::normalize` with its result at the zero vector made explicit: `none` (NaN
in every component) when `dot(v, v)` is zero, `normalize` otherwise. -/
def normalizeChecked {F : Type} [LinearOrderedField F] (ops : FloatOps F) (v : Vec3 F) :
    Option (Vec3 F) :=
  if Vec3.dot v v = 0 then none else some (normalize ops v)

/-- The orbit-plane normal of `generateFullOrbit` (lines 388-391) with NaN made explicit. The
test `glm::length(normal) < 0.1f` is false for a NaN normal, so the fallback to world-up is not
taken and the normal stays NaN. -/
def orbitNormalChecked {F : Type} [LinearOrderedField F] (ops : FloatOps F)
    (body centralBody : CelestialBody F) : Option (Vec3 F) :=
  let toBody := body.position - centralBody.position
  match normalizeChecked ops (Vec3.cross toBody body.velocity) with
  | none => none
  | some normal => some (if length ops normal < 0.1 then ⟨0, 1, 0⟩ else normal)

/-- Body of the loop of `generateFullOrbit` (lines 395-410) with NaN made explicit. A NaN normal
makes every entry of the rotation matrix NaN, and a NaN initial direction makes the test
`length(cross(initialDir, normal)) < 0.1f` false and is kept; either way the point pushed is
NaN. -/
def orbitPointChecked {F : Type} [LinearOrderedField F] (ops : FloatOps F) (trig : TrigOps F)
    (body centralBody : CelestialBody F) (i : Nat) : Option (Vec3 F) :=
  let toBody := body.position - centralBody.position
  let orbitRadius := length ops toBody
  match orbitNormalChecked ops body centralBody, normalizeChecked ops toBody with
  | some normal, some initialDir0 =>
    let angle := 2 * trig.pi * (i : F) / 64
    let initialDir : Vec3 F :=
      if length ops (Vec3.cross initialDir0 normal) < 0.1 then
        if length ops (Vec3.cross ⟨1, 0, 0⟩ normal) < 0.1 then ⟨0, 0, 1⟩ else ⟨1, 0, 0⟩
      else initialDir0
    let orbitDir := rotateDirection ops trig angle normal initialDir
    some (centralBody.position + orbitDir.scale orbitRadius)
  | _, _ => none

/-- The function `generateFullOrbit` with NaN made explicit: the 65 points pushed, `none` for a
point whose components are NaN. -/
def generateFullOrbitChecked {F : Type} [LinearOrderedField F] (ops : FloatOps F)
    (trig : TrigOps F) (body centralBody : CelestialBody F) : List (Option (Vec3 F)) :=
  (List.range 65).map (orbitPointChecked ops trig body centralBody)

/-- The velocity of `planet` after the star branch of `resolveCollision` (lines 186-209) with
NaN made explicit. A NaN normal makes `velocityTowardSun` NaN and the test
`velocityTowardSun < 0` false, so the velocity is not written. A NaN tangent (the normal is
parallel to world-up) is added to the velocity, and the test
`glm::length(planet->velocity) > maxCollisionSpeed` is then false: the velocity stays NaN.
`startCollisionAnimation` does not write the velocity. -/
def sunCollisionVelocityChecked {F : Type} [LinearOrderedField F] (ops : FloatOps F)
    (sun planet : CelestialBody F) : Option (Vec3 F) :=
  match normalizeChecked ops (planet.position - sun.position) with
  | none => some planet.velocity
  | some collisionNormal =>
    let relativeVelocity := planet.velocity - sun.velocity
    let velocityTowardSun := Vec3.dot relativeVelocity collisionNormal
    if velocityTowardSun < 0 then
      match normalizeChecked ops (Vec3.cross collisionNormal ⟨0, 1, 0⟩) with
      | none => none
      | some tangentDir =>
        let velocity1 := planet.velocity - collisionNormal.scale velocityTowardSun
        let orbitSpeed := length ops relativeVelocity * 0.2
        let velocity2 := velocity1 + tangentDir.scale orbitSpeed
        let maxCollisionSpeed : F := 10
        if length ops velocity2 > maxCollisionSpeed then
          some ((normalize ops velocity2).scale maxCollisionSpeed)
        else some velocity2
    else some planet.velocity

/-- The positions of `a` and `b` after the regular branch of `resolveCollision` (lines 226-248;
the later lines write velocities only) with NaN made explicit. With a NaN normal
`velocityAlongNormal` is NaN, the test `velocityAlongNormal > 0` is false, and when the bodies
overlap the correction adds a multiple of the NaN normal to the position of every non-static
body. -/
def separatedPositionsChecked {F : Type} [LinearOrderedField F] (ops : FloatOps F)
    (a b : CelestialBody F) : Option (Vec3 F) × Option (Vec3 F) :=
  match normalizeChecked ops (a.position - b.position) with
  | none =>
    let overlap := (a.radius + b.radius) - length ops (a.position - b.position)
    if overlap > 0 then
      (if a.isStatic then some a.position else none,
       if b.isStatic then some b.position else none)
    else (some a.position, some b.position)
  | some collisionNormal =>
    let relativeVelocity := a.velocity - b.velocity
    let velocityAlongNormal := Vec3.dot relativeVelocity collisionNormal
    if velocityAlongNormal > 0 then (some a.position, some b.position)
    else
      let s1 := PhysicsEngine.separateBodies ops collisionNormal a b
      (some s1.1.position, some s1.2.position)

/-! ## Call sequences and test bodies -/

/-- One call of a state-changing `CelestialBody` method. -/
inductive BodyCall (F : Type) where
  | updatePosition (deltaTime : F)
  | addOrbitPoint
  | clearOrbit
  | startCollisionAnimation
  | updateCollisionAnimation (deltaTime : F)
deriving DecidableEq, Repr

/-- Perform one method call on a body. -/
def BodyCall.apply {F : Type} [LinearOrderedField F] (ops : FloatOps F) :
    BodyCall F → CelestialBody F → CelestialBody F
  | .updatePosition deltaTime, b => b.updatePosition ops deltaTime
  | .addOrbitPoint, b => b.addOrbitPoint
  | .clearOrbit, b => b.clearOrbit
  | .startCollisionAnimation, b => b.startCollisionAnimation
  | .updateCollisionAnimation deltaTime, b => b.updateCollisionAnimation ops deltaTime

/-- Perform a sequence of method calls on a body, first call first. -/
def runCalls {F : Type} [LinearOrderedField F] (ops : FloatOps F) (calls : List (BodyCall F))
    (b : CelestialBody F) : CelestialBody F :=
  calls.foldl (fun acc c => c.apply ops acc) b

/-- A body built by the constructor with white colour and no parent, used as concrete input. -/
def testBody (F : Type) [LinearOrderedField F] (n : String) (pos vel : Vec3 F)
    (massValue radiusValue : F) (staticBody : Bool) : CelestialBody F :=
  CelestialBody.new pos vel massValue radiusValue ⟨1, 1, 1⟩ n staticBody none ⟨0, 0, 0⟩

/-- The star of the eclipse test scene of the specification: at the origin. -/
def eclipseStar (F : Type) [LinearOrderedField F] : CelestialBody F :=
  testBody F "Sun" ⟨0, 0, 0⟩ ⟨0, 0, 0⟩ 10000 3 true

/-- The target of the eclipse test scene: at `(10, 0, 0)` with radius `1`. -/
def eclipseTarget (F : Type) [LinearOrderedField F] : CelestialBody F :=
  testBody F "Earth" ⟨10, 0, 0⟩ ⟨0, 0, 0⟩ 2 1 false

/-- An occluder at `(x, y, 0)` of radius `r`. -/
def eclipseOccluder (F : Type) [LinearOrderedField F] (x y r : F) : CelestialBody F :=
  testBody F "Moon" ⟨x, y, 0⟩ ⟨0, 0, 0⟩ 0.2 r false

/-- The Earth of the capture test scene. -/
def captureEarth (F : Type) [LinearOrderedField F] : CelestialBody F :=
  testBody F "Earth" ⟨25, 0, 0⟩ ⟨0, 0, 2⟩ 2 0.8 false

/-- The Moon of the capture test scene: 2 away from the Earth, relative tangential speed 1. -/
def captureMoon (F : Type) [LinearOrderedField F] : CelestialBody F :=
  testBody F "Moon" ⟨25, 0, 2⟩ ⟨1, 0, 2⟩ 0.2 0.3 false

/-- A non-star body of mass 1 at the origin, at rest. -/
def farPlanetA (F : Type) [LinearOrderedField F] : CelestialBody F :=
  testBody F "Mars" ⟨0, 0, 0⟩ ⟨0, 0, 0⟩ 1 0.6 false

/-- A non-star body of mass 2 at `(10, 0, 0)`, at rest. -/
def farPlanetB (F : Type) [LinearOrderedField F] : CelestialBody F :=
  testBody F "Venus" ⟨10, 0, 0⟩ ⟨0, 0, 0⟩ 2 0.9 false

/-- A non-static body of mass 1 and radius 1 at `(1, 0, 0)` with velocity `(vx, 0, 0)`. -/
def collidingA (F : Type) [LinearOrderedField F] (vx : F) : CelestialBody F :=
  testBody F "Mars" ⟨1, 0, 0⟩ ⟨vx, 0, 0⟩ 1 1 false

/-- A non-static body of mass 1 and radius `r` at the origin, at rest. -/
def collidingB (F : Type) [LinearOrderedField F] (r : F) : CelestialBody F :=
  testBody F "Venus" ⟨0, 0, 0⟩ ⟨0, 0, 0⟩ 1 r false

/-- A star of mass 10000 at the origin that is not flagged static. -/
def gravityStar (F : Type) [LinearOrderedField F] : CelestialBody F :=
  testBody F "Sun" ⟨0, 0, 0⟩ ⟨0, 0, 0⟩ 10000 3 false

/-- A planet of mass 2 at `(-25, 0, 0)`. -/
def gravityPlanet (F : Type) [LinearOrderedField F] : CelestialBody F :=
  testBody F "Earth" ⟨-25, 0, 0⟩ ⟨0, 0, 2⟩ 2 0.8 false

/-- The target of the eclipse test scene with the shadow state an earlier eclipse left behind. -/
def eclipseTargetShadowed (F : Type) [LinearOrderedField F] : CelestialBody F :=
  { eclipseTarget F with
    isInShadow := true, shadowIntensity := 0.2, shadowDirection := ⟨-1, 0, 0⟩ }

/-- A body at `(5, 0, 0)`, at rest. -/
def orbitBodyAtRest (F : Type) [LinearOrderedField F] : CelestialBody F :=
  testBody F "Mars" ⟨5, 0, 0⟩ ⟨0, 0, 0⟩ 1 0.6 false

/-- A body at `(5, 0, 0)` moving along the z axis. -/
def orbitBody (F : Type) [LinearOrderedField F] : CelestialBody F :=
  testBody F "Mars" ⟨5, 0, 0⟩ ⟨0, 0, 2⟩ 1 0.6 false

/-- A static body of radius 1 at `(3, 0, 0)`, at rest. -/
def staticRock (F : Type) [LinearOrderedField F] : CelestialBody F :=
  testBody F "Rock" ⟨3, 0, 0⟩ ⟨0, 0, 0⟩ 1 1 true

/-- A non-static body whose trail holds 4000 points. -/
def fullTrailBody (F : Type) [LinearOrderedField F] : CelestialBody F :=
  { testBody F "Earth" ⟨25, 0, 0⟩ ⟨0, 0, 2⟩ 2 0.8 false with
    orbitPoints := List.replicate 4000 ⟨25, 0, 0⟩ }

/-! ## The invariant of the collision animation -/

/-- The invariant of the collision animation: an inactive body shows its base radius and base
colour. -/
def CollisionInv {F : Type} (b : CelestialBody F) : Prop :=
  b.isColliding = false → b.radius = b.originalRadius ∧ b.color = b.originalColor

/-! ## Quantities named by the specification of the eclipse test -/

/-- Projection of the occluder onto the star-to-target line, measured from the star. -/
def eclipseProjection {F : Type} [LinearOrderedField F] (ops : FloatOps F)
    (sun earth moon : CelestialBody F) : F :=
  Vec3.dot (moon.position - sun.position) (normalize ops (earth.position - sun.position))

/-- Perpendicular distance from the occluder centre to the star-to-target line. -/
def eclipsePerpDistance {F : Type} [LinearOrderedField F] (ops : FloatOps F)
    (sun earth moon : CelestialBody F) : F :=
  length ops (moon.position -
    (sun.position + (normalize ops (earth.position - sun.position)).scale
      (eclipseProjection ops sun earth moon)))

/-- The alignment `1 - clamp(perpDistance / (2 r), 0, 1)`. -/
def eclipseAlignment {F : Type} [LinearOrderedField F] (ops : FloatOps F)
    (sun earth moon : CelestialBody F) : F :=
  1 - clamp (eclipsePerpDistance ops sun earth moon / (2 * moon.radius)) 0 1

/-! ## The pull of the other bodies on the star -/

/-- The contribution of the body `B` to the acceleration of the star `S` in the gravity loop of
`updatePhysics`, added to `acc`: nothing for a Moon within the capture distance of the Earth and
nothing below the distance 0.01, otherwise `G * mass / dist ^ 2` toward `B` with `G = 0.01`. -/
def starPull {F : Type} [LinearOrderedField F] (ops : FloatOps F) (earth : Option Nat)
    (bodies : List (CelestialBody F)) (S : CelestialBody F) (acc : Vec3 F)
    (B : CelestialBody F) : Vec3 F :=
  if B.name = "Moon" ∧ PhysicsEngine.withinMoonEscape ops earth bodies B = true then acc
  else if length ops (B.position - S.position) < 0.01 then acc
  else acc + (normalize ops (B.position - S.position)).scale
    (0.01 * B.mass / length ops (B.position - S.position) ^ 2)

/-- The sum of the contributions `starPull` of the bodies other than the one at index `s`, taken
in list order. -/
def starAcceleration {F : Type} [LinearOrderedField F] (ops : FloatOps F) (earth : Option Nat)
    (bodies : List (CelestialBody F)) (s : Nat) (S : CelestialBody F) : Vec3 F :=
  (List.range bodies.length).foldl
    (fun acc j =>
      if j = s then acc
      else match bodies[j]? with
        | some B => starPull ops earth bodies S acc B
        | none => acc)
    (Vec3.splat 0)

/-! ## Further test bodies -/

/-- A non-static body of mass 100 and radius 1 at the origin, at rest. -/
def heavyBody (F : Type) [LinearOrderedField F] : CelestialBody F :=
  testBody F "Venus" ⟨0, 0, 0⟩ ⟨0, 0, 0⟩ 100 1 false

/-- A non-static body of mass 1 and radius 1 at `(0, 1, 0)`, straight above the origin, with
velocity `(0, -20, 0)`. -/
def fallingBody (F : Type) [LinearOrderedField F] : CelestialBody F :=
  testBody F "Mars" ⟨0, 1, 0⟩ ⟨0, -20, 0⟩ 1 1 false

/-! ## Basic facts about the embedding -/

section Lemmas

set_option linter.unusedSectionVars false

variable {F : Type} [LinearOrderedField F]

open PhysicsEngine

theorem Vec3.add_def (a b : Vec3 F) : a + b = ⟨a.x + b.x, a.y + b.y, a.z + b.z⟩ := rfl

theorem Vec3.sub_def (a b : Vec3 F) : a - b = ⟨a.x - b.x, a.y - b.y, a.z - b.z⟩ := rfl

theorem Vec3.neg_def (a : Vec3 F) : -a = ⟨-a.x, -a.y, -a.z⟩ := rfl

/-- The real square root is exact. -/
theorem exactSqrt_real (sin : ℝ → ℝ) : (FloatOps.mk Real.sqrt sin).ExactSqrt :=
  fun x hx => ⟨Real.sqrt_nonneg x, Real.mul_self_sqrt hx⟩

namespace CelestialBody

theorem addOrbitPoint_velocity (b : CelestialBody F) :
    b.addOrbitPoint.velocity = b.velocity := by
  unfold addOrbitPoint; split <;> rfl

theorem addOrbitPoint_position (b : CelestialBody F) :
    b.addOrbitPoint.position = b.position := by
  unfold addOrbitPoint; split <;> rfl

theorem addOrbitPoint_rotationAngle (b : CelestialBody F) :
    b.addOrbitPoint.rotationAngle = b.rotationAngle := by
  unfold addOrbitPoint; split <;> rfl

theorem addOrbitPoint_isStatic (b : CelestialBody F) :
    b.addOrbitPoint.isStatic = b.isStatic := by
  unfold addOrbitPoint; split <;> rfl

theorem addOrbitPoint_name (b : CelestialBody F) : b.addOrbitPoint.name = b.name := by
  unfold addOrbitPoint; split <;> rfl

theorem updateCollisionAnimation_velocity (ops : FloatOps F) (b : CelestialBody F) (dt : F) :
    (b.updateCollisionAnimation ops dt).velocity = b.velocity := by
  unfold updateCollisionAnimation; dsimp only; split_ifs <;> rfl

theorem updateCollisionAnimation_position (ops : FloatOps F) (b : CelestialBody F) (dt : F) :
    (b.updateCollisionAnimation ops dt).position = b.position := by
  unfold updateCollisionAnimation; dsimp only; split_ifs <;> rfl

theorem updateCollisionAnimation_acceleration (ops : FloatOps F) (b : CelestialBody F) (dt : F) :
    (b.updateCollisionAnimation ops dt).acceleration = b.acceleration := by
  unfold updateCollisionAnimation; dsimp only; split_ifs <;> rfl

theorem updateCollisionAnimation_rotationAngle (ops : FloatOps F) (b : CelestialBody F)
    (dt : F) : (b.updateCollisionAnimation ops dt).rotationAngle = b.rotationAngle := by
  unfold updateCollisionAnimation; dsimp only; split_ifs <;> rfl

theorem updateCollisionAnimation_rotationSpeed (ops : FloatOps F) (b : CelestialBody F)
    (dt : F) : (b.updateCollisionAnimation ops dt).rotationSpeed = b.rotationSpeed := by
  unfold updateCollisionAnimation; dsimp only; split_ifs <;> rfl

theorem updateCollisionAnimation_isStatic (ops : FloatOps F) (b : CelestialBody F) (dt : F) :
    (b.updateCollisionAnimation ops dt).isStatic = b.isStatic := by
  unfold updateCollisionAnimation; dsimp only; split_ifs <;> rfl

theorem updateCollisionAnimation_name (ops : FloatOps F) (b : CelestialBody F) (dt : F) :
    (b.updateCollisionAnimation ops dt).name = b.name := by
  unfold updateCollisionAnimation; dsimp only; split_ifs <;> rfl

theorem updateCollisionAnimation_orbitPoints (ops : FloatOps F) (b : CelestialBody F)
    (dt : F) : (b.updateCollisionAnimation ops dt).orbitPoints = b.orbitPoints := by
  unfold updateCollisionAnimation; dsimp only; split_ifs <;> rfl

/-- On a non-static body `updatePosition` is the chain of its five stages. -/
theorem updatePosition_of_not_static (ops : FloatOps F) (b : CelestialBody F) (dt : F)
    (h : b.isStatic = false) :
    b.updatePosition ops dt =
      addOrbitPoint
        (let b1 : CelestialBody F := updateCollisionAnimation ops b dt
         let b2 : CelestialBody F :=
           { b1 with velocity := b1.velocity + b1.acceleration.scale dt }
         let b3 : CelestialBody F :=
           { b2 with position := b2.position + b2.velocity.scale dt }
         let b4 : CelestialBody F :=
           { b3 with rotationAngle := b3.rotationAngle + b3.rotationSpeed * dt }
         if b4.rotationAngle > 360 then { b4 with rotationAngle := b4.rotationAngle - 360 }
         else b4) := by
  unfold updatePosition
  rw [if_neg (by simp [h])]

theorem updatePosition_isStatic (ops : FloatOps F) (b : CelestialBody F) (dt : F) :
    (b.updatePosition ops dt).isStatic = b.isStatic := by
  cases h : b.isStatic with
  | true => unfold updatePosition; rw [if_pos h]; exact h
  | false =>
    rw [updatePosition_of_not_static ops b dt h, addOrbitPoint_isStatic]
    dsimp only
    split_ifs <;> simp only [updateCollisionAnimation_isStatic, h]

theorem updatePosition_name (ops : FloatOps F) (b : CelestialBody F) (dt : F) :
    (b.updatePosition ops dt).name = b.name := by
  cases h : b.isStatic with
  | true => unfold updatePosition; rw [if_pos h]
  | false =>
    rw [updatePosition_of_not_static ops b dt h, addOrbitPoint_name]
    dsimp only
    split_ifs <;> simp only [updateCollisionAnimation_name]

/-- The trail after `addOrbitPoint` is never longer than 4000 if it was not before. -/
theorem addOrbitPoint_length_le (b : CelestialBody F) (h : b.orbitPoints.length ≤ 4000) :
    b.addOrbitPoint.orbitPoints.length ≤ 4000 := by
  unfold addOrbitPoint
  split
  · exact h
  · dsimp only
    split_ifs with hlen
    · simp only [List.length_tail, List.length_append, List.length_singleton]
      omega
    · simpa using hlen

/-- A static body and a body named "Sun" are returned unchanged by `addOrbitPoint`. -/
theorem addOrbitPoint_of_star (b : CelestialBody F) (h : b.isStatic = true ∨ b.name = "Sun") :
    b.addOrbitPoint = b := by
  unfold addOrbitPoint
  rw [if_pos]
  rcases h with h | h <;> simp [h]

/-- The trail seen by the final `addOrbitPoint` of `updatePosition` is the incoming trail. -/
theorem updatePosition_orbitPoints (ops : FloatOps F) (b : CelestialBody F) (dt : F) :
    (b.updatePosition ops dt).orbitPoints = b.orbitPoints ∨
      ∃ c : CelestialBody F, c.orbitPoints = b.orbitPoints ∧ c.isStatic = b.isStatic ∧
        c.name = b.name ∧ (b.updatePosition ops dt).orbitPoints = c.addOrbitPoint.orbitPoints := by
  cases h : b.isStatic with
  | true => left; unfold updatePosition; rw [if_pos h]
  | false =>
    right
    rw [updatePosition_of_not_static ops b dt h]
    refine ⟨_, ?_, ?_, ?_, rfl⟩ <;> dsimp only <;> split_ifs <;>
      simp only [updateCollisionAnimation_orbitPoints, updateCollisionAnimation_isStatic,
        updateCollisionAnimation_name, h]

end CelestialBody

/-- The rotation angle after `updatePosition` on a non-static body: one conditional subtraction
of 360. -/
theorem CelestialBody.updatePosition_rotationAngle (ops : FloatOps F) (b : CelestialBody F) (dt : F)
    (h : b.isStatic = false) :
    (b.updatePosition ops dt).rotationAngle =
      if b.rotationAngle + b.rotationSpeed * dt > 360 then
        b.rotationAngle + b.rotationSpeed * dt - 360
      else b.rotationAngle + b.rotationSpeed * dt := by
  rw [CelestialBody.updatePosition_of_not_static ops b dt h,
    CelestialBody.addOrbitPoint_rotationAngle]
  dsimp only
  simp only [CelestialBody.updateCollisionAnimation_rotationAngle,
    CelestialBody.updateCollisionAnimation_rotationSpeed]
  split_ifs <;> rfl

theorem CelestialBody.updatePosition_length_le (ops : FloatOps F) (b : CelestialBody F) (dt : F)
    (h : b.orbitPoints.length ≤ 4000) : (b.updatePosition ops dt).orbitPoints.length ≤ 4000 := by
  rcases CelestialBody.updatePosition_orbitPoints ops b dt with h1 | ⟨c, hc, -, -, h1⟩
  · rw [h1]; exact h
  · rw [h1]; exact CelestialBody.addOrbitPoint_length_le c (hc ▸ h)

theorem BodyCall.apply_length_le (ops : FloatOps F) (c : BodyCall F) (b : CelestialBody F)
    (h : b.orbitPoints.length ≤ 4000) : (c.apply ops b).orbitPoints.length ≤ 4000 := by
  cases c with
  | updatePosition dt => exact CelestialBody.updatePosition_length_le ops b dt h
  | addOrbitPoint => exact CelestialBody.addOrbitPoint_length_le b h
  | clearOrbit => exact Nat.zero_le _
  | startCollisionAnimation => exact h
  | updateCollisionAnimation dt =>
    show (b.updateCollisionAnimation ops dt).orbitPoints.length ≤ 4000
    rw [CelestialBody.updateCollisionAnimation_orbitPoints]; exact h

theorem runCalls_length_le (ops : FloatOps F) (calls : List (BodyCall F)) :
    ∀ b : CelestialBody F, b.orbitPoints.length ≤ 4000 →
      (runCalls ops calls b).orbitPoints.length ≤ 4000 := by
  induction calls with
  | nil => intro b h; exact h
  | cons c cs ih => intro b h; exact ih _ (BodyCall.apply_length_le ops c b h)

theorem BodyCall.apply_star (ops : FloatOps F) (c : BodyCall F) (b : CelestialBody F)
    (h : b.isStatic = true ∨ b.name = "Sun") (h0 : b.orbitPoints = []) :
    ((c.apply ops b).isStatic = true ∨ (c.apply ops b).name = "Sun") ∧
      (c.apply ops b).orbitPoints = [] := by
  cases c with
  | updatePosition dt =>
    refine ⟨?_, ?_⟩
    · show (b.updatePosition ops dt).isStatic = true ∨ (b.updatePosition ops dt).name = "Sun"
      rw [CelestialBody.updatePosition_isStatic, CelestialBody.updatePosition_name]; exact h
    · show (b.updatePosition ops dt).orbitPoints = []
      rcases CelestialBody.updatePosition_orbitPoints ops b dt with h1 | ⟨c, hc, hs, hn, h1⟩
      · rw [h1]; exact h0
      · rw [h1, CelestialBody.addOrbitPoint_of_star c (by rw [hs, hn]; exact h), hc]; exact h0
  | addOrbitPoint =>
    show (b.addOrbitPoint.isStatic = true ∨ b.addOrbitPoint.name = "Sun") ∧
      b.addOrbitPoint.orbitPoints = []
    rw [CelestialBody.addOrbitPoint_of_star b h]; exact ⟨h, h0⟩
  | clearOrbit => exact ⟨h, rfl⟩
  | startCollisionAnimation => exact ⟨h, h0⟩
  | updateCollisionAnimation dt =>
    show ((b.updateCollisionAnimation ops dt).isStatic = true ∨
      (b.updateCollisionAnimation ops dt).name = "Sun") ∧
      (b.updateCollisionAnimation ops dt).orbitPoints = []
    rw [CelestialBody.updateCollisionAnimation_isStatic,
      CelestialBody.updateCollisionAnimation_name,
      CelestialBody.updateCollisionAnimation_orbitPoints]
    exact ⟨h, h0⟩

theorem FloatOps.ExactSqrt.sqrt_mul_self {ops : FloatOps F} (hs : ops.ExactSqrt) {a : F}
    (ha : 0 ≤ a) : ops.sqrt (a * a) = a := by
  obtain ⟨h0, h1⟩ := hs (a * a) (mul_self_nonneg a)
  exact (mul_self_inj_of_nonneg h0 ha).1 h1

theorem FloatOps.ExactSqrt.sqrt_zero {ops : FloatOps F} (hs : ops.ExactSqrt) :
    ops.sqrt 0 = 0 := by
  simpa using hs.sqrt_mul_self (le_refl (0 : F))

theorem checkForEclipse_isInShadow (ops : FloatOps F) (sun earth moon : CelestialBody F) :
    (PhysicsEngine.checkForEclipse ops sun earth moon).isInShadow = true ↔
      (-moon.radius < eclipseProjection ops sun earth moon ∧
        eclipseProjection ops sun earth moon
          < length ops (earth.position - sun.position) + moon.radius) ∧
      eclipseAlignment ops sun earth moon > 0.3 := by
  unfold PhysicsEngine.checkForEclipse eclipseAlignment eclipsePerpDistance eclipseProjection
  dsimp only
  rw [mul_comm 2 moon.radius]
  split_ifs with h1 h2
  · simp only [true_iff]; exact ⟨h1, h2⟩
  · simp only [Bool.false_eq_true, false_iff, not_and]; intro _; exact h2
  · simp only [Bool.false_eq_true, false_iff, not_and]; intro h; exact absurd h h1

theorem checkForEclipse_shadowIntensity (ops : FloatOps F) (sun earth moon : CelestialBody F) :
    (PhysicsEngine.checkForEclipse ops sun earth moon).shadowIntensity =
      if (PhysicsEngine.checkForEclipse ops sun earth moon).isInShadow = true then
        1 - (eclipseAlignment ops sun earth moon - 0.3) / 0.7 * 0.8
      else 1 := by
  unfold PhysicsEngine.checkForEclipse eclipseAlignment eclipsePerpDistance eclipseProjection
  dsimp only
  rw [mul_comm 2 moon.radius]
  split_ifs <;> first | rfl | simp_all

theorem alignment_gt_iff (q : F) : 1 - clamp q 0 1 > 0.3 ↔ q < 0.7 := by
  unfold clamp
  constructor
  · intro h
    have h1 : min (max q 0) 1 < 0.7 := by linarith
    rcases min_lt_iff.1 h1 with h2 | h2
    · exact lt_of_le_of_lt (le_max_left _ _) h2
    · norm_num at h2
  · intro h
    have h2 : max q 0 < 0.7 := max_lt h (by norm_num)
    have h3 : min (max q 0) 1 < 0.7 := lt_of_le_of_lt (min_le_left _ _) h2
    show (0.3 : F) < 1 - min (max q 0) 1
    linarith


theorem eclipse_aligned_values (ops : FloatOps F) (hs : ops.ExactSqrt)
    (sun earth moon : CelestialBody F) (x y : F) (hy : 0 ≤ y)
    (h1 : sun.position = ⟨0, 0, 0⟩) (h2 : earth.position = ⟨10, 0, 0⟩)
    (h3 : moon.position = ⟨x, y, 0⟩) :
    length ops (earth.position - sun.position) = 10 ∧
      eclipseProjection ops sun earth moon = x ∧
      eclipsePerpDistance ops sun earth moon = y := by
  have hd : Vec3.dot (earth.position - sun.position) (earth.position - sun.position)
      = (10 : F) * 10 := by
    rw [h1, h2]; simp [Vec3.dot, Vec3.sub_def]
  have hl : ops.sqrt (Vec3.dot (earth.position - sun.position)
      (earth.position - sun.position)) = 10 := by
    rw [hd]; exact hs.sqrt_mul_self (by norm_num)
  have hp : eclipseProjection ops sun earth moon = x := by
    unfold eclipseProjection normalize
    rw [hl, h1, h2, h3]
    simp [Vec3.dot, Vec3.sub_def, Vec3.scale]
  refine ⟨hl, hp, ?_⟩
  unfold eclipsePerpDistance length
  rw [hp]
  unfold normalize
  rw [hl, h1, h2, h3]
  have : Vec3.dot ((⟨x, y, 0⟩ : Vec3 F) - (⟨0, 0, 0⟩ + (((⟨10, 0, 0⟩ : Vec3 F) - ⟨0, 0, 0⟩).scale
      (1 / 10)).scale x)) ((⟨x, y, 0⟩ : Vec3 F) - (⟨0, 0, 0⟩ +
      (((⟨10, 0, 0⟩ : Vec3 F) - ⟨0, 0, 0⟩).scale (1 / 10)).scale x)) = y * y := by
    simp [Vec3.dot, Vec3.sub_def, Vec3.add_def, Vec3.scale]
  rw [this]
  exact hs.sqrt_mul_self hy

theorem lt_length_of_getElem? {α : Type} {l : List α} {i : Nat} {a : α} (h : l[i]? = some a) :
    i < l.length := by
  by_contra hn
  rw [List.getElem?_eq_none (not_lt.1 hn)] at h
  exact Option.noConfusion h

theorem gravityLoop_pair (ops : FloatOps F) (earth : Option Nat) (a b : CelestialBody F) :
    gravityLoop ops earth [a, b]
      = gravityPair ops earth (gravityPair ops earth [a, b] 0 1) 1 0 := by
  simp [gravityLoop, List.range_succ, gravityPair]

theorem dot_sub_comm (a b : Vec3 F) : Vec3.dot (a - b) (a - b) = Vec3.dot (b - a) (b - a) := by
  simp only [Vec3.dot, Vec3.sub_def]; ring

theorem length_sub_comm (ops : FloatOps F) (a b : Vec3 F) :
    length ops (a - b) = length ops (b - a) := by
  unfold length; rw [dot_sub_comm]

theorem normalize_sub_comm (ops : FloatOps F) (a b : Vec3 F) :
    normalize ops (a - b) = -normalize ops (b - a) := by
  unfold normalize
  rw [dot_sub_comm a b]
  simp only [Vec3.sub_def, Vec3.neg_def, Vec3.scale, Vec3.mk.injEq]
  refine ⟨?_, ?_, ?_⟩ <;> ring

/-- The pair step when one of the two bodies is the star and no Moon skip applies. -/
theorem gravityPair_of_star (ops : FloatOps F) (earth : Option Nat)
    (bodies : List (CelestialBody F)) (i j : Nat) (A B : CelestialBody F) (hij : i ≠ j)
    (hA : bodies[i]? = some A) (hB : bodies[j]? = some B)
    (hsun : A.name = "Sun" ∨ B.name = "Sun")
    (hskipA : ¬ (A.name = "Moon" ∧ withinMoonEscape ops earth bodies A = true))
    (hskipB : ¬ (B.name = "Moon" ∧ withinMoonEscape ops earth bodies B = true)) :
    gravityPair ops earth bodies i j =
      if length ops (B.position - A.position) < 0.01 then bodies
      else bodies.set i (A.accelerate
        ((normalize ops (B.position - A.position)).scale
          (0.01 * A.mass * B.mass / (length ops (B.position - A.position)
            * length ops (B.position - A.position)) / A.mass))) := by
  unfold gravityPair
  rw [if_neg hij, hA, hB]
  dsimp only
  rw [if_neg (by simp only [Bool.and_eq_true, beq_iff_eq]; tauto),
    if_neg (by simp only [Bool.and_eq_true, beq_iff_eq]; tauto)]
  have : (A.name != "Sun" && B.name != "Sun") = false := by
    rcases hsun with h | h <;> simp [h]
  rw [this]
  simp only [Bool.false_eq_true, if_false]

/-- The pair step for two non-star bodies at least 7 apart when no Moon skip applies. -/
theorem gravityPair_far (ops : FloatOps F) (earth : Option Nat)
    (bodies : List (CelestialBody F)) (i j : Nat) (A B : CelestialBody F) (hij : i ≠ j)
    (hA : bodies[i]? = some A) (hB : bodies[j]? = some B)
    (hAs : A.name ≠ "Sun") (hBs : B.name ≠ "Sun")
    (hskipA : ¬ (A.name = "Moon" ∧ withinMoonEscape ops earth bodies A = true))
    (hskipB : ¬ (B.name = "Moon" ∧ withinMoonEscape ops earth bodies B = true))
    (hd : 7 ≤ length ops (B.position - A.position)) :
    gravityPair ops earth bodies i j =
      (bodies.set i (A.accelerate
        ((normalize ops (B.position - A.position)).scale
          (0.01 * A.mass * B.mass / (length ops (B.position - A.position)
            * length ops (B.position - A.position)) / A.mass)))).set j
        (B.accelerate
        ((-(normalize ops (B.position - A.position))).scale
          (0.01 * A.mass * B.mass / (length ops (B.position - A.position)
            * length ops (B.position - A.position)) / B.mass))) := by
  unfold gravityPair
  rw [if_neg hij, hA, hB]
  dsimp only
  rw [if_neg (by simp only [Bool.and_eq_true, beq_iff_eq]; tauto),
    if_neg (by simp only [Bool.and_eq_true, beq_iff_eq]; tauto),
    if_neg (by linarith [show (0.01 : F) < 7 by norm_num])]
  have : (A.name != "Sun" && B.name != "Sun") = true := by simp [hAs, hBs]
  rw [this, if_pos rfl, if_neg (by linarith)]

/-- In a star pair the step leaves every entry but `i` alone. -/
theorem gravityPair_of_star_other (ops : FloatOps F) (earth : Option Nat)
    (bodies : List (CelestialBody F)) (i j : Nat) (A B : CelestialBody F) (hij : i ≠ j)
    (hA : bodies[i]? = some A) (hB : bodies[j]? = some B)
    (hsun : A.name = "Sun" ∨ B.name = "Sun")
    (hskipA : ¬ (A.name = "Moon" ∧ withinMoonEscape ops earth bodies A = true))
    (hskipB : ¬ (B.name = "Moon" ∧ withinMoonEscape ops earth bodies B = true))
    (k : Nat) (hk : i ≠ k) :
    (gravityPair ops earth bodies i j)[k]? = bodies[k]? := by
  rw [gravityPair_of_star ops earth bodies i j A B hij hA hB hsun hskipA hskipB]
  split_ifs
  · rfl
  · exact List.getElem?_set_ne hk

/-- In a star pair the step keeps name, position and mass of entry `i`. -/
theorem gravityPair_of_star_self (ops : FloatOps F) (earth : Option Nat)
    (bodies : List (CelestialBody F)) (i j : Nat) (A B : CelestialBody F) (hij : i ≠ j)
    (hA : bodies[i]? = some A) (hB : bodies[j]? = some B)
    (hsun : A.name = "Sun" ∨ B.name = "Sun")
    (hskipA : ¬ (A.name = "Moon" ∧ withinMoonEscape ops earth bodies A = true))
    (hskipB : ¬ (B.name = "Moon" ∧ withinMoonEscape ops earth bodies B = true)) :
    ∃ A1 : CelestialBody F, (gravityPair ops earth bodies i j)[i]? = some A1 ∧
      A1.name = A.name ∧ A1.position = A.position ∧ A1.mass = A.mass := by
  rw [gravityPair_of_star ops earth bodies i j A B hij hA hB hsun hskipA hskipB]
  split_ifs
  · exact ⟨A, hA, rfl, rfl, rfl⟩
  · exact ⟨_, List.getElem?_set_self (lt_length_of_getElem? hA), rfl, rfl, rfl⟩

/-- In a star pair at distance at least 0.01 entry `i` receives the base-law acceleration. -/
theorem gravityPair_of_star_target (ops : FloatOps F) (earth : Option Nat)
    (bodies : List (CelestialBody F)) (i j : Nat) (A B : CelestialBody F) (hij : i ≠ j)
    (hA : bodies[i]? = some A) (hB : bodies[j]? = some B)
    (hsun : A.name = "Sun" ∨ B.name = "Sun")
    (hskipA : ¬ (A.name = "Moon" ∧ withinMoonEscape ops earth bodies A = true))
    (hskipB : ¬ (B.name = "Moon" ∧ withinMoonEscape ops earth bodies B = true))
    (hd : 0.01 ≤ length ops (B.position - A.position)) :
    (gravityPair ops earth bodies i j)[i]? = some (A.accelerate
        ((normalize ops (B.position - A.position)).scale
          (0.01 * A.mass * B.mass / (length ops (B.position - A.position)
            * length ops (B.position - A.position)) / A.mass))) := by
  rw [gravityPair_of_star ops earth bodies i j A B hij hA hB hsun hskipA hskipB,
    if_neg (not_lt.2 hd)]
  exact List.getElem?_set_self (lt_length_of_getElem? hA)

theorem withinMoonEscape_none (ops : FloatOps F) (bodies : List (CelestialBody F))
    (X : CelestialBody F) : withinMoonEscape ops none bodies X = false := rfl

theorem moonOverride_of_none (ops : FloatOps F) (nm : NamedBodies)
    (bodies : List (CelestialBody F)) (h : nm.moon = none ∨ nm.earth = none) :
    moonOverride ops nm bodies = bodies := by
  unfold moonOverride
  rcases h with h | h
  · rw [h]
  · rw [h]; cases nm.moon <;> rfl

theorem gravityPass_pair (ops : FloatOps F) (a b : CelestialBody F)
    (h : (findNamed [resetBody a, resetBody b] 0 ⟨none, none, none⟩).moon = none ∨
      (findNamed [resetBody a, resetBody b] 0 ⟨none, none, none⟩).earth = none) :
    gravityPass ops [a, b] =
      gravityPair ops (findNamed [resetBody a, resetBody b] 0 ⟨none, none, none⟩).earth
        (gravityPair ops (findNamed [resetBody a, resetBody b] 0 ⟨none, none, none⟩).earth
          [resetBody a, resetBody b] 0 1) 1 0 := by
  unfold gravityPass
  simp only [resetBodies, List.map]
  rw [moonOverride_of_none ops _ _ h, gravityLoop_pair]

/-- In a pair with a star either no body is named "Moon" or no body is named "Earth". -/
theorem findNamed_pair_of_star (a b : CelestialBody F) (h : a.name = "Sun" ∨ b.name = "Sun") :
    ((findNamed [resetBody a, resetBody b] 0 ⟨none, none, none⟩).moon = none ∧
      a.name ≠ "Moon" ∧ b.name ≠ "Moon") ∨
    (findNamed [resetBody a, resetBody b] 0 ⟨none, none, none⟩).earth = none := by
  simp only [findNamed, resetBody, CelestialBody.resetAcceleration]
  rcases h with h | h
  · by_cases hM : b.name = "Moon"
    · right; simp [h, hM]
    · left; simp [h, hM]; split_ifs <;> rfl
  · by_cases hM : a.name = "Moon"
    · right; simp [h, hM]
    · left; simp [h, hM]; split_ifs <;> rfl

/-- In a pair with a star the Moon skip of lines 66-67 never applies. -/
theorem no_moon_skip_of_star (ops : FloatOps F) (a b : CelestialBody F)
    (h : a.name = "Sun" ∨ b.name = "Sun") (bodies : List (CelestialBody F))
    (X : CelestialBody F) (hX : X.name = a.name ∨ X.name = b.name) :
    ¬ (X.name = "Moon" ∧ withinMoonEscape ops
      (findNamed [resetBody a, resetBody b] 0 ⟨none, none, none⟩).earth bodies X = true) := by
  rcases findNamed_pair_of_star a b h with ⟨-, ha, hb⟩ | he
  · rintro ⟨hm, -⟩
    rcases hX with hX | hX
    · exact ha (hX ▸ hm)
    · exact hb (hX ▸ hm)
  · rw [he, withinMoonEscape_none]
    simp

theorem star_accel_eq (u : Vec3 F) (mp ms d : F) (hm : mp ≠ 0) (hd : d ≠ 0) :
    Vec3.splat 0 + u.scale (0.01 * mp * ms / (d * d) / mp) = u.scale (0.01 * ms / d ^ 2) := by
  have h : 0.01 * mp * ms / (d * d) / mp = 0.01 * ms / d ^ 2 := by
    field_simp; ring
  rw [h]
  simp [Vec3.add_def, Vec3.splat, Vec3.scale]

/-- acceleration of the non-star body `p` at index `k` after the two pair steps -/
theorem star_pair_acceleration (ops : FloatOps F) (s p : CelestialBody F) (hs : s.name = "Sun")
    (hm : p.mass ≠ 0) (hd : 0.01 ≤ length ops (s.position - p.position))
    (a b : CelestialBody F) (hsun : a.name = "Sun" ∨ b.name = "Sun")
    (k0 k1 : Nat) (L : List (CelestialBody F)) (hk : k0 ≠ k1)
    (hL0 : L[k0]? = some (resetBody s)) (hL1 : L[k1]? = some (resetBody p))
    (hns : s.name = a.name ∨ s.name = b.name) (hnp : p.name = a.name ∨ p.name = b.name)
    (i j : Nat) (hij : (i = k0 ∧ j = k1) ∨ (i = k1 ∧ j = k0)) :
    ((gravityPair ops (findNamed [resetBody a, resetBody b] 0 ⟨none, none, none⟩).earth
        (gravityPair ops (findNamed [resetBody a, resetBody b] 0 ⟨none, none, none⟩).earth
          L i j) j i)[k1]?).map CelestialBody.acceleration
      = some ((normalize ops (s.position - p.position)).scale
          (0.01 * s.mass / length ops (s.position - p.position) ^ 2)) := by
  have hd0 : length ops (s.position - p.position) ≠ 0 := by
    intro h; rw [h] at hd; norm_num at hd
  have skip : ∀ (bodies : List (CelestialBody F)) (X : CelestialBody F),
      (X.name = s.name ∨ X.name = p.name) →
      ¬ (X.name = "Moon" ∧ withinMoonEscape ops
        (findNamed [resetBody a, resetBody b] 0 ⟨none, none, none⟩).earth bodies X = true) := by
    intro bodies X hX
    apply no_moon_skip_of_star ops a b hsun bodies X
    rcases hX with hX | hX
    · rw [hX]; exact hns
    · rw [hX]; exact hnp
  rcases hij with ⟨rfl, rfl⟩ | ⟨rfl, rfl⟩
  · -- first the star's step, then the body's step
    have h1 := gravityPair_of_star_other ops _ L i j (resetBody s) (resetBody p) hk hL0 hL1
      (Or.inl hs) (skip _ _ (Or.inl rfl)) (skip _ _ (Or.inr rfl)) j hk
    obtain ⟨S, hS, hSn, hSp, hSm⟩ := gravityPair_of_star_self ops _ L i j (resetBody s)
      (resetBody p) hk hL0 hL1 (Or.inl hs) (skip _ _ (Or.inl rfl)) (skip _ _ (Or.inr rfl))
    rw [hL1] at h1
    have hSsun : S.name = "Sun" := hSn.trans hs
    rw [gravityPair_of_star_target ops _ _ j i (resetBody p) S hk.symm h1 hS (Or.inr hSsun)
      (skip _ _ (Or.inr rfl)) (skip _ _ (Or.inl hSn)) (by rw [hSp]; exact hd)]
    rw [hSp, hSm]
    exact congrArg some (star_accel_eq _ _ _ _ hm hd0)
  · -- first the body's step, then the star's step
    have h1 := gravityPair_of_star_target ops _ L i j (resetBody p) (resetBody s) hk.symm hL1 hL0
      (Or.inr hs) (skip _ _ (Or.inr rfl)) (skip _ _ (Or.inl rfl)) hd
    obtain ⟨P, hP, hPn, hPp, hPm⟩ := gravityPair_of_star_self ops _ L i j (resetBody p)
      (resetBody s) hk.symm hL1 hL0 (Or.inr hs) (skip _ _ (Or.inr rfl)) (skip _ _ (Or.inl rfl))
    have h0 := gravityPair_of_star_other ops _ L i j (resetBody p) (resetBody s) hk.symm hL1 hL0
      (Or.inr hs) (skip _ _ (Or.inr rfl)) (skip _ _ (Or.inl rfl)) j hk.symm
    rw [hL0] at h0
    rw [gravityPair_of_star_other ops _ _ j i (resetBody s) P hk h0 hP (Or.inl hs)
      (skip _ _ (Or.inl rfl)) (skip _ _ (Or.inr hPn)) i hk, h1]
    exact congrArg some (star_accel_eq _ _ _ _ hm hd0)

/-- Where the lookup loop finds "Earth" in a two-body scene. -/
theorem findNamed_pair_earth (a b : CelestialBody F) :
    (findNamed [resetBody a, resetBody b] 0 ⟨none, none, none⟩).earth = none ∨
    ((findNamed [resetBody a, resetBody b] 0 ⟨none, none, none⟩).earth = some 0 ∧
      a.name = "Earth") ∨
    ((findNamed [resetBody a, resetBody b] 0 ⟨none, none, none⟩).earth = some 1 ∧
      b.name = "Earth") := by
  simp only [findNamed, resetBody, CelestialBody.resetAcceleration]
  by_cases ha : a.name = "Earth" <;> by_cases hb : b.name = "Earth" <;>
    simp [ha, hb] <;> split_ifs <;> simp

/-- Where the lookup loop finds "Moon" in a two-body scene. -/
theorem findNamed_pair_moon (a b : CelestialBody F) :
    (findNamed [resetBody a, resetBody b] 0 ⟨none, none, none⟩).moon = none ∨
    ((findNamed [resetBody a, resetBody b] 0 ⟨none, none, none⟩).moon = some 0 ∧
      a.name = "Moon") ∨
    ((findNamed [resetBody a, resetBody b] 0 ⟨none, none, none⟩).moon = some 1 ∧
      b.name = "Moon") := by
  simp only [findNamed, resetBody, CelestialBody.resetAcceleration]
  by_cases ha : a.name = "Moon" <;> by_cases hb : b.name = "Moon" <;>
    simp [ha, hb] <;> split_ifs <;> simp

theorem set_of_getElem? {α : Type} : ∀ (l : List α) (i : Nat) (a : α), l[i]? = some a →
    l.set i a = l
  | [], _, _, _ => rfl
  | x :: xs, 0, a, h => by
    simp only [List.getElem?_cons_zero, Option.some.injEq] at h
    rw [List.set_cons_zero, h]
  | x :: xs, i + 1, a, h => by
    simp only [List.getElem?_cons_succ] at h
    rw [List.set_cons_succ, set_of_getElem? xs i a h]

theorem CelestialBody.accelerate_zero (b : CelestialBody F) (v : Vec3 F) :
    b.accelerate (v.scale 0) = b := by
  cases b with
  | mk position velocity acceleration =>
    cases acceleration
    simp [CelestialBody.accelerate, Vec3.add_def, Vec3.scale]

theorem capture_scene_values :
    length ⟨Real.sqrt, Real.sin⟩ ((captureEarth ℝ).position - (captureMoon ℝ).position) = 2 ∧
    Vec3.dot ((captureMoon ℝ).velocity - (captureEarth ℝ).velocity)
      (normalize ⟨Real.sqrt, Real.sin⟩
        (Vec3.cross ((captureEarth ℝ).position - (captureMoon ℝ).position) ⟨0, 1, 0⟩)) = 1 := by
  have hs := exactSqrt_real Real.sin
  have e1 : Vec3.dot ((captureEarth ℝ).position - (captureMoon ℝ).position)
      ((captureEarth ℝ).position - (captureMoon ℝ).position) = 2 * 2 := by
    simp [captureEarth, captureMoon, testBody, CelestialBody.new, Vec3.dot, Vec3.sub_def]
  have e2 : Vec3.cross ((captureEarth ℝ).position - (captureMoon ℝ).position) ⟨0, 1, 0⟩
      = ⟨2, 0, 0⟩ := by
    simp [captureEarth, captureMoon, testBody, CelestialBody.new, Vec3.cross, Vec3.sub_def]
  have e3 : Vec3.dot (⟨2, 0, 0⟩ : Vec3 ℝ) ⟨2, 0, 0⟩ = 2 * 2 := by
    simp [Vec3.dot]
  constructor
  · unfold length
    rw [e1]; exact hs.sqrt_mul_self (by norm_num)
  · unfold normalize
    rw [e2, e3, hs.sqrt_mul_self (by norm_num)]
    simp [captureEarth, captureMoon, testBody, CelestialBody.new, Vec3.dot, Vec3.sub_def,
      Vec3.scale]


/-- With the two bodies at least 7 apart the Moon skip of lines 66-67 never applies. -/
theorem no_moon_skip_far (ops : FloatOps F) (a b : CelestialBody F)
    (hd : 7 ≤ length ops (b.position - a.position)) (A1 B1 : CelestialBody F)
    (hA1 : A1.position = a.position) (hB1 : B1.position = b.position) (X : CelestialBody F)
    (hX : (X.name = a.name ∧ X.position = a.position) ∨
      (X.name = b.name ∧ X.position = b.position)) :
    ¬ (X.name = "Moon" ∧ withinMoonEscape ops
      (findNamed [resetBody a, resetBody b] 0 ⟨none, none, none⟩).earth [A1, B1] X = true) := by
  have h5 : ¬ length ops (b.position - a.position) ≤ 5 := by
    intro h; linarith
  rintro ⟨hXm, hw⟩
  rcases findNamed_pair_earth a b with h | ⟨h, hn⟩ | ⟨h, hn⟩
  · rw [h, withinMoonEscape_none] at hw
    exact Bool.noConfusion hw
  · rw [h] at hw
    simp only [withinMoonEscape, List.getElem?_cons_zero, decide_eq_true_eq] at hw
    rcases hX with ⟨hXn, -⟩ | ⟨-, hXp⟩
    · rw [hXn, hn] at hXm; exact absurd hXm (by decide)
    · rw [hXp, hA1] at hw; exact h5 hw
  · rw [h] at hw
    simp only [withinMoonEscape, List.getElem?_cons_succ, List.getElem?_cons_zero,
      decide_eq_true_eq] at hw
    rcases hX with ⟨-, hXp⟩ | ⟨hXn, -⟩
    · rw [hXp, hB1, length_sub_comm] at hw; exact h5 hw
    · rw [hXn, hn] at hXm; exact absurd hXm (by decide)

/-- With the two bodies at least 7 apart the Moon override does nothing. -/
theorem moonOverride_far (ops : FloatOps F) (a b : CelestialBody F)
    (hd : 7 ≤ length ops (b.position - a.position)) :
    moonOverride ops (findNamed [resetBody a, resetBody b] 0 ⟨none, none, none⟩)
      [resetBody a, resetBody b] = [resetBody a, resetBody b] := by
  have h5 : ¬ length ops (b.position - a.position) ≤ 5 := by
    intro h; linarith
  have h5' : ¬ length ops (a.position - b.position) ≤ 5 := by
    rw [length_sub_comm]; exact h5
  rcases findNamed_pair_moon a b with hm | ⟨hm, hmn⟩ | ⟨hm, hmn⟩
  · exact moonOverride_of_none ops _ _ (Or.inl hm)
  · rcases findNamed_pair_earth a b with he | ⟨he, hen⟩ | ⟨he, hen⟩
    · exact moonOverride_of_none ops _ _ (Or.inr he)
    · rw [hmn] at hen; exact absurd hen (by decide)
    · unfold moonOverride
      rw [hm, he]
      simp only [List.getElem?_cons_succ, List.getElem?_cons_zero]
      exact if_neg h5
  · rcases findNamed_pair_earth a b with he | ⟨he, hen⟩ | ⟨he, hen⟩
    · exact moonOverride_of_none ops _ _ (Or.inr he)
    · unfold moonOverride
      rw [hm, he]
      simp only [List.getElem?_cons_succ, List.getElem?_cons_zero]
      exact if_neg h5'
    · rw [hmn] at hen; exact absurd hen (by decide)

theorem far_accel_eq (u : Vec3 F) (ma mb d : F) (hm : ma ≠ 0) (hd : d ≠ 0) :
    (Vec3.splat 0 + u.scale (0.01 * ma * mb / (d * d) / ma))
        + (- -u).scale (0.01 * mb * ma / (d * d) / ma)
      = u.scale (2 * (0.01 * mb / d ^ 2)) := by
  have h : 0.01 * ma * mb / (d * d) / ma = 0.01 * mb / d ^ 2 := by
    field_simp; ring
  have h' : 0.01 * mb * ma / (d * d) / ma = 0.01 * mb / d ^ 2 := by
    field_simp; ring
  rw [h, h']
  simp only [Vec3.add_def, Vec3.splat, Vec3.scale, Vec3.neg_def, Vec3.mk.injEq]
  refine ⟨?_, ?_, ?_⟩ <;> ring

theorem far_accel_eq' (u : Vec3 F) (ma mb d : F) (hm : mb ≠ 0) (hd : d ≠ 0) :
    (Vec3.splat 0 + (- -u).scale (0.01 * ma * mb / (d * d) / mb))
        + u.scale (0.01 * mb * ma / (d * d) / mb)
      = u.scale (2 * (0.01 * ma / d ^ 2)) := by
  have h : 0.01 * ma * mb / (d * d) / mb = 0.01 * ma / d ^ 2 := by
    field_simp; ring
  have h' : 0.01 * mb * ma / (d * d) / mb = 0.01 * ma / d ^ 2 := by
    field_simp; ring
  rw [h, h']
  simp only [Vec3.add_def, Vec3.splat, Vec3.scale, Vec3.neg_def, Vec3.mk.injEq]
  refine ⟨?_, ?_, ?_⟩ <;> ring

/-- The two pair steps of the double loop on two non-star bodies at least 7 apart. -/
theorem gravityPair_far_steps (ops : FloatOps F) (a b : CelestialBody F)
    (ha : a.name ≠ "Sun") (hb : b.name ≠ "Sun")
    (hd : 7 ≤ length ops (b.position - a.position)) (A1 B1 : CelestialBody F)
    (hAp : A1.position = a.position) (hAn : A1.name = a.name) (hAm : A1.mass = a.mass)
    (hBp : B1.position = b.position) (hBn : B1.name = b.name) (hBm : B1.mass = b.mass) :
    gravityPair ops (findNamed [resetBody a, resetBody b] 0 ⟨none, none, none⟩).earth
        [A1, B1] 0 1 =
      [A1.accelerate ((normalize ops (b.position - a.position)).scale
          (0.01 * a.mass * b.mass / (length ops (b.position - a.position)
            * length ops (b.position - a.position)) / a.mass)),
        B1.accelerate ((-(normalize ops (b.position - a.position))).scale
          (0.01 * a.mass * b.mass / (length ops (b.position - a.position)
            * length ops (b.position - a.position)) / b.mass))] ∧
    gravityPair ops (findNamed [resetBody a, resetBody b] 0 ⟨none, none, none⟩).earth
        [A1, B1] 1 0 =
      [A1.accelerate ((-(normalize ops (a.position - b.position))).scale
          (0.01 * b.mass * a.mass / (length ops (a.position - b.position)
            * length ops (a.position - b.position)) / a.mass)),
        B1.accelerate ((normalize ops (a.position - b.position)).scale
          (0.01 * b.mass * a.mass / (length ops (a.position - b.position)
            * length ops (a.position - b.position)) / b.mass))] := by
  have hd' : 7 ≤ length ops (a.position - b.position) := by
    rw [length_sub_comm]; exact hd
  have skipA := no_moon_skip_far ops a b hd A1 B1 hAp hBp A1 (Or.inl ⟨hAn, hAp⟩)
  have skipB := no_moon_skip_far ops a b hd A1 B1 hAp hBp B1 (Or.inr ⟨hBn, hBp⟩)
  constructor
  · rw [gravityPair_far ops _ [A1, B1] 0 1 A1 B1 (by decide) rfl rfl (hAn ▸ ha) (hBn ▸ hb)
      skipA skipB (by rw [hAp, hBp]; exact hd)]
    simp only [List.set_cons_zero, List.set_cons_succ, hAp, hBp, hAm, hBm]
  · rw [gravityPair_far ops _ [A1, B1] 1 0 B1 A1 (by decide) rfl rfl (hBn ▸ hb) (hAn ▸ ha)
      skipB skipA (by rw [hAp, hBp]; exact hd')]
    simp only [List.set_cons_zero, List.set_cons_succ, hAp, hBp, hAm, hBm]

/-- Two non-star bodies at least 7 apart: each ordered pair of the double loop accelerates both
bodies, so each body receives the base-law acceleration twice. -/
theorem gravityPass_far_pair (ops : FloatOps F) (a b : CelestialBody F)
    (ha : a.name ≠ "Sun") (hb : b.name ≠ "Sun") (hma : a.mass ≠ 0) (hmb : b.mass ≠ 0)
    (hd : 7 ≤ length ops (b.position - a.position)) :
    ((gravityPass ops [a, b])[0]?).map CelestialBody.acceleration
      = some ((normalize ops (b.position - a.position)).scale
          (2 * (0.01 * b.mass / length ops (b.position - a.position) ^ 2))) ∧
    ((gravityPass ops [a, b])[1]?).map CelestialBody.acceleration
      = some ((normalize ops (a.position - b.position)).scale
          (2 * (0.01 * a.mass / length ops (b.position - a.position) ^ 2))) := by
  have hd0 : length ops (b.position - a.position) ≠ 0 := by
    intro h; rw [h] at hd; norm_num at hd
  unfold gravityPass
  simp only [resetBodies, List.map]
  rw [moonOverride_far ops a b hd, gravityLoop_pair]
  rw [(gravityPair_far_steps ops a b ha hb hd (resetBody a) (resetBody b)
    rfl rfl rfl rfl rfl rfl).1]
  rw [(gravityPair_far_steps ops a b ha hb hd ((resetBody a).accelerate _)
    ((resetBody b).accelerate _) rfl rfl rfl rfl rfl rfl).2]
  simp only [List.getElem?_cons_zero, List.getElem?_cons_succ, Option.map_some',
    Option.some.injEq]
  constructor
  · show (Vec3.splat 0 + (normalize ops (b.position - a.position)).scale
        (0.01 * a.mass * b.mass / (length ops (b.position - a.position)
          * length ops (b.position - a.position)) / a.mass))
      + (-(normalize ops (a.position - b.position))).scale
        (0.01 * b.mass * a.mass / (length ops (a.position - b.position)
          * length ops (a.position - b.position)) / a.mass) = _
    rw [normalize_sub_comm ops a.position b.position, length_sub_comm ops a.position b.position]
    exact far_accel_eq _ _ _ _ hma hd0
  · show (Vec3.splat 0 + (-(normalize ops (b.position - a.position))).scale
        (0.01 * a.mass * b.mass / (length ops (b.position - a.position)
          * length ops (b.position - a.position)) / b.mass))
      + (normalize ops (a.position - b.position)).scale
        (0.01 * b.mass * a.mass / (length ops (a.position - b.position)
          * length ops (a.position - b.position)) / b.mass) = _
    rw [normalize_sub_comm ops b.position a.position, length_sub_comm ops a.position b.position]
    exact far_accel_eq' _ _ _ _ hmb hd0

theorem clampCollisionSpeed_position (ops : FloatOps F) (p : CelestialBody F) :
    (clampCollisionSpeed ops p).position = p.position := by
  unfold clampCollisionSpeed; dsimp only; split_ifs <;> rfl

theorem clampCollisionSpeed_radius (ops : FloatOps F) (p : CelestialBody F) :
    (clampCollisionSpeed ops p).radius = p.radius := by
  unfold clampCollisionSpeed; dsimp only; split_ifs <;> rfl

theorem applyImpulse_position (impulse : Vec3 F) (a b : CelestialBody F) :
    (applyImpulse impulse a b).1.position = a.position ∧
      (applyImpulse impulse a b).2.position = b.position := by
  unfold applyImpulse; dsimp only; constructor <;> split_ifs <;> rfl

theorem applyImpulse_radius (impulse : Vec3 F) (a b : CelestialBody F) :
    (applyImpulse impulse a b).1.radius = a.radius ∧
      (applyImpulse impulse a b).2.radius = b.radius := by
  unfold applyImpulse; dsimp only; constructor <;> split_ifs <;> rfl

theorem spinKick_position (ops : FloatOps F) (n : Vec3 F) (a b : CelestialBody F) :
    (spinKick ops n a b).1.position = a.position ∧
      (spinKick ops n a b).2.position = b.position := by
  unfold spinKick; dsimp only; constructor <;> split_ifs <;> rfl

theorem spinKick_radius (ops : FloatOps F) (n : Vec3 F) (a b : CelestialBody F) :
    (spinKick ops n a b).1.radius = a.radius ∧
      (spinKick ops n a b).2.radius = b.radius := by
  unfold spinKick; dsimp only; constructor <;> split_ifs <;> rfl

theorem separateBodies_radius (ops : FloatOps F) (n : Vec3 F) (a b : CelestialBody F) :
    (separateBodies ops n a b).1.radius = a.radius ∧
      (separateBodies ops n a b).2.radius = b.radius := by
  unfold separateBodies; dsimp only; constructor <;> split_ifs <;> rfl

/-- A separating pair of non-star bodies is returned unchanged. -/
theorem resolveCollision_separating (ops : FloatOps F) (st : CollisionStatics F) (t : F)
    (a b : CelestialBody F) (ha : a.name ≠ "Sun") (hb : b.name ≠ "Sun")
    (hv : Vec3.dot (a.velocity - b.velocity) (normalize ops (a.position - b.position)) > 0) :
    resolveCollision ops st t a b = (st, a, b) := by
  unfold resolveCollision
  have h : (a.name == "Sun" || b.name == "Sun") = false := by simp [ha, hb]
  simp only [h, Bool.false_eq_true, if_false, hv, if_true]

/-- Positions and radii after the regular branch of `resolveCollision` on a non-separating pair
are those after the positional correction. -/
theorem resolveCollision_regular (ops : FloatOps F) (st : CollisionStatics F) (t : F)
    (a b : CelestialBody F) (ha : a.name ≠ "Sun") (hb : b.name ≠ "Sun")
    (hv : ¬ Vec3.dot (a.velocity - b.velocity) (normalize ops (a.position - b.position)) > 0) :
    (resolveCollision ops st t a b).2.1.position
        = (separateBodies ops (normalize ops (a.position - b.position)) a b).1.position ∧
      (resolveCollision ops st t a b).2.2.position
        = (separateBodies ops (normalize ops (a.position - b.position)) a b).2.position ∧
      (resolveCollision ops st t a b).2.1.radius = a.radius ∧
      (resolveCollision ops st t a b).2.2.radius = b.radius := by
  unfold resolveCollision
  have h : (a.name == "Sun" || b.name == "Sun") = false := by simp [ha, hb]
  simp only [h, Bool.false_eq_true, if_false, hv]
  refine ⟨?_, ?_, ?_, ?_⟩
  · show (spinKick ops _ _ _).1.position = _
    rw [(spinKick_position _ _ _ _).1, clampCollisionSpeed_position,
      (applyImpulse_position _ _ _).1]
  · show (spinKick ops _ _ _).2.position = _
    rw [(spinKick_position _ _ _ _).2, clampCollisionSpeed_position,
      (applyImpulse_position _ _ _).2]
  · show (spinKick ops _ _ _).1.radius = _
    rw [(spinKick_radius _ _ _ _).1, clampCollisionSpeed_radius,
      (applyImpulse_radius _ _ _).1, (separateBodies_radius _ _ _ _).1]
  · show (spinKick ops _ _ _).2.radius = _
    rw [(spinKick_radius _ _ _ _).2, clampCollisionSpeed_radius,
      (applyImpulse_radius _ _ _).2, (separateBodies_radius _ _ _ _).2]

theorem Vec3.dot_self_nonneg (v : Vec3 F) : 0 ≤ Vec3.dot v v := by
  unfold Vec3.dot
  have h1 := mul_self_nonneg v.x
  have h2 := mul_self_nonneg v.y
  have h3 := mul_self_nonneg v.z
  linarith

theorem Vec3.dot_self_pos_of_ne (a b : Vec3 F) (h : a ≠ b) : 0 < Vec3.dot (a - b) (a - b) := by
  rcases lt_or_eq_of_le (Vec3.dot_self_nonneg (a - b)) with h0 | h0
  · exact h0
  · exfalso
    apply h
    simp only [Vec3.dot, Vec3.sub_def] at h0
    have h1 := mul_self_nonneg (a.x - b.x)
    have h2 := mul_self_nonneg (a.y - b.y)
    have h3 := mul_self_nonneg (a.z - b.z)
    have hx : (a.x - b.x) * (a.x - b.x) = 0 := by linarith
    have hy : (a.y - b.y) * (a.y - b.y) = 0 := by linarith
    have hz : (a.z - b.z) * (a.z - b.z) = 0 := by linarith
    cases a; cases b
    simp only [Vec3.mk.injEq]
    exact ⟨sub_eq_zero.1 (mul_self_eq_zero.1 hx), sub_eq_zero.1 (mul_self_eq_zero.1 hy),
      sub_eq_zero.1 (mul_self_eq_zero.1 hz)⟩

theorem FloatOps.ExactSqrt.length_pos {ops : FloatOps F} (hs : ops.ExactSqrt) (a b : Vec3 F)
    (h : a ≠ b) : 0 < length ops (a - b) := by
  obtain ⟨h0, h1⟩ := hs _ (Vec3.dot_self_nonneg (a - b))
  have hp := Vec3.dot_self_pos_of_ne a b h
  rcases lt_or_eq_of_le h0 with h2 | h2
  · exact h2
  · exfalso
    unfold length at *
    rw [← h2] at h1
    simp at h1
    linarith

theorem FloatOps.ExactSqrt.length_scale {ops : FloatOps F} (hs : ops.ExactSqrt) (v : Vec3 F)
    (k : F) (hk : 0 ≤ k) : length ops (v.scale k) = k * length ops v := by
  obtain ⟨h0, h1⟩ := hs _ (Vec3.dot_self_nonneg v)
  unfold length
  have : Vec3.dot (v.scale k) (v.scale k)
      = (k * ops.sqrt (Vec3.dot v v)) * (k * ops.sqrt (Vec3.dot v v)) := by
    have e : (k * ops.sqrt (Vec3.dot v v)) * (k * ops.sqrt (Vec3.dot v v))
        = k * k * (ops.sqrt (Vec3.dot v v) * ops.sqrt (Vec3.dot v v)) := by ring
    rw [e, h1]
    simp only [Vec3.dot, Vec3.scale]
    ring
  rw [this]
  exact hs.sqrt_mul_self (mul_nonneg hk h0)

/-- The positional correction moves the centres apart along the line joining them. -/
theorem separateBodies_sub (ops : FloatOps F) (a b : CelestialBody F)
    (hsa : a.isStatic = false) (hsb : b.isStatic = false) (hm : a.mass + b.mass ≠ 0)
    (hd : length ops (a.position - b.position) ≠ 0)
    (hov : (a.radius + b.radius) - length ops (a.position - b.position) > 0) :
    (separateBodies ops (normalize ops (a.position - b.position)) a b).1.position
        - (separateBodies ops (normalize ops (a.position - b.position)) a b).2.position
      = (a.position - b.position).scale
          (1 + (0.5 * ((a.radius + b.radius) - length ops (a.position - b.position)) + 0.1)
            / length ops (a.position - b.position)) := by
  unfold separateBodies
  simp only [hov, if_true, hsa, hsb, Bool.false_eq_true, if_false]
  unfold normalize
  unfold length at hd hov ⊢
  generalize ops.sqrt (Vec3.dot (a.position - b.position) (a.position - b.position)) = d at *
  simp only [Vec3.sub_def, Vec3.add_def, Vec3.scale, Vec3.mk.injEq]
  refine ⟨?_, ?_, ?_⟩ <;> field_simp <;> ring


/-- Distance between the centres after the regular branch of `resolveCollision` on two
overlapping non-static bodies that are not separating: half the overlap plus the margin 0.1 is
added. -/
theorem resolveCollision_distance (ops : FloatOps F) (hs : ops.ExactSqrt)
    (st : CollisionStatics F) (t : F) (a b : CelestialBody F)
    (ha : a.name ≠ "Sun") (hb : b.name ≠ "Sun")
    (hsa : a.isStatic = false) (hsb : b.isStatic = false)
    (hma : 0 < a.mass) (hmb : 0 < b.mass) (hpos : a.position ≠ b.position)
    (hv : ¬ Vec3.dot (a.velocity - b.velocity) (normalize ops (a.position - b.position)) > 0)
    (hov : (a.radius + b.radius) - length ops (a.position - b.position) > 0) :
    length ops ((resolveCollision ops st t a b).2.1.position
        - (resolveCollision ops st t a b).2.2.position)
      = length ops (a.position - b.position)
        + 0.5 * ((a.radius + b.radius) - length ops (a.position - b.position)) + 0.1 := by
  obtain ⟨h1, h2, -, -⟩ := resolveCollision_regular ops st t a b ha hb hv
  have hd := hs.length_pos a.position b.position hpos
  rw [h1, h2, separateBodies_sub ops a b hsa hsb (by linarith) (ne_of_gt hd) hov]
  rw [hs.length_scale]
  · field_simp
    ring
  · have : 0 ≤ (0.5 * ((a.radius + b.radius) - length ops (a.position - b.position)) + 0.1)
        / length ops (a.position - b.position) := by
      apply div_nonneg _ (le_of_lt hd)
      linarith
    linarith

/-- Length of a vector along the x axis. -/
theorem FloatOps.ExactSqrt.length_x_axis {ops : FloatOps F} (hs : ops.ExactSqrt) (x : F)
    (hx : 0 ≤ x) : length ops ⟨x, 0, 0⟩ = x := by
  unfold length
  have : Vec3.dot (⟨x, 0, 0⟩ : Vec3 F) ⟨x, 0, 0⟩ = x * x := by simp [Vec3.dot]
  rw [this]
  exact hs.sqrt_mul_self hx

/-- Unit vector of a vector along the positive x axis. -/
theorem FloatOps.ExactSqrt.normalize_x_axis {ops : FloatOps F} (hs : ops.ExactSqrt) (x : F)
    (hx : 0 < x) : normalize ops ⟨x, 0, 0⟩ = ⟨1, 0, 0⟩ := by
  have h := hs.length_x_axis x (le_of_lt hx)
  unfold length at h
  unfold normalize
  rw [h]
  simp [Vec3.scale, ne_of_gt hx]

theorem farPlanet_values :
    (farPlanetB ℝ).position - (farPlanetA ℝ).position = ⟨10, 0, 0⟩ := by
  simp [farPlanetA, farPlanetB, testBody, CelestialBody.new, Vec3.sub_def]

theorem colliding_values (vx r : ℝ) :
    (collidingA ℝ vx).position - (collidingB ℝ r).position = ⟨1, 0, 0⟩ ∧
    (collidingA ℝ vx).velocity - (collidingB ℝ r).velocity = ⟨vx, 0, 0⟩ ∧
    (collidingA ℝ vx).position ≠ (collidingB ℝ r).position := by
  refine ⟨?_, ?_, ?_⟩
  · simp [collidingA, collidingB, testBody, CelestialBody.new, Vec3.sub_def]
  · simp [collidingA, collidingB, testBody, CelestialBody.new, Vec3.sub_def]
  · intro h
    have := congrArg Vec3.x h
    simp [collidingA, collidingB, testBody, CelestialBody.new] at this

/-- The trail after `addOrbitPoint` on a body that is neither static nor named "Sun". -/
theorem CelestialBody.addOrbitPoint_orbitPoints (b : CelestialBody F) (hs : b.isStatic = false)
    (hn : b.name ≠ "Sun") :
    b.addOrbitPoint.orbitPoints =
      if (b.orbitPoints ++ [b.position]).length > 4000 then (b.orbitPoints ++ [b.position]).tail
      else b.orbitPoints ++ [b.position] := by
  unfold CelestialBody.addOrbitPoint
  rw [if_neg (by simp [hs, hn])]

theorem CelestialBody.updateCollisionAnimation_inv (ops : FloatOps F) (b : CelestialBody F)
    (dt : F) (h : CollisionInv b) : CollisionInv (b.updateCollisionAnimation ops dt) := by
  unfold CelestialBody.updateCollisionAnimation
  dsimp only
  split_ifs with h1 h2
  · intro hc
    rw [h1] at hc
    exact Bool.noConfusion hc
  · intro _
    exact ⟨rfl, rfl⟩
  · exact h

theorem CelestialBody.updatePosition_inv (ops : FloatOps F) (b : CelestialBody F)
    (dt : F) (h : CollisionInv b) : CollisionInv (b.updatePosition ops dt) := by
  have h1 := CelestialBody.updateCollisionAnimation_inv ops b dt h
  cases hs : b.isStatic with
  | true => unfold CelestialBody.updatePosition; rw [if_pos hs]; exact h
  | false =>
    rw [CelestialBody.updatePosition_of_not_static ops b dt hs]
    unfold CelestialBody.addOrbitPoint
    dsimp only
    unfold CollisionInv at h1 ⊢
    split_ifs <;> exact h1

/-- The eclipse test depends on the target only through its position. -/
theorem checkForEclipse_isInShadow_congr (ops : FloatOps F) (sun earth earth2 moon : CelestialBody F)
    (h : earth2.position = earth.position) :
    (checkForEclipse ops sun earth2 moon).isInShadow
      = (checkForEclipse ops sun earth moon).isInShadow := by
  have h1 := checkForEclipse_isInShadow ops sun earth moon
  have h2 := checkForEclipse_isInShadow ops sun earth2 moon
  unfold eclipseAlignment eclipsePerpDistance eclipseProjection at h1 h2
  rw [h] at h2
  have h3 := h2.trans h1.symm
  cases hb : (checkForEclipse ops sun earth moon).isInShadow <;>
    cases hb2 : (checkForEclipse ops sun earth2 moon).isInShadow <;> simp_all

theorem checkForEclipse_shadowIntensity_congr (ops : FloatOps F)
    (sun earth earth2 moon : CelestialBody F) (h : earth2.position = earth.position) :
    (checkForEclipse ops sun earth2 moon).shadowIntensity
      = (checkForEclipse ops sun earth moon).shadowIntensity := by
  rw [checkForEclipse_shadowIntensity, checkForEclipse_shadowIntensity,
    checkForEclipse_isInShadow_congr ops sun earth earth2 moon h]
  unfold eclipseAlignment eclipsePerpDistance eclipseProjection
  rw [h]

/-- The shadow direction after `checkForEclipse`: written only when the target is in shadow. -/
theorem checkForEclipse_shadowDirection (ops : FloatOps F) (sun earth moon : CelestialBody F) :
    (checkForEclipse ops sun earth moon).shadowDirection =
      if (checkForEclipse ops sun earth moon).isInShadow = true then
        -normalize ops (earth.position - sun.position)
      else earth.shadowDirection := by
  unfold checkForEclipse
  dsimp only
  split_ifs <;> first | rfl | simp_all

theorem checkCollision_comm (ops : FloatOps F) (a b : CelestialBody F) :
    checkCollision ops a b = checkCollision ops b a := by
  unfold checkCollision
  rw [length_sub_comm ops a.position b.position, add_comm a.radius b.radius]

theorem FloatOps.ExactSqrt.length_nonneg {ops : FloatOps F} (hs : ops.ExactSqrt) (v : Vec3 F) :
    0 ≤ length ops v :=
  (hs _ (Vec3.dot_self_nonneg v)).1

/-- Position of the planet after the star branch when it is closer than the desired distance. -/
theorem resolveSunCollision_position (ops : FloatOps F) (st : CollisionStatics F) (t : F)
    (sun planet : CelestialBody F)
    (hpen : sun.radius + planet.radius + 2 - length ops (planet.position - sun.position) > 0) :
    (resolveSunCollision ops st t sun planet).2.position
      = sun.position + (normalize ops (planet.position - sun.position)).scale
          (sun.radius + planet.radius + 2) := by
  unfold resolveSunCollision
  dsimp only
  rw [if_pos hpen]
  split_ifs <;> rfl

/-- The pushed-out planet lies on the ray from the star through its old position, at the
desired distance. -/
theorem pushed_out_on_ray (ops : FloatOps F) (hs : ops.ExactSqrt) (c q : Vec3 F) (k : F)
    (hk : 0 ≤ k) (hq : q ≠ c) :
    (c + (normalize ops (q - c)).scale k) - c = (q - c).scale (k / length ops (q - c)) ∧
    length ops ((c + (normalize ops (q - c)).scale k) - c) = k := by
  have hd := hs.length_pos q c hq
  have e : (c + (normalize ops (q - c)).scale k) - c
      = (q - c).scale (k / length ops (q - c)) := by
    unfold normalize length
    simp only [Vec3.sub_def, Vec3.add_def, Vec3.scale, Vec3.mk.injEq]
    refine ⟨?_, ?_, ?_⟩ <;> ring
  refine ⟨e, ?_⟩
  rw [e, hs.length_scale _ _ (div_nonneg hk (le_of_lt hd))]
  field_simp

theorem Vec3.dot_self_pos (v : Vec3 F) (h : v ≠ ⟨0, 0, 0⟩) : 0 < Vec3.dot v v := by
  rcases lt_or_eq_of_le (Vec3.dot_self_nonneg v) with h0 | h0
  · exact h0
  · exfalso
    apply h
    simp only [Vec3.dot] at h0
    have h1 := mul_self_nonneg v.x
    have h2 := mul_self_nonneg v.y
    have h3 := mul_self_nonneg v.z
    have hx : v.x * v.x = 0 := by linarith
    have hy : v.y * v.y = 0 := by linarith
    have hz : v.z * v.z = 0 := by linarith
    cases v
    simp only [Vec3.mk.injEq]
    exact ⟨mul_self_eq_zero.1 hx, mul_self_eq_zero.1 hy, mul_self_eq_zero.1 hz⟩

theorem FloatOps.ExactSqrt.length_pos_of_ne_zero {ops : FloatOps F} (hs : ops.ExactSqrt)
    (v : Vec3 F) (h : v ≠ ⟨0, 0, 0⟩) : 0 < length ops v := by
  obtain ⟨h0, h1⟩ := hs _ (Vec3.dot_self_nonneg v)
  have hp := Vec3.dot_self_pos v h
  rcases lt_or_eq_of_le h0 with h2 | h2
  · exact h2
  · exfalso
    rw [← h2] at h1
    simp at h1
    linarith

theorem normalize_eq_scale (ops : FloatOps F) (v : Vec3 F) :
    normalize ops v = v.scale (1 / length ops v) := rfl

theorem FloatOps.ExactSqrt.length_mul_self {ops : FloatOps F} (hs : ops.ExactSqrt)
    (v : Vec3 F) : length ops v * length ops v = Vec3.dot v v :=
  (hs _ (Vec3.dot_self_nonneg v)).2

/-- A normalised non-zero vector has length 1. -/
theorem FloatOps.ExactSqrt.length_normalize {ops : FloatOps F} (hs : ops.ExactSqrt)
    (v : Vec3 F) (h : v ≠ ⟨0, 0, 0⟩) : length ops (normalize ops v) = 1 := by
  have hd := hs.length_pos_of_ne_zero v h
  rw [normalize_eq_scale, hs.length_scale _ _ (by positivity)]
  field_simp

theorem Vec3.cross_scale (a c : Vec3 F) (k m : F) :
    Vec3.cross (a.scale k) (c.scale m) = (Vec3.cross a c).scale (k * m) := by
  simp only [Vec3.cross, Vec3.scale, Vec3.mk.injEq]
  refine ⟨?_, ?_, ?_⟩ <;> ring

/-- For `c = a x v` the vector `a x c` has length `|a| |c|`. -/
theorem FloatOps.ExactSqrt.length_cross_cross {ops : FloatOps F} (hs : ops.ExactSqrt)
    (a v : Vec3 F) :
    length ops (Vec3.cross a (Vec3.cross a v)) = length ops a * length ops (Vec3.cross a v) := by
  have ha := hs.length_nonneg a
  have hc := hs.length_nonneg (Vec3.cross a v)
  have e : Vec3.dot (Vec3.cross a (Vec3.cross a v)) (Vec3.cross a (Vec3.cross a v))
      = (length ops a * length ops (Vec3.cross a v))
        * (length ops a * length ops (Vec3.cross a v)) := by
    have e1 : (length ops a * length ops (Vec3.cross a v))
        * (length ops a * length ops (Vec3.cross a v))
        = (length ops a * length ops a)
          * (length ops (Vec3.cross a v) * length ops (Vec3.cross a v)) := by ring
    rw [e1, hs.length_mul_self, hs.length_mul_self]
    simp only [Vec3.dot, Vec3.cross]
    ring
  show ops.sqrt _ = _
  rw [e]
  exact hs.sqrt_mul_self (mul_nonneg ha hc)

/-- At angle 0 the rotation is the identity. -/
theorem rotateDirection_zero (ops : FloatOps F) (trig : TrigOps F) (hcos : trig.cos 0 = 1)
    (hsin : ops.sin 0 = 0) (v dir : Vec3 F) : rotateDirection ops trig 0 v dir = dir := by
  unfold rotateDirection
  simp only [hcos, hsin]
  cases dir
  simp only [Vec3.mk.injEq]
  refine ⟨?_, ?_, ?_⟩ <;> ring

theorem generateFullOrbit_head (ops : FloatOps F) (trig : TrigOps F)
    (body centralBody : CelestialBody F) :
    (generateFullOrbit ops trig body centralBody)[0]?
      = some (orbitPoint ops trig body centralBody 0) := by
  unfold generateFullOrbit
  rw [List.getElem?_map, List.getElem?_range (by norm_num : 0 < 65)]
  rfl

/-- The first orbit point when the velocity is not parallel to the offset from the centre. -/
theorem orbitPoint_zero (ops : FloatOps F) (hs : ops.ExactSqrt) (trig : TrigOps F)
    (hcos : trig.cos 0 = 1) (hsin : ops.sin 0 = 0) (body centralBody : CelestialBody F)
    (hpos : body.position ≠ centralBody.position)
    (hv : Vec3.cross (body.position - centralBody.position) body.velocity ≠ ⟨0, 0, 0⟩) :
    orbitPoint ops trig body centralBody 0
      = centralBody.position + (normalize ops (body.position - centralBody.position)).scale
          (length ops (body.position - centralBody.position)) ∧
    orbitPoint ops trig body centralBody 0 = body.position := by
  have hd := hs.length_pos body.position centralBody.position hpos
  have hc := hs.length_pos_of_ne_zero _ hv
  have h01 : ¬ ((1 : F) < 0.1) := by norm_num
  have hn : orbitNormal ops body centralBody
      = normalize ops (Vec3.cross (body.position - centralBody.position) body.velocity) := by
    unfold orbitNormal
    dsimp only
    rw [hs.length_normalize _ hv, if_neg h01]
  have hx : length ops (Vec3.cross (normalize ops (body.position - centralBody.position))
      (normalize ops (Vec3.cross (body.position - centralBody.position) body.velocity))) = 1 := by
    rw [normalize_eq_scale, normalize_eq_scale, Vec3.cross_scale,
      hs.length_scale _ _ (by positivity), hs.length_cross_cross]
    field_simp
  have h1 : orbitPoint ops trig body centralBody 0
      = centralBody.position + (normalize ops (body.position - centralBody.position)).scale
          (length ops (body.position - centralBody.position)) := by
    unfold orbitPoint
    dsimp only
    rw [hn, hx, if_neg h01]
    have e : 2 * trig.pi * ((0 : Nat) : F) / 64 = 0 := by simp
    rw [e, rotateDirection_zero ops trig hcos hsin]
  refine ⟨h1, ?_⟩
  rw [h1, normalize_eq_scale]
  generalize length ops (body.position - centralBody.position) = d at hd
  have hd0 : d ≠ 0 := ne_of_gt hd
  cases body.position
  cases centralBody.position
  simp only [Vec3.sub_def, Vec3.add_def, Vec3.scale, Vec3.mk.injEq]
  refine ⟨?_, ?_, ?_⟩ <;> field_simp


theorem FloatOps.ExactSqrt.length_of_dot {ops : FloatOps F} (hs : ops.ExactSqrt) (v : Vec3 F)
    (k : F) (hk : 0 ≤ k) (h : Vec3.dot v v = k * k) : length ops v = k := by
  unfold length
  rw [h]
  exact hs.sqrt_mul_self hk

theorem foldl_invariant {α β : Type} (P : α → Prop) (f : α → β → α)
    (h : ∀ a b, P a → P (f a b)) : ∀ (l : List β) (a : α), P a → P (l.foldl f a)
  | [], _, ha => ha
  | b :: l, a, ha => foldl_invariant P f h l (f a b) (h a b ha)

theorem foldl_rel {α β : Type} (R : α → α → Prop) (f : α → β → α)
    (h : ∀ a a1 b, R a a1 → R (f a b) (f a1 b)) :
    ∀ (l : List β) (a a1 : α), R a a1 → R (l.foldl f a) (l.foldl f a1)
  | [], _, _, ha => ha
  | b :: l, a, a1, ha => foldl_rel R f h l (f a b) (f a1 b) (h a a1 b ha)

/-- Overwriting an entry by one with the same image under `f` keeps the image of the list. -/
theorem map_set_of_eq {α β : Type} (f : α → β) (l : List α) (i : Nat) (x a : α)
    (ha : l[i]? = some a) (hx : f x = f a) : (l.set i x).map f = l.map f := by
  rw [List.map_set]
  apply set_of_getElem?
  rw [List.getElem?_map, ha, hx]
  rfl

theorem resolveSunCollision_acceleration (ops : FloatOps F) (st : CollisionStatics F) (t : F)
    (sun planet : CelestialBody F) :
    (resolveSunCollision ops st t sun planet).2.acceleration = planet.acceleration := by
  unfold resolveSunCollision; dsimp only; split_ifs <;> rfl

theorem separateBodies_acceleration (ops : FloatOps F) (n : Vec3 F) (a b : CelestialBody F) :
    (separateBodies ops n a b).1.acceleration = a.acceleration ∧
      (separateBodies ops n a b).2.acceleration = b.acceleration := by
  unfold separateBodies; dsimp only; constructor <;> split_ifs <;> rfl

theorem applyImpulse_acceleration (impulse : Vec3 F) (a b : CelestialBody F) :
    (applyImpulse impulse a b).1.acceleration = a.acceleration ∧
      (applyImpulse impulse a b).2.acceleration = b.acceleration := by
  unfold applyImpulse; dsimp only; constructor <;> split_ifs <;> rfl

theorem clampCollisionSpeed_acceleration (ops : FloatOps F) (p : CelestialBody F) :
    (clampCollisionSpeed ops p).acceleration = p.acceleration := by
  unfold clampCollisionSpeed; dsimp only; split_ifs <;> rfl

theorem spinKick_acceleration (ops : FloatOps F) (n : Vec3 F) (a b : CelestialBody F) :
    (spinKick ops n a b).1.acceleration = a.acceleration ∧
      (spinKick ops n a b).2.acceleration = b.acceleration := by
  unfold spinKick; dsimp only; constructor <;> split_ifs <;> rfl

/-- No branch of `resolveCollision` writes an acceleration. -/
theorem resolveCollision_acceleration (ops : FloatOps F) (st : CollisionStatics F) (t : F)
    (a b : CelestialBody F) :
    (resolveCollision ops st t a b).2.1.acceleration = a.acceleration ∧
      (resolveCollision ops st t a b).2.2.acceleration = b.acceleration := by
  unfold resolveCollision
  dsimp only
  split_ifs
  · exact ⟨rfl, resolveSunCollision_acceleration ops st t a b⟩
  · exact ⟨resolveSunCollision_acceleration ops st t b a, rfl⟩
  · exact ⟨rfl, rfl⟩
  · constructor
    · show (spinKick ops _ _ _).1.acceleration = _
      rw [(spinKick_acceleration _ _ _ _).1, clampCollisionSpeed_acceleration,
        (applyImpulse_acceleration _ _ _).1, (separateBodies_acceleration _ _ _ _).1]
    · show (spinKick ops _ _ _).2.acceleration = _
      rw [(spinKick_acceleration _ _ _ _).2, clampCollisionSpeed_acceleration,
        (applyImpulse_acceleration _ _ _).2, (separateBodies_acceleration _ _ _ _).2]

theorem collidePair_acceleration (ops : FloatOps F) (clock : Nat → Nat → F)
    (s : CollisionStatics F × List (CelestialBody F)) (i j : Nat) :
    (collidePair ops clock s i j).2.map CelestialBody.acceleration
      = s.2.map CelestialBody.acceleration := by
  unfold collidePair
  cases hi : s.2[i]? with
  | none => rfl
  | some a =>
    cases hj : s.2[j]? with
    | none => rfl
    | some b =>
      dsimp only
      split_ifs
      · obtain ⟨h1, h2⟩ := resolveCollision_acceleration ops s.1 (clock i j) a b
        by_cases hij : i = j
        · subst hij
          rw [hi] at hj
          cases hj
          rw [List.set_set]
          exact map_set_of_eq _ _ _ _ _ hi h2
        · rw [map_set_of_eq _ _ _ _ b (by rw [List.getElem?_set_ne hij]; exact hj) h2]
          exact map_set_of_eq _ _ _ _ _ hi h1
      · rfl

/-- The method `handleCollisions` writes no acceleration. -/
theorem handleCollisions_acceleration (ops : FloatOps F) (clock : Nat → Nat → F)
    (st : CollisionStatics F) (bodies : List (CelestialBody F)) :
    (handleCollisions ops clock st bodies).2.map CelestialBody.acceleration
      = bodies.map CelestialBody.acceleration := by
  unfold handleCollisions
  apply foldl_invariant
    (fun s : CollisionStatics F × List (CelestialBody F) =>
      s.2.map CelestialBody.acceleration = bodies.map CelestialBody.acceleration)
  · intro s i hs
    apply foldl_invariant
      (fun s : CollisionStatics F × List (CelestialBody F) =>
        s.2.map CelestialBody.acceleration = bodies.map CelestialBody.acceleration)
    · intro s1 j hs1
      show (collidePair ops clock s1 i j).2.map CelestialBody.acceleration = _
      rw [collidePair_acceleration]; exact hs1
    · exact hs
  · rfl

theorem checkForEclipse_acceleration (ops : FloatOps F) (sun earth moon : CelestialBody F) :
    (checkForEclipse ops sun earth moon).acceleration = earth.acceleration := by
  unfold checkForEclipse; dsimp only; split_ifs <;> rfl

theorem eclipseStep_acceleration (ops : FloatOps F) (nm : NamedBodies)
    (bodies : List (CelestialBody F)) :
    (eclipseStep ops nm bodies).map CelestialBody.acceleration
      = bodies.map CelestialBody.acceleration := by
  unfold eclipseStep
  split
  · split
    · rename_i sun earth moon hs he hm
      exact map_set_of_eq _ _ _ _ earth he (checkForEclipse_acceleration ops sun earth moon)
    · rfl
  · rfl

theorem CelestialBody.updatePosition_acceleration (ops : FloatOps F) (b : CelestialBody F)
    (dt : F) : (b.updatePosition ops dt).acceleration = b.acceleration := by
  cases h : b.isStatic with
  | true => unfold CelestialBody.updatePosition; rw [if_pos h]
  | false =>
    rw [CelestialBody.updatePosition_of_not_static ops b dt h]
    unfold CelestialBody.addOrbitPoint
    dsimp only
    split_ifs <;> exact CelestialBody.updateCollisionAnimation_acceleration ops b dt

/-- The accelerations at the end of `updatePhysics` are those the gravity pass accumulated. -/
theorem updatePhysics_acceleration (ops : FloatOps F) (clock : Nat → Nat → F)
    (st : CollisionStatics F) (bodies : List (CelestialBody F)) (dt : F) :
    (updatePhysics ops clock st bodies dt).2.map CelestialBody.acceleration
      = (gravityPass ops bodies).map CelestialBody.acceleration := by
  unfold updatePhysics gravityPass
  dsimp only
  rw [List.map_map]
  have : (CelestialBody.acceleration ∘ fun b : CelestialBody F => b.updatePosition ops dt)
      = CelestialBody.acceleration := by
    funext b
    exact CelestialBody.updatePosition_acceleration ops b dt
  rw [this, eclipseStep_acceleration, handleCollisions_acceleration]

theorem resetBody_position (b : CelestialBody F) : (resetBody b).position = b.position := rfl

theorem resetBody_velocity (b : CelestialBody F) : (resetBody b).velocity = b.velocity := rfl

theorem resetBody_mass (b : CelestialBody F) : (resetBody b).mass = b.mass := rfl

theorem resetBody_radius (b : CelestialBody F) : (resetBody b).radius = b.radius := rfl

theorem resetBody_name (b : CelestialBody F) : (resetBody b).name = b.name := rfl

theorem resetBody_isStatic (b : CelestialBody F) : (resetBody b).isStatic = b.isStatic := rfl

theorem CelestialBody.accelerate_position (b : CelestialBody F) (v : Vec3 F) :
    (b.accelerate v).position = b.position := rfl

theorem CelestialBody.accelerate_velocity (b : CelestialBody F) (v : Vec3 F) :
    (b.accelerate v).velocity = b.velocity := rfl

theorem CelestialBody.accelerate_mass (b : CelestialBody F) (v : Vec3 F) :
    (b.accelerate v).mass = b.mass := rfl

theorem CelestialBody.accelerate_radius (b : CelestialBody F) (v : Vec3 F) :
    (b.accelerate v).radius = b.radius := rfl

theorem CelestialBody.accelerate_name (b : CelestialBody F) (v : Vec3 F) :
    (b.accelerate v).name = b.name := rfl

theorem CelestialBody.accelerate_isStatic (b : CelestialBody F) (v : Vec3 F) :
    (b.accelerate v).isStatic = b.isStatic := rfl

/-- The gravity pass on a two-body scene with a star, the bodies at least 0.01 apart: each body
receives the base-law acceleration of the pair once. -/
theorem gravityPass_star_pair (ops : FloatOps F) (a b : CelestialBody F)
    (hsun : a.name = "Sun" ∨ b.name = "Sun")
    (hd : 0.01 ≤ length ops (b.position - a.position)) :
    gravityPass ops [a, b] =
      [(resetBody a).accelerate ((normalize ops (b.position - a.position)).scale
          (0.01 * a.mass * b.mass / (length ops (b.position - a.position)
            * length ops (b.position - a.position)) / a.mass)),
        (resetBody b).accelerate ((normalize ops (a.position - b.position)).scale
          (0.01 * b.mass * a.mass / (length ops (a.position - b.position)
            * length ops (a.position - b.position)) / b.mass))] := by
  have hd1 : 0.01 ≤ length ops (a.position - b.position) := by
    rw [length_sub_comm]; exact hd
  rw [gravityPass_pair ops a b ((findNamed_pair_of_star a b hsun).imp (fun h => h.1) id)]
  rw [gravityPair_of_star ops _ [resetBody a, resetBody b] 0 1 (resetBody a) (resetBody b)
    (by decide) rfl rfl hsun
    (no_moon_skip_of_star ops a b hsun _ _ (Or.inl rfl))
    (no_moon_skip_of_star ops a b hsun _ _ (Or.inr rfl))]
  simp only [resetBody_position, resetBody_mass, if_neg (not_lt.2 hd), List.set_cons_zero]
  rw [gravityPair_of_star ops _ _ 1 0 (resetBody b) ((resetBody a).accelerate _)
    (by decide) rfl rfl hsun.symm
    (no_moon_skip_of_star ops a b hsun _ _ (Or.inr rfl))
    (no_moon_skip_of_star ops a b hsun _ _ (Or.inl rfl))]
  simp only [resetBody_position, resetBody_mass, CelestialBody.accelerate_position,
    CelestialBody.accelerate_mass, if_neg (not_lt.2 hd1), List.set_cons_zero,
    List.set_cons_succ]

/-- The star's own acceleration after `updatePhysics` on a two-body scene. -/
theorem updatePhysics_star_acceleration (ops : FloatOps F) (clock : Nat → Nat → F)
    (st : CollisionStatics F) (dt : F) (s p : CelestialBody F) (hs : s.name = "Sun")
    (hms : s.mass ≠ 0) (hd : 0.01 ≤ length ops (p.position - s.position)) :
    ((updatePhysics ops clock st [s, p] dt).2[0]?).map CelestialBody.acceleration
      = some ((normalize ops (p.position - s.position)).scale
          (0.01 * p.mass / length ops (p.position - s.position) ^ 2)) ∧
    ((updatePhysics ops clock st [p, s] dt).2[1]?).map CelestialBody.acceleration
      = some ((normalize ops (p.position - s.position)).scale
          (0.01 * p.mass / length ops (p.position - s.position) ^ 2)) := by
  have hd0 : length ops (p.position - s.position) ≠ 0 := by
    intro h; rw [h] at hd; norm_num at hd
  have hd1 : 0.01 ≤ length ops (s.position - p.position) := by
    rw [length_sub_comm]; exact hd
  constructor
  · rw [← List.getElem?_map, updatePhysics_acceleration,
      gravityPass_star_pair ops s p (Or.inl hs) hd]
    simp only [List.map_cons, List.getElem?_cons_zero, Option.some.injEq]
    exact star_accel_eq _ _ _ _ hms hd0
  · rw [← List.getElem?_map, updatePhysics_acceleration,
      gravityPass_star_pair ops p s (Or.inr hs) hd1]
    simp only [List.map_cons, List.getElem?_cons_succ, List.getElem?_cons_zero,
      Option.some.injEq]
    exact star_accel_eq _ _ _ _ hms hd0

/-- The pair step of the gravity loop changes accelerations only. -/
theorem gravityPair_map {β : Type} (f : CelestialBody F → β)
    (hf : ∀ (b : CelestialBody F) (v : Vec3 F), f (b.accelerate v) = f b)
    (ops : FloatOps F) (earth : Option Nat) (bodies : List (CelestialBody F)) (i j : Nat) :
    (gravityPair ops earth bodies i j).map f = bodies.map f := by
  unfold gravityPair
  by_cases hij : i = j
  · rw [if_pos hij]
  · rw [if_neg hij]
    cases hi : bodies[i]? with
    | none => rfl
    | some A =>
      cases hj : bodies[j]? with
      | none => rfl
      | some B =>
        dsimp only
        split_ifs
        · rfl
        · rfl
        · rfl
        · exact map_set_of_eq f _ _ _ A hi (hf _ _)
        · exact map_set_of_eq f _ _ _ B hj (hf _ _)
        · rw [map_set_of_eq f _ _ _ B (by rw [List.getElem?_set_ne hij]; exact hj) (hf _ _)]
          exact map_set_of_eq f _ _ _ A hi (hf _ _)
        · exact map_set_of_eq f _ _ _ A hi (hf _ _)

theorem gravityLoop_map {β : Type} (f : CelestialBody F → β)
    (hf : ∀ (b : CelestialBody F) (v : Vec3 F), f (b.accelerate v) = f b)
    (ops : FloatOps F) (earth : Option Nat) (bodies : List (CelestialBody F)) :
    (gravityLoop ops earth bodies).map f = bodies.map f := by
  unfold gravityLoop
  apply foldl_invariant (fun bs : List (CelestialBody F) => bs.map f = bodies.map f)
  · intro bs i hbs
    apply foldl_invariant (fun bs : List (CelestialBody F) => bs.map f = bodies.map f)
    · intro bs1 j hbs1
      show (gravityPair ops earth bs1 i j).map f = _
      rw [gravityPair_map f hf]; exact hbs1
    · exact hbs
  · rfl

theorem moonOverride_map {β : Type} (f : CelestialBody F → β)
    (hf : ∀ (b : CelestialBody F) (v : Vec3 F), f (b.accelerate v) = f b)
    (ops : FloatOps F) (nm : NamedBodies) (bodies : List (CelestialBody F)) :
    (moonOverride ops nm bodies).map f = bodies.map f := by
  unfold moonOverride
  split
  · split
    · rename_i moon earth hm he
      dsimp only
      split_ifs
      · exact map_set_of_eq f _ _ _ moon hm ((hf _ _).trans (hf _ _))
      · rfl
      · rfl
    · rfl
  · rfl

/-- The gravity pass changes accelerations and the shadow reset only: every quantity `f` that
does not read the acceleration is the one of the reset bodies. -/
theorem gravityPass_map {β : Type} (f : CelestialBody F → β)
    (hf : ∀ (b : CelestialBody F) (v : Vec3 F), f (b.accelerate v) = f b)
    (ops : FloatOps F) (bodies : List (CelestialBody F)) :
    (gravityPass ops bodies).map f = (resetBodies bodies).map f := by
  unfold gravityPass
  dsimp only
  rw [gravityLoop_map f hf, moonOverride_map f hf]

theorem gravityPass_length (ops : FloatOps F) (bodies : List (CelestialBody F)) :
    (gravityPass ops bodies).length = bodies.length := by
  have h := congrArg List.length (gravityPass_map (fun _ => ()) (fun _ _ => rfl) ops bodies)
  simpa [resetBodies] using h

/-- Where the lookup loop finds "Sun" in a two-body scene. -/
theorem findNamed_pair_sun (a b : CelestialBody F) :
    (findNamed [resetBody a, resetBody b] 0 ⟨none, none, none⟩).sun = none ∨
    ((findNamed [resetBody a, resetBody b] 0 ⟨none, none, none⟩).sun = some 0 ∧
      a.name = "Sun") ∨
    ((findNamed [resetBody a, resetBody b] 0 ⟨none, none, none⟩).sun = some 1 ∧
      b.name = "Sun") := by
  simp only [findNamed, resetBody, CelestialBody.resetAcceleration]
  by_cases ha : a.name = "Sun" <;> by_cases hb : b.name = "Sun" <;>
    simp [ha, hb] <;> split_ifs <;> simp

theorem eclipseStep_of_none (ops : FloatOps F) (nm : NamedBodies)
    (bodies : List (CelestialBody F)) (h : nm.sun = none ∨ nm.earth = none ∨ nm.moon = none) :
    eclipseStep ops nm bodies = bodies := by
  unfold eclipseStep
  rcases h with h | h | h
  · rw [h]
  · rw [h]; cases nm.sun <;> rfl
  · rw [h]; cases nm.sun <;> cases nm.earth <;> rfl

/-- In a two-body scene the three names are never all found. -/
theorem findNamed_pair_not_all (a b : CelestialBody F) :
    (findNamed [resetBody a, resetBody b] 0 ⟨none, none, none⟩).sun = none ∨
    (findNamed [resetBody a, resetBody b] 0 ⟨none, none, none⟩).earth = none ∨
    (findNamed [resetBody a, resetBody b] 0 ⟨none, none, none⟩).moon = none := by
  rcases findNamed_pair_sun a b with hs | ⟨hs, hsn⟩ | ⟨hs, hsn⟩
  · exact Or.inl hs
  · rcases findNamed_pair_earth a b with he | ⟨he, hen⟩ | ⟨he, hen⟩
    · exact Or.inr (Or.inl he)
    · rw [hsn] at hen; exact absurd hen (by decide)
    · rcases findNamed_pair_moon a b with hm | ⟨hm, hmn⟩ | ⟨hm, hmn⟩
      · exact Or.inr (Or.inr hm)
      · rw [hsn] at hmn; exact absurd hmn (by decide)
      · rw [hen] at hmn; exact absurd hmn (by decide)
  · rcases findNamed_pair_earth a b with he | ⟨he, hen⟩ | ⟨he, hen⟩
    · exact Or.inr (Or.inl he)
    · rcases findNamed_pair_moon a b with hm | ⟨hm, hmn⟩ | ⟨hm, hmn⟩
      · exact Or.inr (Or.inr hm)
      · rw [hen] at hmn; exact absurd hmn (by decide)
      · rw [hsn] at hmn; exact absurd hmn (by decide)
    · rw [hsn] at hen; exact absurd hen (by decide)

theorem handleCollisions_pair (ops : FloatOps F) (clock : Nat → Nat → F)
    (st : CollisionStatics F) (a b : CelestialBody F) :
    handleCollisions ops clock st [a, b] = collidePair ops clock (st, [a, b]) 0 1 := by
  simp [handleCollisions, List.range_succ, List.range']

theorem collidePair_pair (ops : FloatOps F) (clock : Nat → Nat → F)
    (st : CollisionStatics F) (a b : CelestialBody F) :
    collidePair ops clock (st, [a, b]) 0 1 =
      if checkCollision ops a b = true then
        ((resolveCollision ops st (clock 0 1) a b).1,
          [(resolveCollision ops st (clock 0 1) a b).2.1,
            (resolveCollision ops st (clock 0 1) a b).2.2])
      else (st, [a, b]) := by
  simp only [collidePair, List.getElem?_cons_zero, List.getElem?_cons_succ, List.set_cons_zero,
    List.set_cons_succ]

/-- The method `updatePhysics` on a two-body scene: gravity pass, at most one collision, then
integration (the eclipse check needs three bodies). -/
theorem updatePhysics_pair (ops : FloatOps F) (clock : Nat → Nat → F)
    (st : CollisionStatics F) (a b : CelestialBody F) (dt : F) (a1 b1 : CelestialBody F)
    (hG : gravityPass ops [a, b] = [a1, b1]) :
    updatePhysics ops clock st [a, b] dt =
      ((collidePair ops clock (st, [a1, b1]) 0 1).1,
        (collidePair ops clock (st, [a1, b1]) 0 1).2.map fun x => x.updatePosition ops dt) := by
  have hG1 : gravityLoop ops (findNamed (resetBodies [a, b]) 0 ⟨none, none, none⟩).earth
      (moonOverride ops (findNamed (resetBodies [a, b]) 0 ⟨none, none, none⟩)
        (resetBodies [a, b])) = [a1, b1] := hG
  unfold updatePhysics
  dsimp only
  have hnm : resetBodies [a, b] = [resetBody a, resetBody b] := rfl
  rw [hG1, handleCollisions_pair, hnm,
    eclipseStep_of_none ops _ _ (findNamed_pair_not_all a b)]


theorem resolveCollision_of_sun_left (ops : FloatOps F) (st : CollisionStatics F) (t : F)
    (a b : CelestialBody F) (ha : a.name = "Sun") :
    resolveCollision ops st t a b
      = ((resolveSunCollision ops st t a b).1, a, (resolveSunCollision ops st t a b).2) := by
  unfold resolveCollision
  simp [ha]

theorem resolveCollision_of_sun_right (ops : FloatOps F) (st : CollisionStatics F) (t : F)
    (a b : CelestialBody F) (ha : a.name ≠ "Sun") (hb : b.name = "Sun") :
    resolveCollision ops st t a b
      = ((resolveSunCollision ops st t b a).1, (resolveSunCollision ops st t b a).2, b) := by
  unfold resolveCollision
  simp [ha, hb]

theorem resolveSunCollision_isStatic (ops : FloatOps F) (st : CollisionStatics F) (t : F)
    (sun planet : CelestialBody F) :
    (resolveSunCollision ops st t sun planet).2.isStatic = planet.isStatic := by
  unfold resolveSunCollision; dsimp only; split_ifs <;> rfl

theorem CelestialBody.updatePosition_of_static (ops : FloatOps F) (b : CelestialBody F) (dt : F)
    (h : b.isStatic = true) : b.updatePosition ops dt = b := by
  unfold CelestialBody.updatePosition; rw [if_pos h]

theorem resolveSunCollision_lastCollisionTime (ops : FloatOps F) (st : CollisionStatics F)
    (t : F) (sun planet : CelestialBody F) :
    (resolveSunCollision ops st t sun planet).1.lastCollisionTime = st.lastCollisionTime := by
  unfold resolveSunCollision; dsimp only; split_ifs <;> rfl

theorem resolveSunCollision_snd (ops : FloatOps F) (st st1 : CollisionStatics F)
    (t : F) (sun planet : CelestialBody F) :
    (resolveSunCollision ops st t sun planet).2 = (resolveSunCollision ops st1 t sun planet).2 :=
  rfl

theorem impulseScalar_congr (st st1 : CollisionStatics F) (t : F) (a b : CelestialBody F)
    (v : F) (h : st.lastCollisionTime = st1.lastCollisionTime) :
    impulseScalar st t a b v = impulseScalar st1 t a b v := by
  unfold impulseScalar
  rw [h]

/-- The bodies `resolveCollision` returns and the last-collision time it stores depend on the
statics only through `lastCollisionTime`. -/
theorem resolveCollision_congr (ops : FloatOps F) (st st1 : CollisionStatics F) (t : F)
    (a b : CelestialBody F) (h : st.lastCollisionTime = st1.lastCollisionTime) :
    (resolveCollision ops st t a b).1.lastCollisionTime
        = (resolveCollision ops st1 t a b).1.lastCollisionTime ∧
      (resolveCollision ops st t a b).2 = (resolveCollision ops st1 t a b).2 := by
  unfold resolveCollision
  dsimp only
  split_ifs
  · exact ⟨by rw [resolveSunCollision_lastCollisionTime,
      resolveSunCollision_lastCollisionTime]; exact h, rfl⟩
  · exact ⟨by rw [resolveSunCollision_lastCollisionTime,
      resolveSunCollision_lastCollisionTime]; exact h, rfl⟩
  · exact ⟨h, rfl⟩
  · rw [impulseScalar_congr st st1 t a b _ h]
    exact ⟨rfl, rfl⟩

theorem collidePair_congr (ops : FloatOps F) (clock : Nat → Nat → F)
    (s s1 : CollisionStatics F × List (CelestialBody F)) (i j : Nat)
    (h : s.1.lastCollisionTime = s1.1.lastCollisionTime ∧ s.2 = s1.2) :
    (collidePair ops clock s i j).1.lastCollisionTime
        = (collidePair ops clock s1 i j).1.lastCollisionTime ∧
      (collidePair ops clock s i j).2 = (collidePair ops clock s1 i j).2 := by
  obtain ⟨h1, h2⟩ := h
  unfold collidePair
  rw [h2]
  cases s1.2[i]? with
  | none => exact ⟨h1, h2⟩
  | some a =>
    cases s1.2[j]? with
    | none => exact ⟨h1, h2⟩
    | some b =>
      dsimp only
      obtain ⟨h3, h4⟩ := resolveCollision_congr ops s.1 s1.1 (clock i j) a b h1
      split_ifs
      · exact ⟨h3, by rw [h4]⟩
      · exact ⟨h1, h2⟩

theorem handleCollisions_congr (ops : FloatOps F) (clock : Nat → Nat → F)
    (st st1 : CollisionStatics F) (bodies : List (CelestialBody F))
    (h : st.lastCollisionTime = st1.lastCollisionTime) :
    (handleCollisions ops clock st bodies).2 = (handleCollisions ops clock st1 bodies).2 := by
  unfold handleCollisions
  refine (foldl_rel
    (fun s s1 : CollisionStatics F × List (CelestialBody F) =>
      s.1.lastCollisionTime = s1.1.lastCollisionTime ∧ s.2 = s1.2) _ ?_ _
    (st, bodies) (st1, bodies) ⟨h, rfl⟩).2
  intro s s1 i hs
  refine foldl_rel
    (fun s s1 : CollisionStatics F × List (CelestialBody F) =>
      s.1.lastCollisionTime = s1.1.lastCollisionTime ∧ s.2 = s1.2) _ ?_ _ _ _ hs
  intro s2 s3 j hs2
  exact collidePair_congr ops clock s2 s3 i j hs2

theorem separateBodies_kinematics (ops : FloatOps F) (n : Vec3 F) (a b : CelestialBody F) :
    ((separateBodies ops n a b).1.velocity = a.velocity ∧
      (separateBodies ops n a b).1.mass = a.mass ∧
      (separateBodies ops n a b).1.isStatic = a.isStatic) ∧
    ((separateBodies ops n a b).2.velocity = b.velocity ∧
      (separateBodies ops n a b).2.mass = b.mass ∧
      (separateBodies ops n a b).2.isStatic = b.isStatic) := by
  unfold separateBodies; dsimp only
  refine ⟨⟨?_, ?_, ?_⟩, ⟨?_, ?_, ?_⟩⟩ <;> split_ifs <;> rfl

theorem applyImpulse_kinematics (impulse : Vec3 F) (a b : CelestialBody F) :
    ((applyImpulse impulse a b).1.velocity
        = (if a.isStatic then a.velocity else a.velocity + impulse.sdiv a.mass) ∧
      (applyImpulse impulse a b).1.mass = a.mass ∧
      (applyImpulse impulse a b).1.isStatic = a.isStatic) ∧
    ((applyImpulse impulse a b).2.velocity
        = (if b.isStatic then b.velocity else b.velocity - impulse.sdiv b.mass) ∧
      (applyImpulse impulse a b).2.mass = b.mass ∧
      (applyImpulse impulse a b).2.isStatic = b.isStatic) := by
  unfold applyImpulse; dsimp only
  refine ⟨⟨?_, ?_, ?_⟩, ⟨?_, ?_, ?_⟩⟩ <;> split_ifs <;> rfl

theorem clampCollisionSpeed_mass (ops : FloatOps F) (p : CelestialBody F) :
    (clampCollisionSpeed ops p).mass = p.mass := by
  unfold clampCollisionSpeed; dsimp only; split_ifs <;> rfl

theorem clampCollisionSpeed_isStatic (ops : FloatOps F) (p : CelestialBody F) :
    (clampCollisionSpeed ops p).isStatic = p.isStatic := by
  unfold clampCollisionSpeed; dsimp only; split_ifs <;> rfl

/-- A body no faster than 5 passes the clamp stage unchanged. -/
theorem clampCollisionSpeed_of_slow (ops : FloatOps F) (p : CelestialBody F)
    (h : length ops p.velocity ≤ 5) : clampCollisionSpeed ops p = p := by
  unfold clampCollisionSpeed
  dsimp only
  split_ifs with h1 h2 h3
  · rfl
  · exfalso
    have : (5 : F) < 10 := by norm_num
    linarith
  · exfalso
    linarith
  · rfl

theorem spinKick_fst_velocity (ops : FloatOps F) (n : Vec3 F) (a b : CelestialBody F)
    (hs : a.isStatic = false)
    (ht : length ops (normalize ops (Vec3.cross n ⟨0, 1, 0⟩)) > 0.1) :
    (spinKick ops n a b).1.velocity
      = a.velocity + ((normalize ops (Vec3.cross n ⟨0, 1, 0⟩)).scale 0.5).scale
          (b.mass / a.mass) := by
  unfold spinKick
  dsimp only
  rw [if_pos ht]
  simp [hs]

theorem spinKick_isStatic (ops : FloatOps F) (n : Vec3 F) (a b : CelestialBody F) :
    (spinKick ops n a b).1.isStatic = a.isStatic ∧
      (spinKick ops n a b).2.isStatic = b.isStatic := by
  unfold spinKick; dsimp only; constructor <;> split_ifs <;> rfl

/-- Velocity of `a` after the regular branch for a head-on pair on the x axis: `a` at
`(1, 0, 0)` moving with `(-1, 0, 0)` towards `b` at rest at the origin, both of mass 1. -/
theorem resolveCollision_head_on (ops : FloatOps F) (hs : ops.ExactSqrt)
    (st : CollisionStatics F) (t : F) (a b : CelestialBody F)
    (hna : a.name ≠ "Sun") (hnb : b.name ≠ "Sun") (hsa : a.isStatic = false)
    (hpa : a.position = ⟨1, 0, 0⟩) (hpb : b.position = ⟨0, 0, 0⟩)
    (hva : a.velocity = ⟨-1, 0, 0⟩) (hvb : b.velocity = ⟨0, 0, 0⟩)
    (hma : a.mass = 1) (hmb : b.mass = 1)
    (h0 : 0 ≤ impulseScalar st t a b (-1)) (h1 : impulseScalar st t a b (-1) ≤ 1) :
    (resolveCollision ops st t a b).2.1.velocity
        = ⟨-1 + impulseScalar st t a b (-1), 0, 0.5⟩ ∧
      (resolveCollision ops st t a b).2.1.isStatic = false ∧
      (resolveCollision ops st t a b).2.1.acceleration = a.acceleration := by
  have hn : normalize ops (a.position - b.position) = ⟨1, 0, 0⟩ := by
    have e : a.position - b.position = ⟨1, 0, 0⟩ := by
      rw [hpa, hpb]; simp [Vec3.sub_def]
    rw [e]; exact hs.normalize_x_axis 1 (by norm_num)
  have hv : Vec3.dot (a.velocity - b.velocity) (⟨1, 0, 0⟩ : Vec3 F) = -1 := by
    rw [hva, hvb]; simp [Vec3.dot, Vec3.sub_def]
  have hcr : Vec3.cross (⟨1, 0, 0⟩ : Vec3 F) ⟨0, 1, 0⟩ = ⟨0, 0, 1⟩ := by
    simp [Vec3.cross]
  have hl1 : length ops (⟨0, 0, 1⟩ : Vec3 F) = 1 :=
    hs.length_of_dot _ 1 (by norm_num) (by simp [Vec3.dot])
  have ht : normalize ops (⟨0, 0, 1⟩ : Vec3 F) = ⟨0, 0, 1⟩ := by
    rw [normalize_eq_scale, hl1]; simp [Vec3.scale]
  refine ⟨?_, ?_, (resolveCollision_acceleration ops st t a b).1⟩
  · unfold resolveCollision
    have hnames : (a.name == "Sun" || b.name == "Sun") = false := by simp [hna, hnb]
    simp only [hnames, Bool.false_eq_true, if_false, hn, hv]
    rw [if_neg (by norm_num)]
    show (spinKick ops _ _ _).1.velocity = _
    obtain ⟨⟨sv, sm, ss⟩, ⟨-, sm2, -⟩⟩ := separateBodies_kinematics ops ⟨1, 0, 0⟩ a b
    obtain ⟨⟨iv, im, is⟩, ⟨-, im2, -⟩⟩ := applyImpulse_kinematics
      ((⟨1, 0, 0⟩ : Vec3 F).scale (impulseScalar st t a b (-1)))
      (separateBodies ops ⟨1, 0, 0⟩ a b).1 (separateBodies ops ⟨1, 0, 0⟩ a b).2
    rw [ss, hsa, sv, sm, hva, hma] at iv
    simp only [Bool.false_eq_true, if_false] at iv
    have iv2 : (applyImpulse ((⟨1, 0, 0⟩ : Vec3 F).scale (impulseScalar st t a b (-1)))
        (separateBodies ops ⟨1, 0, 0⟩ a b).1 (separateBodies ops ⟨1, 0, 0⟩ a b).2).1.velocity
        = ⟨-(1 - impulseScalar st t a b (-1)), 0, 0⟩ := by
      rw [iv]
      simp only [Vec3.add_def, Vec3.scale, Vec3.sdiv, Vec3.mk.injEq]
      refine ⟨by ring, by simp, by simp⟩
    have hslow : length ops (applyImpulse
        ((⟨1, 0, 0⟩ : Vec3 F).scale (impulseScalar st t a b (-1)))
        (separateBodies ops ⟨1, 0, 0⟩ a b).1 (separateBodies ops ⟨1, 0, 0⟩ a b).2).1.velocity
        ≤ 5 := by
      rw [iv2, hs.length_of_dot _ (1 - impulseScalar st t a b (-1)) (by linarith)
        (by simp only [Vec3.dot]; ring)]
      linarith
    rw [clampCollisionSpeed_of_slow ops _ hslow]
    rw [spinKick_fst_velocity ops _ _ _ (by rw [is, ss]; exact hsa)
      (by rw [hcr, ht, hl1]; norm_num)]
    rw [iv2, hcr, ht, clampCollisionSpeed_mass, im, im2, sm, sm2, hma, hmb]
    simp only [Vec3.add_def, Vec3.scale, Vec3.mk.injEq]
    refine ⟨by ring, by simp, by norm_num⟩
  · unfold resolveCollision
    have hnames : (a.name == "Sun" || b.name == "Sun") = false := by simp [hna, hnb]
    simp only [hnames, Bool.false_eq_true, if_false, hn, hv]
    rw [if_neg (by norm_num)]
    show (spinKick ops _ _ _).1.isStatic = _
    rw [(spinKick_isStatic _ _ _ _).1, clampCollisionSpeed_isStatic,
      (applyImpulse_kinematics _ _ _).1.2.2, (separateBodies_kinematics _ _ _ _).1.2.2, hsa]


theorem gravityPass_pair_exists (ops : FloatOps F) (a b : CelestialBody F) :
    ∃ a1 b1 : CelestialBody F, gravityPass ops [a, b] = [a1, b1] := by
  have h := gravityPass_length ops [a, b]
  exact List.length_eq_two.1 h

/-- The gravity pass leaves position, velocity, mass, radius, name and static flag alone. -/
theorem gravityPass_pair_fields (ops : FloatOps F) (a b a1 b1 : CelestialBody F)
    (hG : gravityPass ops [a, b] = [a1, b1]) :
    (a1.position = a.position ∧ a1.velocity = a.velocity ∧ a1.mass = a.mass ∧
      a1.radius = a.radius ∧ a1.name = a.name ∧ a1.isStatic = a.isStatic) ∧
    (b1.position = b.position ∧ b1.velocity = b.velocity ∧ b1.mass = b.mass ∧
      b1.radius = b.radius ∧ b1.name = b.name ∧ b1.isStatic = b.isStatic) := by
  have h := gravityPass_map
    (fun x : CelestialBody F => (x.position, x.velocity, x.mass, x.radius, x.name, x.isStatic))
    (fun _ _ => rfl) ops [a, b]
  rw [hG] at h
  simp only [resetBodies, List.map_cons, List.map_nil, List.cons.injEq, Prod.mk.injEq,
    and_true, resetBody_position, resetBody_velocity, resetBody_mass, resetBody_radius,
    resetBody_name, resetBody_isStatic] at h
  exact h

theorem CelestialBody.updatePosition_velocity (ops : FloatOps F) (b : CelestialBody F) (dt : F)
    (h : b.isStatic = false) :
    (b.updatePosition ops dt).velocity = b.velocity + b.acceleration.scale dt := by
  rw [CelestialBody.updatePosition_of_not_static ops b dt h,
    CelestialBody.addOrbitPoint_velocity]
  dsimp only
  split_ifs <;>
    simp only [CelestialBody.updateCollisionAnimation_velocity,
      CelestialBody.updateCollisionAnimation_acceleration]

/-- Velocity of the first body after `updatePhysics` on the head-on pair. -/
theorem updatePhysics_head_on (ops : FloatOps F) (hs : ops.ExactSqrt)
    (clock : Nat → Nat → F) (st : CollisionStatics F) (dt : F) (a1 b1 : CelestialBody F)
    (hG : gravityPass ops [collidingA F (-1), collidingB F 1] = [a1, b1])
    (h0 : 0 ≤ impulseScalar st (clock 0 1) a1 b1 (-1))
    (h1 : impulseScalar st (clock 0 1) a1 b1 (-1) ≤ 1) :
    ((updatePhysics ops clock st [collidingA F (-1), collidingB F 1] dt).2[0]?).map
        CelestialBody.velocity
      = some ((⟨-1 + impulseScalar st (clock 0 1) a1 b1 (-1), 0, 0.5⟩ : Vec3 F)
          + a1.acceleration.scale dt) := by
  obtain ⟨⟨hap, hav, ham, har, han, has⟩, ⟨hbp, hbv, hbm, hbr, hbn, -⟩⟩ :=
    gravityPass_pair_fields ops _ _ a1 b1 hG
  have hpa : a1.position = ⟨1, 0, 0⟩ := hap
  have hpb : b1.position = ⟨0, 0, 0⟩ := hbp
  have hc : checkCollision ops a1 b1 = true := by
    have e : a1.position - b1.position = ⟨1, 0, 0⟩ := by
      rw [hpa, hpb]; simp [Vec3.sub_def]
    simp only [checkCollision, decide_eq_true_eq]
    rw [e, hs.length_x_axis 1 (by norm_num), har, hbr]
    show (1 : F) < 1 + 1 - 0.1
    norm_num
  obtain ⟨hv, hst, hacc⟩ := resolveCollision_head_on ops hs st (clock 0 1) a1 b1
    (by rw [han]; show "Mars" ≠ "Sun"; decide) (by rw [hbn]; show "Venus" ≠ "Sun"; decide)
    has hpa hpb hav hbv ham hbm h0 h1
  rw [updatePhysics_pair ops clock st _ _ dt a1 b1 hG, collidePair_pair, if_pos hc]
  simp only [List.map_cons, List.getElem?_cons_zero, Option.map_some', Option.some.injEq]
  rw [CelestialBody.updatePosition_velocity ops _ dt hst, hv, hacc]


theorem impulseScalar_head_on (st : CollisionStatics ℝ) (t : ℝ) (a b : CelestialBody ℝ)
    (hma : a.mass = 1) (hmb : b.mass = 1) :
    impulseScalar st t a b (-1) =
      if t - st.lastCollisionTime < 0.1 then
        0.9 * clamp ((t - st.lastCollisionTime) / 0.1) 0.1 1
      else 0.9 := by
  unfold impulseScalar
  rw [hma, hmb]
  dsimp only
  split_ifs <;> norm_num

/-- On a non-static body with an active collision animation `updatePosition` subtracts the time
delta from the timer. -/
theorem CelestialBody.updatePosition_collisionTimer (ops : FloatOps F) (b : CelestialBody F)
    (dt : F) (hs : b.isStatic = false) (hc : b.isColliding = true) :
    (b.updatePosition ops dt).collisionTimer = b.collisionTimer - dt := by
  rw [CelestialBody.updatePosition_of_not_static ops b dt hs]
  unfold CelestialBody.addOrbitPoint CelestialBody.updateCollisionAnimation
  dsimp only
  rw [if_pos hc]
  split_ifs <;> rfl

theorem resetBody_accelerate (b : CelestialBody F) (v : Vec3 F) :
    resetBody (b.accelerate v) = resetBody b := rfl

/-- A pair step whose first index is not the star leaves the star alone. -/
theorem gravityPair_star_untouched (ops : FloatOps F) (earth : Option Nat)
    (bs : List (CelestialBody F)) (i j s : Nat) (S : CelestialBody F)
    (hS : bs[s]? = some S) (hn : S.name = "Sun") (his : i ≠ s) :
    (gravityPair ops earth bs i j)[s]? = some S := by
  unfold gravityPair
  by_cases hij : i = j
  · rw [if_pos hij]; exact hS
  · rw [if_neg hij]
    cases hi : bs[i]? with
    | none => exact hS
    | some A =>
      cases hj : bs[j]? with
      | none => exact hS
      | some B =>
        dsimp only
        split_ifs with h1 h2 h3 h4 h5 h6
        · exact hS
        · exact hS
        · exact hS
        · rw [List.getElem?_set_ne his]; exact hS
        · have hjs : j ≠ s := by
            intro h
            rw [h, hS] at hj
            have hB : B.name = "Sun" := by rw [← Option.some.inj hj]; exact hn
            simp [hB] at h4
          rw [List.getElem?_set_ne hjs]; exact hS
        · have hjs : j ≠ s := by
            intro h
            rw [h, hS] at hj
            have hB : B.name = "Sun" := by rw [← Option.some.inj hj]; exact hn
            simp [hB] at h4
          rw [List.getElem?_set_ne hjs, List.getElem?_set_ne his]; exact hS
        · rw [List.getElem?_set_ne his]; exact hS

theorem withinMoonEscape_congr (ops : FloatOps F) (earth : Option Nat)
    (bs bs1 : List (CelestialBody F)) (X X1 : CelestialBody F)
    (h : bs.map resetBody = bs1.map resetBody) (hX : X.position = X1.position) :
    withinMoonEscape ops earth bs X = withinMoonEscape ops earth bs1 X1 := by
  unfold withinMoonEscape
  cases earth with
  | none => rfl
  | some e =>
    have he := congrArg (fun l : List (CelestialBody F) => l[e]?) h
    simp only [List.getElem?_map] at he
    dsimp only
    cases h1 : bs[e]? with
    | none =>
      rw [h1] at he
      cases h2 : bs1[e]? with
      | none => rfl
      | some E1 => rw [h2] at he; exact Option.noConfusion he
    | some E =>
      rw [h1] at he
      cases h2 : bs1[e]? with
      | none => rw [h2] at he; exact Option.noConfusion he
      | some E1 =>
        rw [h2] at he
        have hp : (resetBody E).position = (resetBody E1).position :=
          congrArg CelestialBody.position (Option.some.inj he)
        rw [resetBody_position, resetBody_position] at hp
        dsimp only
        rw [hX, hp]

/-- The pair step `(s, j)` whose first body is the star: the star receives the contribution
`starPull` of the body at index `j`. -/
theorem gravityPair_star_row (ops : FloatOps F) (earth : Option Nat)
    (bs : List (CelestialBody F)) (s j : Nat) (S : CelestialBody F)
    (hS : bs[s]? = some S) (hn : S.name = "Sun") (hm : S.mass ≠ 0) :
    ∃ S1 : CelestialBody F, (gravityPair ops earth bs s j)[s]? = some S1 ∧
      resetBody S1 = resetBody S ∧
      S1.acceleration =
        (if j = s then S.acceleration
         else match bs[j]? with
          | some B => starPull ops earth bs S S.acceleration B
          | none => S.acceleration) := by
  by_cases hjs : j = s
  · refine ⟨S, ?_, rfl, by rw [if_pos hjs]⟩
    unfold gravityPair
    rw [if_pos hjs.symm]; exact hS
  · rw [if_neg hjs]
    cases hj : bs[j]? with
    | none =>
      refine ⟨S, ?_, rfl, rfl⟩
      unfold gravityPair
      rw [if_neg (Ne.symm hjs), hS, hj]
      exact hS
    | some B =>
      have hlen := lt_length_of_getElem? hS
      have hA : ¬ (S.name = "Moon" ∧ withinMoonEscape ops earth bs S = true) := by
        rw [hn]; rintro ⟨h, -⟩; exact absurd h (by decide)
      dsimp only
      unfold starPull
      by_cases hB : B.name = "Moon" ∧ withinMoonEscape ops earth bs B = true
      · rw [if_pos hB]
        refine ⟨S, ?_, rfl, rfl⟩
        unfold gravityPair
        rw [if_neg (Ne.symm hjs), hS, hj]
        dsimp only
        rw [if_neg (by simp only [Bool.and_eq_true, beq_iff_eq]; tauto),
          if_pos (by simp only [Bool.and_eq_true, beq_iff_eq, Bool.or_eq_true]; tauto)]
        exact hS
      · rw [if_neg hB, gravityPair_of_star ops earth bs s j S B (Ne.symm hjs) hS hj
          (Or.inl hn) hA hB]
        by_cases hd : length ops (B.position - S.position) < 0.01
        · rw [if_pos hd, if_pos hd]
          exact ⟨S, hS, rfl, rfl⟩
        · rw [if_neg hd, if_neg hd]
          refine ⟨_, List.getElem?_set_self hlen, rfl, ?_⟩
          have hd0 : length ops (B.position - S.position) ≠ 0 := by
            intro h0; rw [h0] at hd; norm_num at hd
          have e : 0.01 * S.mass * B.mass / (length ops (B.position - S.position)
              * length ops (B.position - S.position)) / S.mass
              = 0.01 * B.mass / length ops (B.position - S.position) ^ 2 := by
            field_simp; ring
          show S.acceleration + _ = _
          rw [e]

theorem resetBody_eq_fields (a b : CelestialBody F) (h : resetBody a = resetBody b) :
    a.position = b.position ∧ a.name = b.name ∧ a.mass = b.mass := by
  have h1 := congrArg CelestialBody.position h
  have h2 := congrArg CelestialBody.name h
  have h3 := congrArg CelestialBody.mass h
  exact ⟨h1, h2, h3⟩

theorem starPull_congr (ops : FloatOps F) (earth : Option Nat)
    (bs ref : List (CelestialBody F)) (S S0 : CelestialBody F) (acc : Vec3 F)
    (B B0 : CelestialBody F) (h : bs.map resetBody = ref.map resetBody)
    (hS : resetBody S = resetBody S0) (hB : resetBody B = resetBody B0) :
    starPull ops earth bs S acc B = starPull ops earth ref S0 acc B0 := by
  obtain ⟨hSp, -, -⟩ := resetBody_eq_fields S S0 hS
  obtain ⟨hBp, hBn, hBm⟩ := resetBody_eq_fields B B0 hB
  unfold starPull
  rw [withinMoonEscape_congr ops earth bs ref B B0 h hBp, hSp, hBp, hBn, hBm]

/-- Entries at the same index of two lists with the same image under `resetBody`. -/
theorem getElem?_of_map_resetBody (bs ref : List (CelestialBody F)) (j : Nat)
    (h : bs.map resetBody = ref.map resetBody) :
    (bs[j]? = none ∧ ref[j]? = none) ∨
    ∃ B B0 : CelestialBody F, bs[j]? = some B ∧ ref[j]? = some B0 ∧
      resetBody B = resetBody B0 := by
  have he := congrArg (fun l : List (CelestialBody F) => l[j]?) h
  simp only [List.getElem?_map] at he
  cases h1 : bs[j]? with
  | none =>
    rw [h1] at he
    cases h2 : ref[j]? with
    | none => exact Or.inl ⟨rfl, rfl⟩
    | some E1 => rw [h2] at he; exact Option.noConfusion he
  | some E =>
    rw [h1] at he
    cases h2 : ref[j]? with
    | none => rw [h2] at he; exact Option.noConfusion he
    | some E1 =>
      rw [h2] at he
      exact Or.inr ⟨E, E1, rfl, rfl, Option.some.inj he⟩

/-- The inner loop of the gravity loop for the row of the star: the star accumulates the
contributions of the visited indices. -/
theorem gravityRow_star (ops : FloatOps F) (earth : Option Nat)
    (ref : List (CelestialBody F)) (s : Nat) (S0 : CelestialBody F) :
    ∀ (l : List Nat) (bs : List (CelestialBody F)) (S : CelestialBody F),
      bs.map resetBody = ref.map resetBody → bs[s]? = some S → resetBody S = resetBody S0 →
      S.name = "Sun" → S.mass ≠ 0 →
      ∃ S1 : CelestialBody F,
        (l.foldl (fun bs1 j => gravityPair ops earth bs1 s j) bs)[s]? = some S1 ∧
        resetBody S1 = resetBody S0 ∧
        (l.foldl (fun bs1 j => gravityPair ops earth bs1 s j) bs).map resetBody
          = ref.map resetBody ∧
        S1.acceleration = l.foldl
          (fun acc j =>
            if j = s then acc
            else match ref[j]? with
              | some B => starPull ops earth ref S0 acc B
              | none => acc) S.acceleration
  | [], bs, S, hmap, hS, hr, _, _ => ⟨S, hS, hr, hmap, rfl⟩
  | j :: l, bs, S, hmap, hS, hr, hn, hm => by
    obtain ⟨S1, h1, hr1, ha1⟩ := gravityPair_star_row ops earth bs s j S hS hn hm
    have hmap1 : (gravityPair ops earth bs s j).map resetBody = ref.map resetBody := by
      rw [gravityPair_map resetBody resetBody_accelerate]; exact hmap
    obtain ⟨-, hn0, hm0⟩ := resetBody_eq_fields S1 S hr1
    have hn1 : S1.name = "Sun" := hn0.trans hn
    have hm1 : S1.mass ≠ 0 := by rw [hm0]; exact hm
    obtain ⟨S2, h2, hr2, hmap2, ha2⟩ := gravityRow_star ops earth ref s S0 l
      (gravityPair ops earth bs s j) S1 hmap1 h1 (hr1.trans hr) hn1 hm1
    refine ⟨S2, h2, hr2, hmap2, ?_⟩
    rw [ha2, List.foldl_cons]
    congr 1
    rw [ha1]
    by_cases hjs : j = s
    · rw [if_pos hjs, if_pos hjs]
    · rw [if_neg hjs, if_neg hjs]
      rcases getElem?_of_map_resetBody bs ref j hmap with ⟨e1, e2⟩ | ⟨B, B0, e1, e2, e3⟩
      · rw [e1, e2]
      · rw [e1, e2]
        exact starPull_congr ops earth bs ref S S0 S.acceleration B B0 hmap hr e3

/-- A row of the gravity loop that is not the row of the star leaves the star alone. -/
theorem gravityRow_other (ops : FloatOps F) (earth : Option Nat) (i s : Nat)
    (S : CelestialBody F) (hn : S.name = "Sun") (his : i ≠ s) (js : List Nat)
    (bs : List (CelestialBody F)) (hS : bs[s]? = some S) :
    (js.foldl (fun bs1 j => gravityPair ops earth bs1 i j) bs)[s]? = some S :=
  foldl_invariant (fun bs1 : List (CelestialBody F) => bs1[s]? = some S) _
    (fun bs1 j h => gravityPair_star_untouched ops earth bs1 i j s S h hn his) js bs hS

theorem gravityRow_map (ops : FloatOps F) (earth : Option Nat) (i : Nat) (js : List Nat)
    (bs : List (CelestialBody F)) :
    (js.foldl (fun bs1 j => gravityPair ops earth bs1 i j) bs).map resetBody
      = bs.map resetBody :=
  foldl_invariant
    (fun bs1 : List (CelestialBody F) => bs1.map resetBody = bs.map resetBody) _
    (fun bs1 j h => by
      show (gravityPair ops earth bs1 i j).map resetBody = _
      rw [gravityPair_map resetBody resetBody_accelerate]; exact h) js bs rfl

/-- Rows other than the row of the star leave the star alone. -/
theorem gravityRows_other (ops : FloatOps F) (earth : Option Nat) (s : Nat)
    (S : CelestialBody F) (hn : S.name = "Sun") (js : List Nat) :
    ∀ (l : List Nat) (bs : List (CelestialBody F)), s ∉ l → bs[s]? = some S →
      (l.foldl (fun bs0 i => js.foldl (fun bs1 j => gravityPair ops earth bs1 i j) bs0) bs)[s]?
        = some S
  | [], _, _, hS => hS
  | i :: l, bs, hl, hS => by
    rw [List.foldl_cons]
    apply gravityRows_other ops earth s S hn js l _ (fun h => hl (List.mem_cons_of_mem _ h))
    exact gravityRow_other ops earth i s S hn (fun h => hl (h ▸ List.mem_cons_self _ _)) js bs hS

/-- The double gravity loop over rows `l` (without repetition, containing the row of the star)
and columns `js`: the star accumulates the contributions of the columns. -/
theorem gravityRows_star (ops : FloatOps F) (earth : Option Nat)
    (ref : List (CelestialBody F)) (s : Nat) (S0 : CelestialBody F) (js : List Nat) :
    ∀ (l : List Nat) (bs : List (CelestialBody F)) (S : CelestialBody F),
      l.Nodup → s ∈ l →
      bs.map resetBody = ref.map resetBody → bs[s]? = some S → resetBody S = resetBody S0 →
      S.name = "Sun" → S.mass ≠ 0 →
      ((l.foldl (fun bs0 i => js.foldl (fun bs1 j => gravityPair ops earth bs1 i j) bs0)
          bs)[s]?).map CelestialBody.acceleration
        = some (js.foldl
          (fun acc j =>
            if j = s then acc
            else match ref[j]? with
              | some B => starPull ops earth ref S0 acc B
              | none => acc) S.acceleration)
  | [], _, _, _, hmem, _, _, _, _, _ => absurd hmem (List.not_mem_nil _)
  | i :: l, bs, S, hnd, hmem, hmap, hS, hr, hn, hm => by
    rw [List.foldl_cons]
    have hnd1 := List.nodup_cons.1 hnd
    by_cases his : i = s
    · subst his
      obtain ⟨S1, h1, hr1, -, ha1⟩ := gravityRow_star ops earth ref i S0 js bs S hmap hS hr hn hm
      obtain ⟨-, hn0, -⟩ := resetBody_eq_fields S1 S (hr1.trans hr.symm)
      rw [gravityRows_other ops earth i S1 (hn0.trans hn) js l _ hnd1.1 h1]
      exact congrArg some ha1
    · have hmem1 : s ∈ l := by
        rcases List.mem_cons.1 hmem with h | h
        · exact absurd h.symm his
        · exact h
      exact gravityRows_star ops earth ref s S0 js l _ S hnd1.2 hmem1
        ((gravityRow_map ops earth i js bs).trans hmap)
        (gravityRow_other ops earth i s S hn his js bs hS) hr hn hm

/-- The gravity loop gives the star at index `s` the acceleration it had plus the contributions
of all other bodies. -/
theorem gravityLoop_star (ops : FloatOps F) (earth : Option Nat)
    (ref bs : List (CelestialBody F)) (s : Nat) (S S0 : CelestialBody F)
    (hmap : bs.map resetBody = ref.map resetBody) (hS : bs[s]? = some S)
    (hr : resetBody S = resetBody S0) (hn : S.name = "Sun") (hm : S.mass ≠ 0) :
    ((gravityLoop ops earth bs)[s]?).map CelestialBody.acceleration
      = some ((List.range ref.length).foldl
          (fun acc j =>
            if j = s then acc
            else match ref[j]? with
              | some B => starPull ops earth ref S0 acc B
              | none => acc) S.acceleration) := by
  have hlen : bs.length = ref.length := by
    have := congrArg List.length hmap
    simpa using this
  unfold gravityLoop
  rw [hlen]
  exact gravityRows_star ops earth ref s S0 (List.range ref.length) (List.range ref.length)
    bs S (List.nodup_range _) (List.mem_range.2 (hlen ▸ lt_length_of_getElem? hS))
    hmap hS hr hn hm

/-- The index the lookup loop records for "Moon" holds a body of that name. -/
theorem findNamed_moon : ∀ (l : List (CelestialBody F)) (i : Nat) (acc : NamedBodies) (m : Nat),
    (findNamed l i acc).moon = some m →
    acc.moon = some m ∨ ∃ b : CelestialBody F, i ≤ m ∧ l[m - i]? = some b ∧ b.name = "Moon"
  | [], _, _, _, h => Or.inl h
  | body :: rest, i, acc, m, h => by
    have base : ∀ X : NamedBodies,
        (X.moon = acc.moon ∨ (X.moon = some i ∧ body.name = "Moon")) → X.moon = some m →
        acc.moon = some m ∨
          ∃ b : CelestialBody F, i ≤ m ∧ (body :: rest)[m - i]? = some b ∧ b.name = "Moon" := by
      intro X hX hm
      rcases hX with hX | ⟨hX, hname⟩
      · exact Or.inl (hX ▸ hm)
      · right
        rw [hX] at hm
        have him : i = m := Option.some.inj hm
        subst him
        exact ⟨body, le_refl _, by simp, hname⟩
    have step : ∀ X : NamedBodies,
        (X.moon = acc.moon ∨ (X.moon = some i ∧ body.name = "Moon")) →
        (findNamed rest (i + 1) X).moon = some m →
        acc.moon = some m ∨
          ∃ b : CelestialBody F, i ≤ m ∧ (body :: rest)[m - i]? = some b ∧ b.name = "Moon" := by
      intro X hX hm
      rcases findNamed_moon rest (i + 1) X m hm with h1 | ⟨b, hle, hb, hname⟩
      · exact base X hX h1
      · right
        refine ⟨b, by omega, ?_, hname⟩
        have e : m - i = (m - (i + 1)) + 1 := by omega
        rw [e, List.getElem?_cons_succ]
        exact hb
    unfold findNamed at h
    dsimp only at h
    split_ifs at h
    all_goals first
      | (refine base _ ?_ h
         first
          | exact Or.inl rfl
          | exact Or.inr ⟨rfl, beq_iff_eq.1 (by assumption)⟩)
      | (refine step _ ?_ h
         first
          | exact Or.inl rfl
          | exact Or.inr ⟨rfl, beq_iff_eq.1 (by assumption)⟩)

/-- The Moon override changes no body that is not named "Moon". -/
theorem moonOverride_getElem?_star (ops : FloatOps F) (bodies : List (CelestialBody F))
    (s : Nat) (S : CelestialBody F) (hS : bodies[s]? = some S) (hn : S.name ≠ "Moon") :
    (moonOverride ops (findNamed bodies 0 ⟨none, none, none⟩) bodies)[s]? = some S := by
  unfold moonOverride
  split
  · rename_i m e hm he
    have hms : m ≠ s := by
      intro h
      rcases findNamed_moon bodies 0 ⟨none, none, none⟩ m hm with h1 | ⟨b, -, hb, hname⟩
      · exact Option.noConfusion h1
      · rw [Nat.sub_zero, h, hS] at hb
        exact hn ((Option.some.inj hb) ▸ hname)
    split
    · dsimp only
      split_ifs
      · rw [List.getElem?_set_ne hms]; exact hS
      · exact hS
      · exact hS
    · exact hS
  · exact hS


theorem resetBody_idem (b : CelestialBody F) : resetBody (resetBody b) = resetBody b := rfl

/-- The acceleration of the star at index `s` when the gravity loop is done. -/
theorem gravityPass_star (ops : FloatOps F) (bodies : List (CelestialBody F)) (s : Nat)
    (S : CelestialBody F) (hS : bodies[s]? = some S) (hn : S.name = "Sun") (hm : S.mass ≠ 0) :
    ((gravityPass ops bodies)[s]?).map CelestialBody.acceleration
      = some (starAcceleration ops (findNamed (resetBodies bodies) 0 ⟨none, none, none⟩).earth
          bodies s S) := by
  have hS1 : (resetBodies bodies)[s]? = some (resetBody S) := by
    unfold resetBodies
    rw [List.getElem?_map, hS]; rfl
  have hmap : (moonOverride ops (findNamed (resetBodies bodies) 0 ⟨none, none, none⟩)
      (resetBodies bodies)).map resetBody = bodies.map resetBody := by
    rw [moonOverride_map resetBody resetBody_accelerate]
    unfold resetBodies
    rw [List.map_map]
    rfl
  have hS2 := moonOverride_getElem?_star ops (resetBodies bodies) s (resetBody S) hS1
    (by show S.name ≠ "Moon"; rw [hn]; decide)
  unfold gravityPass
  dsimp only
  rw [gravityLoop_star ops _ bodies _ s (resetBody S) S hmap hS2 (resetBody_idem S) hn hm]
  rfl

/-- The acceleration of the star at index `s` after `updatePhysics`. -/
theorem updatePhysics_star (ops : FloatOps F) (clock : Nat → Nat → F)
    (st : CollisionStatics F) (bodies : List (CelestialBody F)) (dt : F) (s : Nat)
    (S : CelestialBody F) (hS : bodies[s]? = some S) (hn : S.name = "Sun") (hm : S.mass ≠ 0) :
    ((updatePhysics ops clock st bodies dt).2[s]?).map CelestialBody.acceleration
      = some (starAcceleration ops (findNamed (resetBodies bodies) 0 ⟨none, none, none⟩).earth
          bodies s S) := by
  rw [← List.getElem?_map, updatePhysics_acceleration, List.getElem?_map]
  exact gravityPass_star ops bodies s S hS hn hm

/-- The pair step for two non-star bodies less than 7 apart (and at least 0.01) when no Moon
skip applies and the first body is not the lighter one: only the second body is accelerated,
with the distance multiplier. -/
theorem gravityPair_near (ops : FloatOps F) (earth : Option Nat)
    (bodies : List (CelestialBody F)) (i j : Nat) (A B : CelestialBody F) (hij : i ≠ j)
    (hA : bodies[i]? = some A) (hB : bodies[j]? = some B)
    (hAs : A.name ≠ "Sun") (hBs : B.name ≠ "Sun")
    (hskipA : ¬ (A.name = "Moon" ∧ withinMoonEscape ops earth bodies A = true))
    (hskipB : ¬ (B.name = "Moon" ∧ withinMoonEscape ops earth bodies B = true))
    (hd0 : 0.01 ≤ length ops (B.position - A.position))
    (hd : length ops (B.position - A.position) < 7) (hm : ¬ A.mass < B.mass) :
    gravityPair ops earth bodies i j =
      bodies.set j (B.accelerate
        (((-(normalize ops (B.position - A.position))).scale
          (0.01 * A.mass * B.mass / (length ops (B.position - A.position)
            * length ops (B.position - A.position)) / B.mass)).scale
          (1 / (length ops (B.position - A.position) * 0.005)))) := by
  unfold gravityPair
  rw [if_neg hij, hA, hB]
  dsimp only
  rw [if_neg (by simp only [Bool.and_eq_true, beq_iff_eq]; tauto),
    if_neg (by simp only [Bool.and_eq_true, beq_iff_eq]; tauto),
    if_neg (not_lt.2 hd0)]
  have : (A.name != "Sun" && B.name != "Sun") = true := by simp [hAs, hBs]
  rw [this, if_pos rfl, if_pos hd, if_neg hm]

/-- The acceleration of the moving body of the head-on scene when the gravity loop is done:
`(-2, 0, 0)`, from the visit of the pair in which it is the second body. -/
theorem gravityPass_head_on (ops : FloatOps F) (hs : ops.ExactSqrt) :
    ((gravityPass ops [collidingA F (-1), collidingB F 1])[0]?).map CelestialBody.acceleration
      = some (⟨-2, 0, 0⟩ : Vec3 F) := by
  have hm : (findNamed [resetBody (collidingA F (-1)), resetBody (collidingB F 1)] 0
      ⟨none, none, none⟩).moon = none := by
    rcases findNamed_pair_moon (collidingA F (-1)) (collidingB F 1) with h | ⟨-, h⟩ | ⟨-, h⟩
    · exact h
    · exact absurd h (by show "Mars" ≠ "Moon"; decide)
    · exact absurd h (by show "Venus" ≠ "Moon"; decide)
  have skip : ∀ (bodies : List (CelestialBody F)) (X : CelestialBody F)
      (e : Option Nat), (X.name = "Mars" ∨ X.name = "Venus") →
      ¬ (X.name = "Moon" ∧ withinMoonEscape ops e bodies X = true) := by
    rintro bodies X e (h | h) ⟨h1, -⟩
    · rw [h] at h1; exact absurd h1 (by decide)
    · rw [h] at h1; exact absurd h1 (by decide)
  have e1 : (resetBody (collidingB F 1)).position - (resetBody (collidingA F (-1))).position
      = ⟨-1, 0, 0⟩ := by
    simp [resetBody_position, collidingA, collidingB, testBody, CelestialBody.new, Vec3.sub_def]
  have e2 : (resetBody (collidingA F (-1))).position - (resetBody (collidingB F 1)).position
      = ⟨1, 0, 0⟩ := by
    simp [resetBody_position, collidingA, collidingB, testBody, CelestialBody.new, Vec3.sub_def]
  have l1 : length ops (⟨-1, 0, 0⟩ : Vec3 F) = 1 :=
    hs.length_of_dot _ 1 (by norm_num) (by simp [Vec3.dot])
  have l2 : length ops (⟨1, 0, 0⟩ : Vec3 F) = 1 := hs.length_x_axis 1 (by norm_num)
  have n2 : normalize ops (⟨1, 0, 0⟩ : Vec3 F) = ⟨1, 0, 0⟩ := hs.normalize_x_axis 1 (by norm_num)
  obtain ⟨v1, h1⟩ : ∃ v1 : Vec3 F,
      gravityPair ops (findNamed [resetBody (collidingA F (-1)), resetBody (collidingB F 1)] 0
          ⟨none, none, none⟩).earth
        [resetBody (collidingA F (-1)), resetBody (collidingB F 1)] 0 1
      = [resetBody (collidingA F (-1)), (resetBody (collidingB F 1)).accelerate v1] := by
    rw [gravityPair_near ops _ _ 0 1 (resetBody (collidingA F (-1)))
      (resetBody (collidingB F 1))
      (by decide) rfl rfl (by show "Mars" ≠ "Sun"; decide) (by show "Venus" ≠ "Sun"; decide)
      (skip _ _ _ (Or.inl rfl)) (skip _ _ _ (Or.inr rfl))
      (by rw [e1, l1]; norm_num) (by rw [e1, l1]; norm_num)
      (by show ¬ (1 : F) < 1; norm_num)]
    exact ⟨_, rfl⟩
  have e3 : (resetBody (collidingA F (-1))).position
      - ((resetBody (collidingB F 1)).accelerate v1).position = ⟨1, 0, 0⟩ := e2
  rw [gravityPass_pair ops _ _ (Or.inl hm), h1]
  rw [gravityPair_near ops _ _ 1 0 ((resetBody (collidingB F 1)).accelerate v1)
    (resetBody (collidingA F (-1)))
    (by decide) rfl rfl (by show "Venus" ≠ "Sun"; decide) (by show "Mars" ≠ "Sun"; decide)
    (skip _ _ _ (Or.inr rfl)) (skip _ _ _ (Or.inl rfl))
    (by rw [e3, l2]; norm_num) (by rw [e3, l2]; norm_num)
    (by show ¬ (1 : F) < 1; norm_num)]
  rw [e3, l2, n2]
  simp only [List.set_cons_zero, List.getElem?_cons_zero, Option.map_some', Option.some.injEq]
  show Vec3.splat 0 + ((-(⟨1, 0, 0⟩ : Vec3 F)).scale (0.01 * 1 * 1 / (1 * 1) / 1)).scale
    (1 / (1 * 0.005)) = ⟨-2, 0, 0⟩
  simp only [Vec3.add_def, Vec3.splat, Vec3.scale, Vec3.neg_def, Vec3.mk.injEq]
  refine ⟨?_, ?_, ?_⟩ <;> norm_num

/-- The pair step does nothing when the two centres are less than 0.01 apart. -/
theorem gravityPair_coincident (ops : FloatOps F) (earth : Option Nat)
    (bodies : List (CelestialBody F)) (i j : Nat) (A B : CelestialBody F)
    (hA : bodies[i]? = some A) (hB : bodies[j]? = some B)
    (hd : length ops (B.position - A.position) < 0.01) :
    gravityPair ops earth bodies i j = bodies := by
  unfold gravityPair
  by_cases hij : i = j
  · rw [if_pos hij]
  · rw [if_neg hij, hA, hB]
    dsimp only
    rw [if_pos hd]
    split_ifs <;> rfl

/-- The Moon override does nothing in a two-body scene whose centres are less than 0.01
apart. -/
theorem moonOverride_coincident (ops : FloatOps F) (a b : CelestialBody F)
    (hd : length ops (b.position - a.position) < 0.01) :
    moonOverride ops (findNamed [resetBody a, resetBody b] 0 ⟨none, none, none⟩)
      [resetBody a, resetBody b] = [resetBody a, resetBody b] := by
  have hd1 : length ops (a.position - b.position) < 0.01 := by
    rw [length_sub_comm]; exact hd
  have h1 : ¬ length ops (b.position - a.position) > 0.01 := by
    intro h; exact absurd hd (not_lt.2 (le_of_lt h))
  have h2 : ¬ length ops (a.position - b.position) > 0.01 := by
    intro h; exact absurd hd1 (not_lt.2 (le_of_lt h))
  rcases findNamed_pair_moon a b with hm | ⟨hm, hmn⟩ | ⟨hm, hmn⟩
  · exact moonOverride_of_none ops _ _ (Or.inl hm)
  · rcases findNamed_pair_earth a b with he | ⟨he, hen⟩ | ⟨he, hen⟩
    · exact moonOverride_of_none ops _ _ (Or.inr he)
    · rw [hmn] at hen; exact absurd hen (by decide)
    · unfold moonOverride
      rw [hm, he]
      simp only [List.getElem?_cons_succ, List.getElem?_cons_zero, resetBody_position]
      split_ifs <;> rfl
  · rcases findNamed_pair_earth a b with he | ⟨he, hen⟩ | ⟨he, hen⟩
    · exact moonOverride_of_none ops _ _ (Or.inr he)
    · unfold moonOverride
      rw [hm, he]
      simp only [List.getElem?_cons_succ, List.getElem?_cons_zero, resetBody_position]
      split_ifs <;> rfl
    · rw [hmn] at hen; exact absurd hen (by decide)

theorem FloatOps.ExactSqrt.length_zero {ops : FloatOps F} (hs : ops.ExactSqrt) :
    length ops (⟨0, 0, 0⟩ : Vec3 F) = 0 :=
  hs.length_x_axis 0 (le_refl _)

/-- The velocity the star branch of `resolveCollision` leaves on the planet: unchanged unless
the planet moves toward the star. -/
theorem resolveSunCollision_velocity_of_receding (ops : FloatOps F) (st : CollisionStatics F)
    (t : F) (sun planet : CelestialBody F)
    (h : ¬ Vec3.dot (planet.velocity - sun.velocity)
      (normalize ops (planet.position - sun.position)) < 0) :
    (resolveSunCollision ops st t sun planet).2.velocity = planet.velocity := by
  unfold resolveSunCollision
  dsimp only
  split_ifs <;> rfl

/-- When the planet moves toward the star, the star branch of `resolveCollision` leaves it a
speed of at most 10. -/
theorem resolveSunCollision_speed_le (ops : FloatOps F) (hs : ops.ExactSqrt)
    (st : CollisionStatics F) (t : F) (sun planet : CelestialBody F)
    (h : Vec3.dot (planet.velocity - sun.velocity)
      (normalize ops (planet.position - sun.position)) < 0) :
    length ops (resolveSunCollision ops st t sun planet).2.velocity ≤ 10 := by
  have key : ∀ v : Vec3 F, length ops v > 10 → length ops ((normalize ops v).scale 10) ≤ 10 := by
    intro v hv
    have hne : v ≠ ⟨0, 0, 0⟩ := by
      intro h0
      rw [h0, hs.length_zero] at hv
      norm_num at hv
    rw [hs.length_scale _ 10 (by norm_num), hs.length_normalize v hne]
    norm_num
  unfold resolveSunCollision
  dsimp only
  split_ifs
  all_goals first
    | exact key _ ‹_›
    | exact not_lt.1 ‹_›

theorem clamp_unit_range (q : F) : 0 ≤ clamp q 0 1 ∧ clamp q 0 1 ≤ 1 := by
  unfold clamp
  exact ⟨le_min (le_max_right _ _) zero_le_one, min_le_right _ _⟩

/-- The alignment of the eclipse test lies in `[0, 1]`. -/
theorem eclipseAlignment_range (ops : FloatOps F) (sun earth moon : CelestialBody F) :
    0 ≤ eclipseAlignment ops sun earth moon ∧ eclipseAlignment ops sun earth moon ≤ 1 := by
  unfold eclipseAlignment
  obtain ⟨h0, h1⟩ := clamp_unit_range (eclipsePerpDistance ops sun earth moon / (2 * moon.radius))
  constructor <;> linarith

/-- The number 35 is not a multiple of `π`, so its sine is not zero. -/
theorem sin_35_ne_zero : Real.sin 35 ≠ 0 := by
  intro h
  obtain ⟨n, hn⟩ := Real.sin_eq_zero_iff.1 h
  have h1 := Real.pi_gt_d2
  have h2 := Real.pi_lt_d2
  rcases le_or_lt n 11 with hle | hlt
  · have : (n : ℝ) ≤ 11 := by exact_mod_cast hle
    nlinarith [Real.pi_pos]
  · have : (12 : ℝ) ≤ n := by exact_mod_cast hlt
    nlinarith [Real.pi_pos]

/-- The fields `updateCollisionAnimation` writes while the timer stays positive. -/
theorem CelestialBody.updateCollisionAnimation_active (ops : FloatOps F) (b : CelestialBody F)
    (dt : F) (hc : b.isColliding = true) (ht : b.collisionTimer - dt > 0) :
    (b.updateCollisionAnimation ops dt).collisionTimer = b.collisionTimer - dt ∧
    (b.updateCollisionAnimation ops dt).radius
      = b.originalRadius * (ops.sin ((b.collisionTimer - dt) * 20) * 0.2 + 1) ∧
    (b.updateCollisionAnimation ops dt).color
      = Vec3.mix ⟨1, 0.3, 0.3⟩ b.originalColor (1 - (b.collisionTimer - dt)) ∧
    (b.updateCollisionAnimation ops dt).isColliding = true ∧
    (b.updateCollisionAnimation ops dt).originalRadius = b.originalRadius ∧
    (b.updateCollisionAnimation ops dt).originalColor = b.originalColor := by
  unfold CelestialBody.updateCollisionAnimation
  rw [if_pos hc]
  dsimp only
  rw [if_pos ht]
  exact ⟨rfl, rfl, rfl, hc, rfl, rfl⟩

/-- The fields `updateCollisionAnimation` writes when the timer reaches `0` or less. -/
theorem CelestialBody.updateCollisionAnimation_done (ops : FloatOps F) (b : CelestialBody F)
    (dt : F) (hc : b.isColliding = true) (ht : b.collisionTimer - dt ≤ 0) :
    (b.updateCollisionAnimation ops dt).isColliding = false ∧
    (b.updateCollisionAnimation ops dt).radius = b.originalRadius ∧
    (b.updateCollisionAnimation ops dt).color = b.originalColor := by
  unfold CelestialBody.updateCollisionAnimation
  rw [if_pos hc]
  dsimp only
  rw [if_neg (not_lt.2 ht)]
  exact ⟨rfl, rfl, rfl⟩

theorem FloatOps.ExactSqrt.length_neg {ops : FloatOps F} (v : Vec3 F) :
    length ops (-v) = length ops v := by
  unfold length
  congr 1
  simp only [Vec3.dot, Vec3.neg_def]; ring

/-- The tangent of the spin kick is orthogonal to the collision normal. -/
theorem dot_spinTangent (ops : FloatOps F) (n : Vec3 F) :
    Vec3.dot (normalize ops (Vec3.cross n ⟨0, 1, 0⟩)) n = 0 := by
  simp only [normalize, Vec3.scale, Vec3.dot, Vec3.cross]
  ring

/-- The spin kick leaves the component of the relative velocity along the normal alone. -/
theorem spinKick_dot (ops : FloatOps F) (n : Vec3 F) (a b : CelestialBody F) :
    Vec3.dot ((spinKick ops n a b).1.velocity - (spinKick ops n a b).2.velocity) n
      = Vec3.dot (a.velocity - b.velocity) n := by
  have h0 := dot_spinTangent ops n
  have key : ∀ (u v : Vec3 F) (r q : F),
      Vec3.dot ((u + ((normalize ops (Vec3.cross n ⟨0, 1, 0⟩)).scale 0.5).scale r)
        - (v - ((normalize ops (Vec3.cross n ⟨0, 1, 0⟩)).scale 0.5).scale q)) n
      = Vec3.dot (u - v) n := by
    intro u v r q
    simp only [Vec3.dot, Vec3.sub_def, Vec3.add_def, Vec3.scale] at h0 ⊢
    linear_combination (0.5 * r + 0.5 * q) * h0
  have keyA : ∀ (u v : Vec3 F) (r : F),
      Vec3.dot ((u + ((normalize ops (Vec3.cross n ⟨0, 1, 0⟩)).scale 0.5).scale r) - v) n
      = Vec3.dot (u - v) n := by
    intro u v r
    simp only [Vec3.dot, Vec3.sub_def, Vec3.add_def, Vec3.scale] at h0 ⊢
    linear_combination (0.5 * r) * h0
  have keyB : ∀ (u v : Vec3 F) (q : F),
      Vec3.dot (u - (v - ((normalize ops (Vec3.cross n ⟨0, 1, 0⟩)).scale 0.5).scale q)) n
      = Vec3.dot (u - v) n := by
    intro u v q
    simp only [Vec3.dot, Vec3.sub_def, Vec3.add_def, Vec3.scale] at h0 ⊢
    linear_combination (0.5 * q) * h0
  unfold spinKick
  dsimp only
  by_cases ht : length ops (normalize ops (Vec3.cross n ⟨0, 1, 0⟩)) > 0.1
  · rw [if_pos ht]
    dsimp only
    cases a.isStatic <;> cases b.isStatic <;>
      simp only [Bool.false_eq_true, if_false, if_true]
    · exact key _ _ _ _
    · exact keyA _ _ _
    · exact keyB _ _ _
  · rw [if_neg ht]

theorem FloatOps.ExactSqrt.dot_normalize_self {ops : FloatOps F} (hs : ops.ExactSqrt)
    (v : Vec3 F) (h : v ≠ ⟨0, 0, 0⟩) :
    Vec3.dot (normalize ops v) (normalize ops v) = 1 := by
  have h1 := hs.length_mul_self (normalize ops v)
  rw [hs.length_normalize v h] at h1
  rw [← h1]; ring

theorem Vec3.sub_ne_zero_of_ne (u v : Vec3 F) (h : u ≠ v) : u - v ≠ ⟨0, 0, 0⟩ := by
  intro h0
  apply h
  have hx := congrArg Vec3.x h0
  have hy := congrArg Vec3.y h0
  have hz := congrArg Vec3.z h0
  simp only [Vec3.sub_def] at hx hy hz
  cases u; cases v
  simp only [Vec3.mk.injEq]
  exact ⟨sub_eq_zero.1 hx, sub_eq_zero.1 hy, sub_eq_zero.1 hz⟩

/-- Restitution of the regular branch of `resolveCollision`: without damping and without speed
clamp the relative velocity along the normal is multiplied by `-0.8`. -/
theorem resolveCollision_restitution (ops : FloatOps F) (hs : ops.ExactSqrt)
    (st : CollisionStatics F) (t : F) (a b : CelestialBody F)
    (ha : a.name ≠ "Sun") (hb : b.name ≠ "Sun")
    (hsa : a.isStatic = false) (hsb : b.isStatic = false)
    (hma : 0 < a.mass) (hmb : 0 < b.mass) (hpos : a.position ≠ b.position)
    (hv : Vec3.dot (a.velocity - b.velocity) (normalize ops (a.position - b.position)) ≤ 0)
    (ht : 0.1 ≤ t - st.lastCollisionTime)
    (hslowA : length ops (a.velocity + ((normalize ops (a.position - b.position)).scale
      (impulseScalar st t a b (Vec3.dot (a.velocity - b.velocity)
        (normalize ops (a.position - b.position))))).sdiv a.mass) ≤ 5)
    (hslowB : length ops (b.velocity - ((normalize ops (a.position - b.position)).scale
      (impulseScalar st t a b (Vec3.dot (a.velocity - b.velocity)
        (normalize ops (a.position - b.position))))).sdiv b.mass) ≤ 5) :
    Vec3.dot ((resolveCollision ops st t a b).2.1.velocity
        - (resolveCollision ops st t a b).2.2.velocity)
        (normalize ops (a.position - b.position))
      = -0.8 * Vec3.dot (a.velocity - b.velocity) (normalize ops (a.position - b.position)) := by
  have hnn := hs.dot_normalize_self (a.position - b.position)
    (Vec3.sub_ne_zero_of_ne _ _ hpos)
  have hJ : impulseScalar st t a b (Vec3.dot (a.velocity - b.velocity)
      (normalize ops (a.position - b.position)))
      = -(1 + 0.8) * Vec3.dot (a.velocity - b.velocity)
          (normalize ops (a.position - b.position)) / (1 / a.mass + 1 / b.mass) := by
    unfold impulseScalar
    dsimp only
    rw [if_neg (not_lt.2 ht)]
  unfold resolveCollision
  have h : (a.name == "Sun" || b.name == "Sun") = false := by simp [ha, hb]
  simp only [h, Bool.false_eq_true, if_false, not_lt.2 hv]
  show Vec3.dot ((spinKick ops _ (clampCollisionSpeed ops (applyImpulse _ _ _).1)
      (clampCollisionSpeed ops (applyImpulse _ _ _).2)).1.velocity
    - (spinKick ops _ (clampCollisionSpeed ops (applyImpulse _ _ _).1)
      (clampCollisionSpeed ops (applyImpulse _ _ _).2)).2.velocity) _ = _
  rw [spinKick_dot]
  obtain ⟨⟨sv, sm, ss⟩, ⟨sv2, sm2, ss2⟩⟩ := separateBodies_kinematics ops
    (normalize ops (a.position - b.position)) a b
  obtain ⟨⟨iv, -, -⟩, ⟨iv2, -, -⟩⟩ := applyImpulse_kinematics
    ((normalize ops (a.position - b.position)).scale
      (impulseScalar st t a b
        (Vec3.dot (a.velocity - b.velocity) (normalize ops (a.position - b.position)))))
    (separateBodies ops (normalize ops (a.position - b.position)) a b).1
    (separateBodies ops (normalize ops (a.position - b.position)) a b).2
  rw [ss, hsa, sv, sm] at iv
  rw [ss2, hsb, sv2, sm2] at iv2
  simp only [Bool.false_eq_true, if_false] at iv iv2
  rw [clampCollisionSpeed_of_slow ops _ (by rw [iv]; exact hslowA),
    clampCollisionSpeed_of_slow ops _ (by rw [iv2]; exact hslowB), iv, iv2, hJ]
  have hA : a.mass ≠ 0 := ne_of_gt hma
  have hB : b.mass ≠ 0 := ne_of_gt hmb
  have hsum : 1 / a.mass + 1 / b.mass ≠ 0 := by
    have : 0 < 1 / a.mass + 1 / b.mass := by positivity
    exact ne_of_gt this
  have hJS : -(1 + 0.8) * Vec3.dot (a.velocity - b.velocity)
      (normalize ops (a.position - b.position)) / (1 / a.mass + 1 / b.mass)
      * (1 / a.mass + 1 / b.mass)
      = -(1 + 0.8) * Vec3.dot (a.velocity - b.velocity)
        (normalize ops (a.position - b.position)) := div_mul_cancel₀ _ hsum
  generalize -(1 + 0.8) * Vec3.dot (a.velocity - b.velocity)
      (normalize ops (a.position - b.position)) / (1 / a.mass + 1 / b.mass) = J at hJS ⊢
  generalize normalize ops (a.position - b.position) = n at hnn hJS ⊢
  simp only [Vec3.dot, Vec3.sub_def, Vec3.add_def, Vec3.scale, Vec3.sdiv] at hnn hJS ⊢
  linear_combination (n.x * n.x + n.y * n.y + n.z * n.z) * hJS
    + (-(1 + 0.8) * ((a.velocity.x - b.velocity.x) * n.x + (a.velocity.y - b.velocity.y) * n.y
      + (a.velocity.z - b.velocity.z) * n.z)) * hnn

/-- The positions the positional correction leaves on two overlapping non-static bodies. -/
theorem separateBodies_position (ops : FloatOps F) (n : Vec3 F) (a b : CelestialBody F)
    (hsa : a.isStatic = false) (hsb : b.isStatic = false)
    (hov : (a.radius + b.radius) - length ops (a.position - b.position) > 0) :
    (separateBodies ops n a b).1.position
      = a.position + n.scale
          ((0.5 * ((a.radius + b.radius) - length ops (a.position - b.position)) + 0.1)
            * (b.mass / (a.mass + b.mass))) ∧
    (separateBodies ops n a b).2.position
      = b.position - n.scale
          ((0.5 * ((a.radius + b.radius) - length ops (a.position - b.position)) + 0.1)
            * (a.mass / (a.mass + b.mass))) := by
  unfold separateBodies
  dsimp only
  rw [if_pos hov]
  simp only [hsa, hsb, Bool.false_eq_true, if_false]
  constructor
  · simp only [Vec3.add_def, Vec3.scale, Vec3.mk.injEq]
    refine ⟨?_, ?_, ?_⟩ <;> ring
  · simp only [Vec3.sub_def, Vec3.scale, Vec3.mk.injEq]
    refine ⟨?_, ?_, ?_⟩ <;> ring

theorem Vec3.add_sub_cancel_left (u v : Vec3 F) : (u + v) - u = v := by
  cases u; cases v
  simp only [Vec3.add_def, Vec3.sub_def, Vec3.mk.injEq]
  refine ⟨?_, ?_, ?_⟩ <;> ring

theorem Vec3.sub_sub_cancel_left (u v : Vec3 F) : (u - v) - u = -v := by
  cases u; cases v
  simp only [Vec3.neg_def, Vec3.sub_def, Vec3.mk.injEq]
  refine ⟨?_, ?_, ?_⟩ <;> ring

/-- The positional correction of the regular branch of `resolveCollision` on two overlapping
non-static bodies at distinct positions: displacement vectors and displacement lengths. -/
theorem resolveCollision_displacement (ops : FloatOps F) (hs : ops.ExactSqrt)
    (st : CollisionStatics F) (t : F) (a b : CelestialBody F)
    (ha : a.name ≠ "Sun") (hb : b.name ≠ "Sun")
    (hsa : a.isStatic = false) (hsb : b.isStatic = false)
    (hma : 0 < a.mass) (hmb : 0 < b.mass) (hpos : a.position ≠ b.position)
    (hov : length ops (a.position - b.position) < a.radius + b.radius)
    (hv : ¬ Vec3.dot (a.velocity - b.velocity) (normalize ops (a.position - b.position)) > 0) :
    ((resolveCollision ops st t a b).2.1.position
      = a.position + (normalize ops (a.position - b.position)).scale
          ((0.5 * ((a.radius + b.radius) - length ops (a.position - b.position)) + 0.1)
            * (b.mass / (a.mass + b.mass))) ∧
    (resolveCollision ops st t a b).2.2.position
      = b.position - (normalize ops (a.position - b.position)).scale
          ((0.5 * ((a.radius + b.radius) - length ops (a.position - b.position)) + 0.1)
            * (a.mass / (a.mass + b.mass)))) ∧
    (length ops ((resolveCollision ops st t a b).2.1.position - a.position)
      = (0.5 * ((a.radius + b.radius) - length ops (a.position - b.position)) + 0.1)
          * (b.mass / (a.mass + b.mass)) ∧
    length ops ((resolveCollision ops st t a b).2.2.position - b.position)
      = (0.5 * ((a.radius + b.radius) - length ops (a.position - b.position)) + 0.1)
          * (a.mass / (a.mass + b.mass))) := by
  have hov1 : (a.radius + b.radius) - length ops (a.position - b.position) > 0 := by linarith
  obtain ⟨r1, r2, -, -⟩ := resolveCollision_regular ops st t a b ha hb hv
  obtain ⟨p1, p2⟩ := separateBodies_position ops (normalize ops (a.position - b.position))
    a b hsa hsb hov1
  have hne := Vec3.sub_ne_zero_of_ne _ _ hpos
  have hn1 := hs.length_normalize _ hne
  have hsum : 0 < a.mass + b.mass := add_pos hma hmb
  have hk : (0 : F) ≤ 0.5 * ((a.radius + b.radius) - length ops (a.position - b.position))
      + 0.1 := by
    have : (0 : F) < 0.1 := by norm_num
    linarith
  have hka : 0 ≤ (0.5 * ((a.radius + b.radius) - length ops (a.position - b.position)) + 0.1)
      * (b.mass / (a.mass + b.mass)) := mul_nonneg hk (le_of_lt (div_pos hmb hsum))
  have hkb : 0 ≤ (0.5 * ((a.radius + b.radius) - length ops (a.position - b.position)) + 0.1)
      * (a.mass / (a.mass + b.mass)) := mul_nonneg hk (le_of_lt (div_pos hma hsum))
  rw [r1, r2, p1, p2]
  refine ⟨⟨rfl, rfl⟩, ?_, ?_⟩
  · rw [Vec3.add_sub_cancel_left, hs.length_scale _ _ hka, hn1, mul_one]
  · rw [Vec3.sub_sub_cancel_left, FloatOps.ExactSqrt.length_neg, hs.length_scale _ _ hkb, hn1,
      mul_one]

/-- A pair step leaves a captured Moon alone when every other body is named "Earth" or
"Sun". -/
theorem gravityPair_moon_untouched (ops : FloatOps F) (earth : Option Nat)
    (bs : List (CelestialBody F)) (i j m : Nat) (M : CelestialBody F)
    (hM : bs[m]? = some M) (hn : M.name = "Moon")
    (hw : withinMoonEscape ops earth bs M = true)
    (hothers : ∀ (k : Nat) (B : CelestialBody F), bs[k]? = some B → k ≠ m →
      B.name = "Earth" ∨ B.name = "Sun") :
    (gravityPair ops earth bs i j)[m]? = some M := by
  unfold gravityPair
  by_cases hij : i = j
  · rw [if_pos hij]; exact hM
  · rw [if_neg hij]
    cases hi : bs[i]? with
    | none => exact hM
    | some A =>
      cases hj : bs[j]? with
      | none => exact hM
      | some B =>
        dsimp only
        by_cases him : i = m
        · have hA : A = M := by
            rw [him, hM] at hi; exact (Option.some.inj hi).symm
          have hjm : j ≠ m := fun h => hij (him.trans h.symm)
          have hB := hothers j B hj hjm
          rw [if_pos (by
            rw [hA]
            simp only [Bool.and_eq_true, beq_iff_eq, Bool.or_eq_true]
            exact ⟨⟨hn, hw⟩, hB⟩)]
          exact hM
        · by_cases hjm : j = m
          · have hB : B = M := by
              rw [hjm, hM] at hj; exact (Option.some.inj hj).symm
            have hA := hothers i A hi him
            have hAm : ¬ A.name = "Moon" := by
              rcases hA with h | h <;> rw [h] <;> decide
            rw [if_neg (by
              simp only [Bool.and_eq_true, beq_iff_eq, Bool.or_eq_true]
              tauto)]
            rw [if_pos (by
              rw [hB]
              simp only [Bool.and_eq_true, beq_iff_eq, Bool.or_eq_true]
              exact ⟨⟨hn, hw⟩, hA⟩)]
            exact hM
          · split_ifs
            all_goals first
              | exact hM
              | (rw [List.getElem?_set_ne him]; exact hM)
              | (rw [List.getElem?_set_ne hjm]; exact hM)
              | (rw [List.getElem?_set_ne hjm, List.getElem?_set_ne him]; exact hM)

/-- The lookup loop on a scene of three bodies named "Sun", "Earth" and "Moon", in any
order. -/
theorem findNamed_three (x0 x1 x2 : CelestialBody F) (s e m : Nat) (S E M : CelestialBody F)
    (hS : [x0, x1, x2][s]? = some S) (hE : [x0, x1, x2][e]? = some E)
    (hM : [x0, x1, x2][m]? = some M)
    (hSn : S.name = "Sun") (hEn : E.name = "Earth") (hMn : M.name = "Moon") :
    findNamed [resetBody x0, resetBody x1, resetBody x2] 0 ⟨none, none, none⟩
      = ⟨some m, some e, some s⟩ := by
  have hx : ∀ (k : Nat) (X : CelestialBody F), [x0, x1, x2][k]? = some X →
      (k = 0 ∧ x0 = X) ∨ (k = 1 ∧ x1 = X) ∨ (k = 2 ∧ x2 = X) := by
    intro k X h
    rcases k with _ | _ | _ | k
    · exact Or.inl ⟨rfl, Option.some.inj h⟩
    · exact Or.inr (Or.inl ⟨rfl, Option.some.inj h⟩)
    · exact Or.inr (Or.inr ⟨rfl, Option.some.inj h⟩)
    · exact absurd h (by simp)
  have hSE : "Sun" ≠ "Earth" := by decide
  have hSM : "Sun" ≠ "Moon" := by decide
  have hEM : "Earth" ≠ "Moon" := by decide
  rcases hx s S hS with ⟨rfl, rfl⟩ | ⟨rfl, rfl⟩ | ⟨rfl, rfl⟩ <;>
  rcases hx e E hE with ⟨rfl, rfl⟩ | ⟨rfl, rfl⟩ | ⟨rfl, rfl⟩ <;>
  rcases hx m M hM with ⟨rfl, rfl⟩ | ⟨rfl, rfl⟩ | ⟨rfl, rfl⟩ <;>
  first
    | exact absurd (hSn.symm.trans hEn) hSE
    | exact absurd (hSn.symm.trans hMn) hSM
    | exact absurd (hEn.symm.trans hMn) hEM
    | simp [findNamed, resetBody, CelestialBody.resetAcceleration, hSn, hEn, hMn]

theorem splat_zero_add (v : Vec3 F) : Vec3.splat 0 + v = v := by
  cases v
  simp [Vec3.add_def, Vec3.splat]

/-- The captured Moon of a scene of three bodies named "Sun", "Earth" and "Moon" receives the
two restoring accelerations of the Moon override and nothing from the gravity loop. -/
theorem gravityPass_captured_moon (ops : FloatOps F) (bodies : List (CelestialBody F))
    (s e m : Nat) (S E M : CelestialBody F) (hlen : bodies.length = 3)
    (hS : bodies[s]? = some S) (hE : bodies[e]? = some E) (hM : bodies[m]? = some M)
    (hSn : S.name = "Sun") (hEn : E.name = "Earth") (hMn : M.name = "Moon")
    (hd0 : 0.01 < length ops (E.position - M.position))
    (hd5 : length ops (E.position - M.position) ≤ 5) :
    ((gravityPass ops bodies)[m]?).map CelestialBody.acceleration
      = some ((normalize ops (E.position - M.position)).scale
            (1 * (length ops (E.position - M.position) - 2))
          + (normalize ops (Vec3.cross (E.position - M.position) ⟨0, 1, 0⟩)).scale
            (1.5 * (1 - Vec3.dot (M.velocity - E.velocity)
              (normalize ops (Vec3.cross (E.position - M.position) ⟨0, 1, 0⟩))))) := by
  obtain ⟨x0, x1, x2, rfl⟩ := List.length_eq_three.1 hlen
  have hnm := findNamed_three x0 x1 x2 s e m S E M hS hE hM hSn hEn hMn
  have hrS : [resetBody x0, resetBody x1, resetBody x2][s]? = some (resetBody S) := by
    have := congrArg (Option.map resetBody) hS
    rw [← List.getElem?_map] at this
    exact this
  have hrE : [resetBody x0, resetBody x1, resetBody x2][e]? = some (resetBody E) := by
    have := congrArg (Option.map resetBody) hE
    rw [← List.getElem?_map] at this
    exact this
  have hrM : [resetBody x0, resetBody x1, resetBody x2][m]? = some (resetBody M) := by
    have := congrArg (Option.map resetBody) hM
    rw [← List.getElem?_map] at this
    exact this
  have hmlt : m < [resetBody x0, resetBody x1, resetBody x2].length :=
    lt_length_of_getElem? hrM
  have hem : e ≠ m := by
    intro h
    rw [h, hM] at hE
    have : M.name = "Earth" := by rw [Option.some.inj hE]; exact hEn
    rw [hMn] at this
    exact absurd this (by decide)
  -- the Moon override
  have hO : moonOverride ops ⟨some m, some e, some s⟩
      [resetBody x0, resetBody x1, resetBody x2]
      = [resetBody x0, resetBody x1, resetBody x2].set m
          (((resetBody M).accelerate ((normalize ops (E.position - M.position)).scale
            (1 * (length ops (E.position - M.position) - 2)))).accelerate
            ((normalize ops (Vec3.cross (E.position - M.position) ⟨0, 1, 0⟩)).scale
              (1.5 * (1 - Vec3.dot (M.velocity - E.velocity)
                (normalize ops (Vec3.cross (E.position - M.position) ⟨0, 1, 0⟩)))))) := by
    unfold moonOverride
    simp only [hrM, hrE, resetBody_position, resetBody_velocity]
    rw [if_pos hd5, if_pos hd0]
  unfold gravityPass
  simp only [resetBodies, List.map_cons, List.map_nil]
  rw [hnm]
  simp only []
  rw [hO]
  have hsm : s ≠ m := by
    intro h
    rw [h, hM] at hS
    have : M.name = "Sun" := by rw [Option.some.inj hS]; exact hSn
    rw [hMn] at this
    exact absurd this (by decide)
  have hse : s ≠ e := by
    intro h
    rw [h, hE] at hS
    have : E.name = "Sun" := by rw [Option.some.inj hS]; exact hSn
    rw [hEn] at this
    exact absurd this (by decide)
  have hslt : s < 3 := lt_length_of_getElem? hrS
  have helt : e < 3 := lt_length_of_getElem? hrE
  have hmlt3 : m < 3 := hmlt
  have hall : ∀ (k : Nat) (B0 : CelestialBody F),
      [resetBody x0, resetBody x1, resetBody x2][k]? = some B0 → k ≠ m →
      B0.name = "Earth" ∨ B0.name = "Sun" := by
    intro k B0 hk hkm
    have hklt : k < 3 := lt_length_of_getElem? hk
    have hcase : k = s ∨ k = e := by omega
    rcases hcase with h | h
    · rw [h, hrS] at hk
      right
      rw [← Option.some.inj hk]; exact hSn
    · rw [h, hrE] at hk
      left
      rw [← Option.some.inj hk]; exact hEn
  generalize hM2 : ((resetBody M).accelerate ((normalize ops (E.position - M.position)).scale
      (1 * (length ops (E.position - M.position) - 2)))).accelerate
      ((normalize ops (Vec3.cross (E.position - M.position) ⟨0, 1, 0⟩)).scale
        (1.5 * (1 - Vec3.dot (M.velocity - E.velocity)
          (normalize ops (Vec3.cross (E.position - M.position) ⟨0, 1, 0⟩))))) = M2
  have hM2r : resetBody M2 = resetBody (resetBody M) := by rw [← hM2]; rfl
  have hM2n : M2.name = "Moon" := by rw [← hM2]; exact hMn
  have hM2p : M2.position = M.position := by rw [← hM2]; rfl
  have hM2a : M2.acceleration
      = (Vec3.splat 0 + (normalize ops (E.position - M.position)).scale
            (1 * (length ops (E.position - M.position) - 2)))
          + (normalize ops (Vec3.cross (E.position - M.position) ⟨0, 1, 0⟩)).scale
            (1.5 * (1 - Vec3.dot (M.velocity - E.velocity)
              (normalize ops (Vec3.cross (E.position - M.position) ⟨0, 1, 0⟩)))) := by
    rw [← hM2]; rfl
  have hinv : ∀ (bs : List (CelestialBody F)) (i j : Nat),
      (bs.map resetBody = [resetBody x0, resetBody x1, resetBody x2].map resetBody ∧
        bs[m]? = some M2) →
      ((gravityPair ops (some e) bs i j).map resetBody
          = [resetBody x0, resetBody x1, resetBody x2].map resetBody ∧
        (gravityPair ops (some e) bs i j)[m]? = some M2) := by
    rintro bs i j ⟨hmap, hm2⟩
    refine ⟨by rw [gravityPair_map resetBody resetBody_accelerate]; exact hmap, ?_⟩
    apply gravityPair_moon_untouched ops (some e) bs i j m M2 hm2 hM2n
    · -- the Moon is within the capture distance of the Earth
      rcases getElem?_of_map_resetBody bs _ e hmap with ⟨-, h2⟩ | ⟨E1, E0, h1, h2, h3⟩
      · rw [hrE] at h2; exact Option.noConfusion h2
      · rw [hrE] at h2
        have hE0 : E0 = resetBody E := (Option.some.inj h2).symm
        obtain ⟨hp, -, -⟩ := resetBody_eq_fields E1 E0 h3
        unfold withinMoonEscape
        simp only [h1, decide_eq_true_eq]
        rw [hM2p, hp, hE0, resetBody_position, length_sub_comm]
        exact hd5
    · intro k B hk hkm
      rcases getElem?_of_map_resetBody bs _ k hmap with ⟨h1, -⟩ | ⟨B1, B0, h1, h2, h3⟩
      · rw [hk] at h1; exact Option.noConfusion h1
      · rw [hk] at h1
        have hB1 : B = B1 := Option.some.inj h1
        obtain ⟨-, hnm1, -⟩ := resetBody_eq_fields B1 B0 h3
        rw [hB1, hnm1]
        exact hall k B0 h2 hkm
  have hstart : ([resetBody x0, resetBody x1, resetBody x2].set m M2).map resetBody
        = [resetBody x0, resetBody x1, resetBody x2].map resetBody ∧
      ([resetBody x0, resetBody x1, resetBody x2].set m M2)[m]? = some M2 :=
    ⟨map_set_of_eq resetBody _ m M2 (resetBody M) hrM hM2r, List.getElem?_set_self hmlt⟩
  have hloop : (gravityLoop ops (some e)
      ([resetBody x0, resetBody x1, resetBody x2].set m M2))[m]? = some M2 := by
    unfold gravityLoop
    exact (foldl_invariant
      (fun bs : List (CelestialBody F) =>
        bs.map resetBody = [resetBody x0, resetBody x1, resetBody x2].map resetBody ∧
          bs[m]? = some M2) _
      (fun bs i h => foldl_invariant
        (fun bs : List (CelestialBody F) =>
          bs.map resetBody = [resetBody x0, resetBody x1, resetBody x2].map resetBody ∧
            bs[m]? = some M2) _
        (fun bs1 j h1 => hinv bs1 i j h1) _ bs h) _ _ hstart).2
  rw [hloop]
  simp only [Option.map_some', Option.some.injEq]
  rw [hM2a, splat_zero_add]

theorem normalizeChecked_zero (ops : FloatOps F) :
    normalizeChecked ops (⟨0, 0, 0⟩ : Vec3 F) = none := by
  simp [normalizeChecked, Vec3.dot]

theorem normalizeChecked_of_ne_zero (ops : FloatOps F) (v : Vec3 F) (h : v ≠ ⟨0, 0, 0⟩) :
    normalizeChecked ops v = some (normalize ops v) := by
  unfold normalizeChecked
  rw [if_neg (ne_of_gt (Vec3.dot_self_pos v h))]

theorem Vec3.cross_zero_left (v : Vec3 F) : Vec3.cross ⟨0, 0, 0⟩ v = ⟨0, 0, 0⟩ := by
  simp [Vec3.cross]

/-- When the cross product of offset and velocity is not the zero vector no NaN arises in the
loop body of `generateFullOrbit`: the point is the one `orbitPoint` computes. -/
theorem orbitPointChecked_eq (ops : FloatOps F) (trig : TrigOps F)
    (body centralBody : CelestialBody F) (i : Nat)
    (hv : Vec3.cross (body.position - centralBody.position) body.velocity ≠ ⟨0, 0, 0⟩) :
    orbitPointChecked ops trig body centralBody i
      = some (orbitPoint ops trig body centralBody i) := by
  have ht : body.position - centralBody.position ≠ ⟨0, 0, 0⟩ := by
    intro h
    rw [h, Vec3.cross_zero_left] at hv
    exact hv rfl
  unfold orbitPointChecked orbitNormalChecked orbitPoint orbitNormal
  simp only [normalizeChecked_of_ne_zero ops _ hv, normalizeChecked_of_ne_zero ops _ ht]

/-- When the cross product of offset and velocity is the zero vector, every point of
`generateFullOrbit` is NaN. -/
theorem orbitPointChecked_of_cross_eq_zero (ops : FloatOps F) (trig : TrigOps F)
    (body centralBody : CelestialBody F) (i : Nat)
    (hv : Vec3.cross (body.position - centralBody.position) body.velocity = ⟨0, 0, 0⟩) :
    orbitPointChecked ops trig body centralBody i = none := by
  unfold orbitPointChecked orbitNormalChecked
  simp only [hv, normalizeChecked_zero]

/-- Without NaN, `generateFullOrbitChecked` is `generateFullOrbit`. -/
theorem generateFullOrbitChecked_eq (ops : FloatOps F) (trig : TrigOps F)
    (body centralBody : CelestialBody F)
    (hv : Vec3.cross (body.position - centralBody.position) body.velocity ≠ ⟨0, 0, 0⟩) :
    generateFullOrbitChecked ops trig body centralBody
      = (generateFullOrbit ops trig body centralBody).map some := by
  unfold generateFullOrbitChecked generateFullOrbit
  rw [List.map_map]
  exact List.map_congr_left (fun i _ => orbitPointChecked_eq ops trig body centralBody i hv)

/-- For bodies at distinct positions no NaN arises in the positional correction: the positions
are those `resolveCollision` leaves. -/
theorem separatedPositionsChecked_eq (ops : FloatOps F) (st : CollisionStatics F) (t : F)
    (a b : CelestialBody F) (ha : a.name ≠ "Sun") (hb : b.name ≠ "Sun")
    (hpos : a.position ≠ b.position) :
    separatedPositionsChecked ops a b
      = (some (resolveCollision ops st t a b).2.1.position,
         some (resolveCollision ops st t a b).2.2.position) := by
  unfold separatedPositionsChecked
  rw [normalizeChecked_of_ne_zero ops _ (Vec3.sub_ne_zero_of_ne _ _ hpos)]
  dsimp only
  by_cases hv : Vec3.dot (a.velocity - b.velocity) (normalize ops (a.position - b.position)) > 0
  · rw [if_pos hv, resolveCollision_separating ops st t a b ha hb hv]
  · rw [if_neg hv]
    obtain ⟨r1, r2, -, -⟩ := resolveCollision_regular ops st t a b ha hb hv
    rw [r1, r2]

theorem sunCollisionVelocityChecked_eq (ops : FloatOps F) (st : CollisionStatics F) (t : F)
    (sun planet : CelestialBody F) (hpos : planet.position ≠ sun.position)
    (hup : Vec3.dot (planet.velocity - sun.velocity)
        (normalize ops (planet.position - sun.position)) < 0 →
      Vec3.cross (normalize ops (planet.position - sun.position)) ⟨0, 1, 0⟩ ≠ ⟨0, 0, 0⟩) :
    sunCollisionVelocityChecked ops sun planet
      = some (resolveSunCollision ops st t sun planet).2.velocity := by
  unfold sunCollisionVelocityChecked
  rw [normalizeChecked_of_ne_zero ops _ (Vec3.sub_ne_zero_of_ne _ _ hpos)]
  dsimp only
  by_cases hv : Vec3.dot (planet.velocity - sun.velocity)
      (normalize ops (planet.position - sun.position)) < 0
  · rw [if_pos hv, normalizeChecked_of_ne_zero ops _ (hup hv)]
    unfold resolveSunCollision
    dsimp only
    split_ifs <;> rfl
  · rw [if_neg hv, resolveSunCollision_velocity_of_receding ops st t sun planet hv]

/-- For every body and centre at distinct positions such that the cross
product of the body offset and the body velocity is not the zero vector (with an exact square
root, `cos 0 = 1` and `sin 0 = 0`), the first point emitted by `generateFullOrbit` equals
`centre + orbitRadius * normalize(body.position - centre)`, which is the position of the
body. -/
theorem generateFullOrbit_first_point (ops : FloatOps F) (hs : ops.ExactSqrt) (trig : TrigOps F)
    (hcos : trig.cos 0 = 1) (hsin : ops.sin 0 = 0) (body centralBody : CelestialBody F)
    (hpos : body.position ≠ centralBody.position)
    (hv : Vec3.cross (body.position - centralBody.position) body.velocity ≠ ⟨0, 0, 0⟩) :
    (generateFullOrbit ops trig body centralBody)[0]?
      = some (centralBody.position
          + (normalize ops (body.position - centralBody.position)).scale
              (length ops (body.position - centralBody.position))) ∧
    (generateFullOrbit ops trig body centralBody)[0]? = some body.position := by
  obtain ⟨h1, h2⟩ := orbitPoint_zero ops hs trig hcos hsin body centralBody hpos hv
  rw [generateFullOrbit_head]
  exact ⟨congrArg some h1, congrArg some h2⟩

end Lemmas


/-! ## The claims -/

section Claims

set_option linter.unusedSectionVars false

variable {F : Type} [LinearOrderedField F]

open PhysicsEngine

/-- Claim C1. On a non-static body, for every time delta, `updatePosition` performs one
semi-implicit Euler step: the new velocity is `velocity + acceleration * dt` and the new position
is `position + (new velocity) * dt`. -/
theorem C1_updatePosition_semi_implicit_euler (ops : FloatOps F) (b : CelestialBody F) (dt : F)
    (h : b.isStatic = false) :
    (b.updatePosition ops dt).velocity = b.velocity + b.acceleration.scale dt ∧
      (b.updatePosition ops dt).position
        = b.position + (b.updatePosition ops dt).velocity.scale dt := by
  rw [CelestialBody.updatePosition_of_not_static ops b dt h]
  simp only [CelestialBody.addOrbitPoint_velocity, CelestialBody.addOrbitPoint_position]
  constructor <;> split_ifs <;>
    simp only [CelestialBody.updateCollisionAnimation_velocity,
      CelestialBody.updateCollisionAnimation_acceleration,
      CelestialBody.updateCollisionAnimation_position]

/-- Claim C1 at a concrete input: a non-static Moon and `dt = 0.25`. -/
theorem C1_witness :
    (testBody ℝ "Moon" ⟨25, 0, 2⟩ ⟨0, 0, 2⟩ 0.2 0.3 false).isStatic = false ∧
    (((testBody ℝ "Moon" ⟨25, 0, 2⟩ ⟨0, 0, 2⟩ 0.2 0.3 false).updatePosition
          ⟨Real.sqrt, Real.sin⟩ 0.25).velocity
        = (testBody ℝ "Moon" ⟨25, 0, 2⟩ ⟨0, 0, 2⟩ 0.2 0.3 false).velocity
          + (testBody ℝ "Moon" ⟨25, 0, 2⟩ ⟨0, 0, 2⟩ 0.2 0.3 false).acceleration.scale 0.25 ∧
      ((testBody ℝ "Moon" ⟨25, 0, 2⟩ ⟨0, 0, 2⟩ 0.2 0.3 false).updatePosition
          ⟨Real.sqrt, Real.sin⟩ 0.25).position
        = (testBody ℝ "Moon" ⟨25, 0, 2⟩ ⟨0, 0, 2⟩ 0.2 0.3 false).position
          + ((testBody ℝ "Moon" ⟨25, 0, 2⟩ ⟨0, 0, 2⟩ 0.2 0.3 false).updatePosition
              ⟨Real.sqrt, Real.sin⟩ 0.25).velocity.scale 0.25) :=
  ⟨rfl, C1_updatePosition_semi_implicit_euler _ _ _ rfl⟩

/-- Claim C2. In a two-body scene made of a body named "Sun" and one other body of positive mass
at distance `d >= 0.01`, in either list order, the gravity pass leaves the other body with the
acceleration `0.01 * M / d^2` times the unit vector pointing from it to the Sun: the base law is
applied to it exactly once. (In such a scene the Moon skip and the Moon override cannot apply.) -/
theorem C2_star_gravity (ops : FloatOps F) (s p : CelestialBody F) (hs : s.name = "Sun")
    (hmp : 0 < p.mass) (hd : 0.01 ≤ length ops (s.position - p.position)) :
    ((gravityPass ops [s, p])[1]?).map CelestialBody.acceleration
      = some ((normalize ops (s.position - p.position)).scale
          (0.01 * s.mass / length ops (s.position - p.position) ^ 2)) ∧
    ((gravityPass ops [p, s])[0]?).map CelestialBody.acceleration
      = some ((normalize ops (s.position - p.position)).scale
          (0.01 * s.mass / length ops (s.position - p.position) ^ 2)) := by
  have hm : p.mass ≠ 0 := ne_of_gt hmp
  constructor
  · rw [gravityPass_pair ops s p ((findNamed_pair_of_star s p (Or.inl hs)).imp (fun h => h.1) id)]
    exact star_pair_acceleration ops s p hs hm hd s p (Or.inl hs) 0 1 _ (by decide) rfl rfl
      (Or.inl rfl) (Or.inr rfl) 0 1 (Or.inl ⟨rfl, rfl⟩)
  · rw [gravityPass_pair ops p s ((findNamed_pair_of_star p s (Or.inr hs)).imp (fun h => h.1) id)]
    exact star_pair_acceleration ops s p hs hm hd p s (Or.inr hs) 1 0 _ (by decide) rfl rfl
      (Or.inr rfl) (Or.inl rfl) 0 1 (Or.inr ⟨rfl, rfl⟩)

/-- Claim C2 at a concrete input: a star of mass 10000 at the origin and a planet of mass 2 at
distance 25. -/
theorem C2_witness :
    (gravityStar ℝ).name = "Sun" ∧ 0 < (gravityPlanet ℝ).mass ∧
    0.01 ≤ length ⟨Real.sqrt, Real.sin⟩ ((gravityStar ℝ).position - (gravityPlanet ℝ).position) ∧
    ((gravityPass ⟨Real.sqrt, Real.sin⟩ [gravityStar ℝ, gravityPlanet ℝ])[1]?).map
        CelestialBody.acceleration
      = some ((normalize ⟨Real.sqrt, Real.sin⟩
          ((gravityStar ℝ).position - (gravityPlanet ℝ).position)).scale
          (0.01 * (gravityStar ℝ).mass / length ⟨Real.sqrt, Real.sin⟩
            ((gravityStar ℝ).position - (gravityPlanet ℝ).position) ^ 2)) ∧
    ((gravityPass ⟨Real.sqrt, Real.sin⟩ [gravityPlanet ℝ, gravityStar ℝ])[0]?).map
        CelestialBody.acceleration
      = some ((normalize ⟨Real.sqrt, Real.sin⟩
          ((gravityStar ℝ).position - (gravityPlanet ℝ).position)).scale
          (0.01 * (gravityStar ℝ).mass / length ⟨Real.sqrt, Real.sin⟩
            ((gravityStar ℝ).position - (gravityPlanet ℝ).position) ^ 2)) := by
  have hm : 0 < (gravityPlanet ℝ).mass := by show (0 : ℝ) < 2; norm_num
  have hd : 0.01 ≤ length ⟨Real.sqrt, Real.sin⟩
      ((gravityStar ℝ).position - (gravityPlanet ℝ).position) := by
    have e : (gravityStar ℝ).position - (gravityPlanet ℝ).position = ⟨25, 0, 0⟩ := by
      simp [gravityStar, gravityPlanet, testBody, CelestialBody.new, Vec3.sub_def]
    rw [e, (exactSqrt_real Real.sin).length_x_axis 25 (by norm_num)]
    norm_num
  exact ⟨rfl, hm, hd, C2_star_gravity ⟨Real.sqrt, Real.sin⟩ (gravityStar ℝ) (gravityPlanet ℝ)
    rfl hm hd⟩

/-- Claim C3, evaluated at a failing input. For "Mars" (mass 1) at the origin and "Venus"
(mass 2) at `(10, 0, 0)`, distance 10, the gravity pass gives Mars the acceleration
`(0.0004, 0, 0)`, twice the value `G * mB / d^2 = 0.0002` along the unit vector towards Venus
that the claim states. -/
theorem C3_planet_pair_gravity_doubled :
    ((gravityPass ⟨Real.sqrt, Real.sin⟩ [farPlanetA ℝ, farPlanetB ℝ])[0]?).map
        CelestialBody.acceleration = some (⟨0.0004, 0, 0⟩ : Vec3 ℝ) ∧
    (normalize ⟨Real.sqrt, Real.sin⟩ ((farPlanetB ℝ).position - (farPlanetA ℝ).position)).scale
        (0.01 * (farPlanetB ℝ).mass
          / length ⟨Real.sqrt, Real.sin⟩ ((farPlanetB ℝ).position - (farPlanetA ℝ).position) ^ 2)
      = (⟨0.0002, 0, 0⟩ : Vec3 ℝ) := by
  have hs := exactSqrt_real Real.sin
  have hl : length ⟨Real.sqrt, Real.sin⟩ ((farPlanetB ℝ).position - (farPlanetA ℝ).position)
      = 10 := by
    rw [farPlanet_values]; exact hs.length_x_axis 10 (by norm_num)
  have hn : normalize ⟨Real.sqrt, Real.sin⟩
      ((farPlanetB ℝ).position - (farPlanetA ℝ).position) = ⟨1, 0, 0⟩ := by
    rw [farPlanet_values]; exact hs.normalize_x_axis 10 (by norm_num)
  have hmB : (farPlanetB ℝ).mass = 2 := rfl
  constructor
  · rw [(gravityPass_far_pair ⟨Real.sqrt, Real.sin⟩ (farPlanetA ℝ) (farPlanetB ℝ)
      (by decide) (by decide) (by show (1 : ℝ) ≠ 0; norm_num) (by show (2 : ℝ) ≠ 0; norm_num)
      (by rw [hl]; norm_num)).1, hl, hn, hmB]
    simp only [Vec3.scale, Option.some.injEq, Vec3.mk.injEq]
    norm_num
  · rw [hl, hn, hmB]
    simp only [Vec3.scale, Vec3.mk.injEq]
    norm_num

/-- Claim C4 fails as stated. Both pairs below satisfy its hypotheses (non-static, not the Sun,
distinct centres, `checkCollision` holds). The first is separating and is returned unchanged, so
`checkCollision` still holds. The second is approaching with overlap 1: the centres end 1.6 apart,
below `radiusA + radiusB - 0.1 = 1.9`, and `checkCollision` still holds. -/
theorem C4_counterexample :
    -- a separating overlapping pair
    ((collidingA ℝ 1).name ≠ "Sun" ∧ (collidingB ℝ 1).name ≠ "Sun" ∧
      (collidingA ℝ 1).isStatic = false ∧ (collidingB ℝ 1).isStatic = false ∧
      (collidingA ℝ 1).position ≠ (collidingB ℝ 1).position ∧
      checkCollision ⟨Real.sqrt, Real.sin⟩ (collidingA ℝ 1) (collidingB ℝ 1) = true ∧
      checkCollision ⟨Real.sqrt, Real.sin⟩
        (resolveCollision ⟨Real.sqrt, Real.sin⟩ ⟨0, 0, 0⟩ 5 (collidingA ℝ 1) (collidingB ℝ 1)).2.1
        (resolveCollision ⟨Real.sqrt, Real.sin⟩ ⟨0, 0, 0⟩ 5 (collidingA ℝ 1) (collidingB ℝ 1)).2.2
        = true) ∧
    -- an approaching pair that overlaps by more than 0.4
    ((collidingA ℝ (-1)).name ≠ "Sun" ∧ (collidingB ℝ 1).name ≠ "Sun" ∧
      (collidingA ℝ (-1)).isStatic = false ∧ (collidingB ℝ 1).isStatic = false ∧
      (collidingA ℝ (-1)).position ≠ (collidingB ℝ 1).position ∧
      checkCollision ⟨Real.sqrt, Real.sin⟩ (collidingA ℝ (-1)) (collidingB ℝ 1) = true ∧
      length ⟨Real.sqrt, Real.sin⟩
        ((resolveCollision ⟨Real.sqrt, Real.sin⟩ ⟨0, 0, 0⟩ 5
            (collidingA ℝ (-1)) (collidingB ℝ 1)).2.1.position
          - (resolveCollision ⟨Real.sqrt, Real.sin⟩ ⟨0, 0, 0⟩ 5
            (collidingA ℝ (-1)) (collidingB ℝ 1)).2.2.position) = 1.6 ∧
      checkCollision ⟨Real.sqrt, Real.sin⟩
        (resolveCollision ⟨Real.sqrt, Real.sin⟩ ⟨0, 0, 0⟩ 5
          (collidingA ℝ (-1)) (collidingB ℝ 1)).2.1
        (resolveCollision ⟨Real.sqrt, Real.sin⟩ ⟨0, 0, 0⟩ 5
          (collidingA ℝ (-1)) (collidingB ℝ 1)).2.2 = true) := by
  have hs := exactSqrt_real Real.sin
  have hl : ∀ vx : ℝ, length ⟨Real.sqrt, Real.sin⟩
      ((collidingA ℝ vx).position - (collidingB ℝ 1).position) = 1 := by
    intro vx
    rw [(colliding_values vx 1).1]; exact hs.length_x_axis 1 (by norm_num)
  have hn : ∀ vx : ℝ, normalize ⟨Real.sqrt, Real.sin⟩
      ((collidingA ℝ vx).position - (collidingB ℝ 1).position) = ⟨1, 0, 0⟩ := by
    intro vx
    rw [(colliding_values vx 1).1]; exact hs.normalize_x_axis 1 (by norm_num)
  have hvn : ∀ vx : ℝ, Vec3.dot ((collidingA ℝ vx).velocity - (collidingB ℝ 1).velocity)
      (normalize ⟨Real.sqrt, Real.sin⟩
        ((collidingA ℝ vx).position - (collidingB ℝ 1).position)) = vx := by
    intro vx
    rw [hn, (colliding_values vx 1).2.1]
    simp [Vec3.dot]
  have hra : ∀ vx : ℝ, (collidingA ℝ vx).radius = 1 := fun _ => rfl
  have hrb : (collidingB ℝ 1).radius = 1 := rfl
  have hc : ∀ vx : ℝ, checkCollision ⟨Real.sqrt, Real.sin⟩ (collidingA ℝ vx) (collidingB ℝ 1)
      = true := by
    intro vx
    simp only [checkCollision, hl, hra, hrb, decide_eq_true_eq]
    norm_num
  refine ⟨⟨by decide, by decide, rfl, rfl, (colliding_values 1 1).2.2, hc 1, ?_⟩,
    ⟨by decide, by decide, rfl, rfl, (colliding_values (-1) 1).2.2, hc (-1), ?_⟩⟩
  · rw [resolveCollision_separating _ _ _ _ _ (by decide) (by decide)
      (by rw [hvn]; norm_num)]
    exact hc 1
  · have hd := resolveCollision_distance ⟨Real.sqrt, Real.sin⟩ hs ⟨0, 0, 0⟩ 5
      (collidingA ℝ (-1)) (collidingB ℝ 1) (by decide) (by decide) rfl rfl
      (by show (0 : ℝ) < 1; norm_num) (by show (0 : ℝ) < 1; norm_num)
      (colliding_values (-1) 1).2.2 (by rw [hvn]; norm_num)
      (by rw [hl, hra, hrb]; norm_num)
    rw [hl, hra, hrb] at hd
    obtain ⟨-, -, hra', hrb'⟩ := resolveCollision_regular ⟨Real.sqrt, Real.sin⟩ ⟨0, 0, 0⟩ 5
      (collidingA ℝ (-1)) (collidingB ℝ 1) (by decide) (by decide) (by rw [hvn]; norm_num)
    constructor
    · rw [hd]; norm_num
    · simp only [checkCollision, hd, hra', hrb', hra, hrb, decide_eq_true_eq]
      norm_num

/-- Claim C4, amended. For non-static bodies `a`, `b` of positive mass, neither named "Sun", with
distinct centres, for which `checkCollision` holds, which are not separating
(`(vA - vB) . n <= 0`) and whose centres are at least `radiusA + radiusB - 0.4` apart:
`resolveCollision` moves the centres to distance `d + overlap / 2 + 0.1`, which is at least
`radiusA + radiusB - 0.1`, so `checkCollision` no longer holds. -/
theorem C4_resolveCollision_separates (ops : FloatOps F) (hs : ops.ExactSqrt)
    (st : CollisionStatics F) (t : F) (a b : CelestialBody F)
    (ha : a.name ≠ "Sun") (hb : b.name ≠ "Sun")
    (hsa : a.isStatic = false) (hsb : b.isStatic = false)
    (hma : 0 < a.mass) (hmb : 0 < b.mass) (hpos : a.position ≠ b.position)
    (hc : checkCollision ops a b = true)
    (hv : ¬ Vec3.dot (a.velocity - b.velocity) (normalize ops (a.position - b.position)) > 0)
    (hshallow : a.radius + b.radius - 0.4 ≤ length ops (a.position - b.position)) :
    length ops ((resolveCollision ops st t a b).2.1.position
        - (resolveCollision ops st t a b).2.2.position)
      = length ops (a.position - b.position)
        + 0.5 * ((a.radius + b.radius) - length ops (a.position - b.position)) + 0.1 ∧
    a.radius + b.radius - 0.1 ≤ length ops ((resolveCollision ops st t a b).2.1.position
        - (resolveCollision ops st t a b).2.2.position) ∧
    checkCollision ops (resolveCollision ops st t a b).2.1 (resolveCollision ops st t a b).2.2
      = false := by
  have hc' : length ops (a.position - b.position) < a.radius + b.radius - 0.1 := by
    simpa [checkCollision] using hc
  have hov : (a.radius + b.radius) - length ops (a.position - b.position) > 0 := by
    have : (0 : F) < 0.1 := by norm_num
    linarith
  have hdist := resolveCollision_distance ops hs st t a b ha hb hsa hsb hma hmb hpos hv hov
  obtain ⟨-, -, hra, hrb⟩ := resolveCollision_regular ops st t a b ha hb hv
  have hge : a.radius + b.radius - 0.1 ≤ length ops
      ((resolveCollision ops st t a b).2.1.position
        - (resolveCollision ops st t a b).2.2.position) := by
    rw [hdist]
    linarith
  refine ⟨hdist, hge, ?_⟩
  simp only [checkCollision, hra, hrb, decide_eq_false_iff_not, not_lt]
  exact hge

/-- Claim C4 (amended) at a concrete input: radii 1 and 0.3, centres 1 apart, approaching. -/
theorem C4_witness :
    (FloatOps.mk Real.sqrt Real.sin).ExactSqrt ∧
    (collidingA ℝ (-1)).name ≠ "Sun" ∧ (collidingB ℝ 0.3).name ≠ "Sun" ∧
    (collidingA ℝ (-1)).isStatic = false ∧ (collidingB ℝ 0.3).isStatic = false ∧
    0 < (collidingA ℝ (-1)).mass ∧ 0 < (collidingB ℝ 0.3).mass ∧
    (collidingA ℝ (-1)).position ≠ (collidingB ℝ 0.3).position ∧
    checkCollision ⟨Real.sqrt, Real.sin⟩ (collidingA ℝ (-1)) (collidingB ℝ 0.3) = true ∧
    ¬ Vec3.dot ((collidingA ℝ (-1)).velocity - (collidingB ℝ 0.3).velocity)
      (normalize ⟨Real.sqrt, Real.sin⟩
        ((collidingA ℝ (-1)).position - (collidingB ℝ 0.3).position)) > 0 ∧
    (collidingA ℝ (-1)).radius + (collidingB ℝ 0.3).radius - 0.4
      ≤ length ⟨Real.sqrt, Real.sin⟩
          ((collidingA ℝ (-1)).position - (collidingB ℝ 0.3).position) ∧
    checkCollision ⟨Real.sqrt, Real.sin⟩
      (resolveCollision ⟨Real.sqrt, Real.sin⟩ ⟨0, 0, 0⟩ 5
        (collidingA ℝ (-1)) (collidingB ℝ 0.3)).2.1
      (resolveCollision ⟨Real.sqrt, Real.sin⟩ ⟨0, 0, 0⟩ 5
        (collidingA ℝ (-1)) (collidingB ℝ 0.3)).2.2 = false := by
  have hs := exactSqrt_real Real.sin
  have hl : length ⟨Real.sqrt, Real.sin⟩
      ((collidingA ℝ (-1)).position - (collidingB ℝ 0.3).position) = 1 := by
    rw [(colliding_values (-1) 0.3).1]; exact hs.length_x_axis 1 (by norm_num)
  have hn : normalize ⟨Real.sqrt, Real.sin⟩
      ((collidingA ℝ (-1)).position - (collidingB ℝ 0.3).position) = ⟨1, 0, 0⟩ := by
    rw [(colliding_values (-1) 0.3).1]; exact hs.normalize_x_axis 1 (by norm_num)
  have hvn : Vec3.dot ((collidingA ℝ (-1)).velocity - (collidingB ℝ 0.3).velocity)
      (normalize ⟨Real.sqrt, Real.sin⟩
        ((collidingA ℝ (-1)).position - (collidingB ℝ 0.3).position)) = -1 := by
    rw [hn, (colliding_values (-1) 0.3).2.1]
    simp [Vec3.dot]
  have hra : (collidingA ℝ (-1)).radius = 1 := rfl
  have hrb : (collidingB ℝ 0.3).radius = 0.3 := rfl
  have hma : 0 < (collidingA ℝ (-1)).mass := by show (0 : ℝ) < 1; norm_num
  have hmb : 0 < (collidingB ℝ 0.3).mass := by show (0 : ℝ) < 1; norm_num
  have hc : checkCollision ⟨Real.sqrt, Real.sin⟩ (collidingA ℝ (-1)) (collidingB ℝ 0.3)
      = true := by
    simp only [checkCollision, hl, hra, hrb, decide_eq_true_eq]
    norm_num
  have hv : ¬ Vec3.dot ((collidingA ℝ (-1)).velocity - (collidingB ℝ 0.3).velocity)
      (normalize ⟨Real.sqrt, Real.sin⟩
        ((collidingA ℝ (-1)).position - (collidingB ℝ 0.3).position)) > 0 := by
    rw [hvn]; norm_num
  have hsh : (collidingA ℝ (-1)).radius + (collidingB ℝ 0.3).radius - 0.4
      ≤ length ⟨Real.sqrt, Real.sin⟩
          ((collidingA ℝ (-1)).position - (collidingB ℝ 0.3).position) := by
    rw [hl, hra, hrb]; norm_num
  exact ⟨hs, by decide, by decide, rfl, rfl, hma, hmb, (colliding_values (-1) 0.3).2.2, hc, hv,
    hsh, (C4_resolveCollision_separates ⟨Real.sqrt, Real.sin⟩ hs ⟨0, 0, 0⟩ 5
      (collidingA ℝ (-1)) (collidingB ℝ 0.3) (by decide) (by decide) rfl rfl hma hmb
      (colliding_values (-1) 0.3).2.2 hc hv hsh).2.2⟩

/-- Claim C5. With the star at the origin, the target at `(10, 0, 0)` with radius 1 and an
occluder of radius 0.5: for the occluder at `(5, 0, 0)` `checkForEclipse` leaves the target with
`isInShadow = true` and `shadowIntensity = 0.2`; for the occluder at `(5, 3, 0)` it leaves the
target with `isInShadow = false`. -/
theorem C5_eclipse_reference_scene (ops : FloatOps F) (hs : ops.ExactSqrt)
    (sun earth moon moon2 : CelestialBody F)
    (h1 : sun.position = ⟨0, 0, 0⟩) (h2 : earth.position = ⟨10, 0, 0⟩)
    (h3 : earth.radius = 1)
    (h4 : moon.position = ⟨5, 0, 0⟩) (h5 : moon.radius = 0.5)
    (h6 : moon2.position = ⟨5, 3, 0⟩) (h7 : moon2.radius = 0.5) :
    (PhysicsEngine.checkForEclipse ops sun earth moon).isInShadow = true ∧
      (PhysicsEngine.checkForEclipse ops sun earth moon).shadowIntensity = 0.2 ∧
      (PhysicsEngine.checkForEclipse ops sun earth moon2).isInShadow = false := by
  have _ := h3
  obtain ⟨hD, hp, hq⟩ := eclipse_aligned_values ops hs sun earth moon 5 0 le_rfl h1 h2 h4
  have ha : eclipseAlignment ops sun earth moon = 1 := by
    unfold eclipseAlignment clamp
    rw [hq, h5]; norm_num
  have hsh : (PhysicsEngine.checkForEclipse ops sun earth moon).isInShadow = true := by
    rw [checkForEclipse_isInShadow, hD, hp, ha, h5]
    norm_num
  refine ⟨hsh, ?_, ?_⟩
  · rw [checkForEclipse_shadowIntensity, if_pos hsh, ha]
    norm_num
  · obtain ⟨-, -, hq2⟩ :=
      eclipse_aligned_values ops hs sun earth moon2 5 3 (by norm_num) h1 h2 h6
    have ha2 : eclipseAlignment ops sun earth moon2 = 0 := by
      unfold eclipseAlignment clamp
      rw [hq2, h7]; norm_num
    have hsh2 : ¬ (PhysicsEngine.checkForEclipse ops sun earth moon2).isInShadow = true := by
      rw [checkForEclipse_isInShadow, ha2]
      norm_num
    simpa using hsh2

/-- Claim C5 at the test bodies over the real numbers. -/
theorem C5_witness :
    (FloatOps.mk Real.sqrt Real.sin).ExactSqrt ∧
    (eclipseStar ℝ).position = ⟨0, 0, 0⟩ ∧ (eclipseTarget ℝ).position = ⟨10, 0, 0⟩ ∧
    (eclipseTarget ℝ).radius = 1 ∧
    (eclipseOccluder ℝ 5 0 0.5).position = ⟨5, 0, 0⟩ ∧ (eclipseOccluder ℝ 5 0 0.5).radius = 0.5 ∧
    (eclipseOccluder ℝ 5 3 0.5).position = ⟨5, 3, 0⟩ ∧ (eclipseOccluder ℝ 5 3 0.5).radius = 0.5 ∧
    ((PhysicsEngine.checkForEclipse ⟨Real.sqrt, Real.sin⟩ (eclipseStar ℝ) (eclipseTarget ℝ)
        (eclipseOccluder ℝ 5 0 0.5)).isInShadow = true ∧
      (PhysicsEngine.checkForEclipse ⟨Real.sqrt, Real.sin⟩ (eclipseStar ℝ) (eclipseTarget ℝ)
        (eclipseOccluder ℝ 5 0 0.5)).shadowIntensity = 0.2 ∧
      (PhysicsEngine.checkForEclipse ⟨Real.sqrt, Real.sin⟩ (eclipseStar ℝ) (eclipseTarget ℝ)
        (eclipseOccluder ℝ 5 3 0.5)).isInShadow = false) :=
  ⟨exactSqrt_real _, rfl, rfl, rfl, rfl, rfl, rfl, rfl,
    C5_eclipse_reference_scene _ (exactSqrt_real _) _ _ _ _ rfl rfl rfl rfl rfl rfl rfl⟩

/-- Claim C6 fails as stated. Star at the origin, target at `(10, 0, 0)`, occluder of radius 1
at `(11, 0, 0)`: the projection `11` equals `D + r`, so it lies in the closed interval
`[-r, D + r]`, and the alignment is `1 > 0.3`; yet the target is not put in shadow. -/
theorem C6_counterexample :
    (eclipseStar ℝ).position ≠ (eclipseTarget ℝ).position ∧
    (0 : ℝ) < (eclipseOccluder ℝ 11 0 1).radius ∧
    ¬ ((PhysicsEngine.checkForEclipse ⟨Real.sqrt, Real.sin⟩ (eclipseStar ℝ) (eclipseTarget ℝ)
          (eclipseOccluder ℝ 11 0 1)).isInShadow = true ↔
        (-(eclipseOccluder ℝ 11 0 1).radius
            ≤ eclipseProjection ⟨Real.sqrt, Real.sin⟩ (eclipseStar ℝ) (eclipseTarget ℝ)
                (eclipseOccluder ℝ 11 0 1) ∧
          eclipseProjection ⟨Real.sqrt, Real.sin⟩ (eclipseStar ℝ) (eclipseTarget ℝ)
              (eclipseOccluder ℝ 11 0 1)
            ≤ length ⟨Real.sqrt, Real.sin⟩ ((eclipseTarget ℝ).position - (eclipseStar ℝ).position)
                + (eclipseOccluder ℝ 11 0 1).radius) ∧
        eclipseAlignment ⟨Real.sqrt, Real.sin⟩ (eclipseStar ℝ) (eclipseTarget ℝ)
          (eclipseOccluder ℝ 11 0 1) > 0.3) := by
  obtain ⟨hD, hp, hq⟩ := eclipse_aligned_values ⟨Real.sqrt, Real.sin⟩ (exactSqrt_real _)
    (eclipseStar ℝ) (eclipseTarget ℝ) (eclipseOccluder ℝ 11 0 1) 11 0 le_rfl rfl rfl rfl
  have hr : (eclipseOccluder ℝ 11 0 1).radius = 1 := rfl
  have ha : eclipseAlignment ⟨Real.sqrt, Real.sin⟩ (eclipseStar ℝ) (eclipseTarget ℝ)
      (eclipseOccluder ℝ 11 0 1) = 1 := by
    unfold eclipseAlignment clamp
    rw [hq, hr]; norm_num
  refine ⟨?_, ?_, ?_⟩
  · intro h
    have := congrArg Vec3.x h
    simp [eclipseStar, eclipseTarget, testBody, CelestialBody.new] at this
  · rw [hr]; norm_num
  · rw [checkForEclipse_isInShadow, hD, hp, ha, hr]
    norm_num

/-- Claim C6, amended. For star and target at distinct positions and occluder radius `r > 0`,
`checkForEclipse` sets `isInShadow` to true if and only if the projection of the occluder onto the
star-to-target line lies strictly between `-r` and `D + r` and the alignment
`1 - clamp(perpDistance / (2 r), 0, 1)` exceeds 0.3; and the alignment exceeds 0.3 if and only if
the perpendicular distance is below `1.4 * r`. -/
theorem C6_eclipse_shadow_iff (ops : FloatOps F) (sun earth moon : CelestialBody F)
    (hpos : sun.position ≠ earth.position) (hr : 0 < moon.radius) :
    ((PhysicsEngine.checkForEclipse ops sun earth moon).isInShadow = true ↔
      (-moon.radius < eclipseProjection ops sun earth moon ∧
        eclipseProjection ops sun earth moon
          < length ops (earth.position - sun.position) + moon.radius) ∧
      eclipseAlignment ops sun earth moon > 0.3) ∧
    (eclipseAlignment ops sun earth moon > 0.3 ↔
      eclipsePerpDistance ops sun earth moon < 1.4 * moon.radius) := by
  have _ := hpos
  refine ⟨checkForEclipse_isInShadow ops sun earth moon, ?_⟩
  unfold eclipseAlignment
  rw [alignment_gt_iff, div_lt_iff₀ (by linarith)]
  constructor <;> intro h <;> linarith

/-- Claim C6 (amended) at a concrete input: the aligned occluder of the test scene. -/
theorem C6_witness :
    (eclipseStar ℝ).position ≠ (eclipseTarget ℝ).position ∧
    (0 : ℝ) < (eclipseOccluder ℝ 5 0 0.5).radius ∧
    (((PhysicsEngine.checkForEclipse ⟨Real.sqrt, Real.sin⟩ (eclipseStar ℝ) (eclipseTarget ℝ)
          (eclipseOccluder ℝ 5 0 0.5)).isInShadow = true ↔
        (-(eclipseOccluder ℝ 5 0 0.5).radius
            < eclipseProjection ⟨Real.sqrt, Real.sin⟩ (eclipseStar ℝ) (eclipseTarget ℝ)
                (eclipseOccluder ℝ 5 0 0.5) ∧
          eclipseProjection ⟨Real.sqrt, Real.sin⟩ (eclipseStar ℝ) (eclipseTarget ℝ)
              (eclipseOccluder ℝ 5 0 0.5)
            < length ⟨Real.sqrt, Real.sin⟩ ((eclipseTarget ℝ).position - (eclipseStar ℝ).position)
                + (eclipseOccluder ℝ 5 0 0.5).radius) ∧
        eclipseAlignment ⟨Real.sqrt, Real.sin⟩ (eclipseStar ℝ) (eclipseTarget ℝ)
          (eclipseOccluder ℝ 5 0 0.5) > 0.3) ∧
      (eclipseAlignment ⟨Real.sqrt, Real.sin⟩ (eclipseStar ℝ) (eclipseTarget ℝ)
          (eclipseOccluder ℝ 5 0 0.5) > 0.3 ↔
        eclipsePerpDistance ⟨Real.sqrt, Real.sin⟩ (eclipseStar ℝ) (eclipseTarget ℝ)
          (eclipseOccluder ℝ 5 0 0.5) < 1.4 * (eclipseOccluder ℝ 5 0 0.5).radius)) :=
  have hpos : (eclipseStar ℝ).position ≠ (eclipseTarget ℝ).position := by
    intro h
    have := congrArg Vec3.x h
    simp [eclipseStar, eclipseTarget, testBody, CelestialBody.new] at this
  have hr : (0 : ℝ) < (eclipseOccluder ℝ 5 0 0.5).radius := by
    show (0 : ℝ) < 0.5
    norm_num
  ⟨hpos, hr, C6_eclipse_shadow_iff _ _ _ _ hpos hr⟩

/-- Claim C7. Let `moon` and `earth` be the bodies the lookup loop of `updatePhysics` finds under
the names "Moon" and "Earth". If the Moon is exactly 2.0 from the Earth and its velocity relative
to the Earth has component 1.0 along `normalize(cross(earth - moon, (0, 1, 0)))`, then the radial
term and the tangential term of the override are both the zero vector and the override leaves the
whole scene, the Moon's acceleration included, unchanged. -/
theorem C7_capture_stable_point (ops : FloatOps F) (bodies : List (CelestialBody F))
    (m e : Nat) (moon earth : CelestialBody F)
    (hm : (findNamed (resetBodies bodies) 0 ⟨none, none, none⟩).moon = some m)
    (he : (findNamed (resetBodies bodies) 0 ⟨none, none, none⟩).earth = some e)
    (hmoon : (resetBodies bodies)[m]? = some moon)
    (hearth : (resetBodies bodies)[e]? = some earth)
    (hd : length ops (earth.position - moon.position) = 2)
    (ht : Vec3.dot (moon.velocity - earth.velocity)
      (normalize ops (Vec3.cross (earth.position - moon.position) ⟨0, 1, 0⟩)) = 1) :
    (normalize ops (earth.position - moon.position)).scale
        (1 * (length ops (earth.position - moon.position) - 2)) = ⟨0, 0, 0⟩ ∧
    (normalize ops (Vec3.cross (earth.position - moon.position) ⟨0, 1, 0⟩)).scale
        (1.5 * (1 - Vec3.dot (moon.velocity - earth.velocity)
          (normalize ops (Vec3.cross (earth.position - moon.position) ⟨0, 1, 0⟩))))
      = ⟨0, 0, 0⟩ ∧
    moonOverride ops (findNamed (resetBodies bodies) 0 ⟨none, none, none⟩) (resetBodies bodies)
      = resetBodies bodies := by
  refine ⟨?_, ?_, ?_⟩
  · rw [hd]; simp [Vec3.scale]
  · rw [ht]; simp [Vec3.scale]
  · unfold moonOverride
    rw [hm, he]
    dsimp only
    rw [hmoon, hearth]
    dsimp only
    rw [hd, ht, if_pos (by norm_num), if_pos (by norm_num)]
    have h0 : (1 : F) * (2 - 2) = 0 := by norm_num
    have h1 : (1.5 : F) * (1 - 1) = 0 := by norm_num
    rw [h0, h1, CelestialBody.accelerate_zero, CelestialBody.accelerate_zero]
    exact set_of_getElem? _ _ _ hmoon

/-- Claim C7 at a concrete input: Earth at `(25, 0, 0)`, Moon at `(25, 0, 2)` with relative
velocity `(1, 0, 0)`. -/
theorem C7_witness :
    (findNamed (resetBodies [captureEarth ℝ, captureMoon ℝ]) 0 ⟨none, none, none⟩).moon
      = some 1 ∧
    (findNamed (resetBodies [captureEarth ℝ, captureMoon ℝ]) 0 ⟨none, none, none⟩).earth
      = some 0 ∧
    (resetBodies [captureEarth ℝ, captureMoon ℝ])[1]? = some (resetBody (captureMoon ℝ)) ∧
    (resetBodies [captureEarth ℝ, captureMoon ℝ])[0]? = some (resetBody (captureEarth ℝ)) ∧
    length ⟨Real.sqrt, Real.sin⟩
      ((resetBody (captureEarth ℝ)).position - (resetBody (captureMoon ℝ)).position) = 2 ∧
    Vec3.dot ((resetBody (captureMoon ℝ)).velocity - (resetBody (captureEarth ℝ)).velocity)
      (normalize ⟨Real.sqrt, Real.sin⟩
        (Vec3.cross ((resetBody (captureEarth ℝ)).position
          - (resetBody (captureMoon ℝ)).position) ⟨0, 1, 0⟩)) = 1 ∧
    moonOverride ⟨Real.sqrt, Real.sin⟩
        (findNamed (resetBodies [captureEarth ℝ, captureMoon ℝ]) 0 ⟨none, none, none⟩)
        (resetBodies [captureEarth ℝ, captureMoon ℝ])
      = resetBodies [captureEarth ℝ, captureMoon ℝ] :=
  have hm : (findNamed (resetBodies [captureEarth ℝ, captureMoon ℝ]) 0
      ⟨none, none, none⟩).moon = some 1 := by
    simp [findNamed, resetBodies, resetBody, CelestialBody.resetAcceleration, captureEarth,
      captureMoon, testBody, CelestialBody.new]
  have he : (findNamed (resetBodies [captureEarth ℝ, captureMoon ℝ]) 0
      ⟨none, none, none⟩).earth = some 0 := by
    simp [findNamed, resetBodies, resetBody, CelestialBody.resetAcceleration, captureEarth,
      captureMoon, testBody, CelestialBody.new]
  ⟨hm, he, rfl, rfl, capture_scene_values.1, capture_scene_values.2,
    (C7_capture_stable_point ⟨Real.sqrt, Real.sin⟩ [captureEarth ℝ, captureMoon ℝ] 1 0
      (resetBody (captureMoon ℝ)) (resetBody (captureEarth ℝ)) hm he rfl rfl
      capture_scene_values.1 capture_scene_values.2).2.2⟩

/-- Claim C8, evaluated at failing inputs. A constructed body with rotation speed 40 after one
`updatePosition` call with `dt = 20` has `rotationAngle = 440`; a constructed body with rotation
speed 20 after one call with `dt = 18` has `rotationAngle = 360`. Neither is below 360. -/
theorem C8_rotationAngle_not_wrapped (ops : FloatOps F) :
    (({ testBody F "Jupiter" ⟨50, 0, -5⟩ ⟨0, 0, 1⟩ 7 2 false with
          rotationSpeed := 40 }).updatePosition ops 20).rotationAngle = 440 ∧
    (({ testBody F "Earth" ⟨25, 0, 0⟩ ⟨0, 0, 2⟩ 2 0.8 false with
          rotationSpeed := 20 }).updatePosition ops 18).rotationAngle = 360 ∧
    ¬ (({ testBody F "Jupiter" ⟨50, 0, -5⟩ ⟨0, 0, 1⟩ 7 2 false with
          rotationSpeed := 40 }).updatePosition ops 20).rotationAngle < 360 ∧
    ¬ (({ testBody F "Earth" ⟨25, 0, 0⟩ ⟨0, 0, 2⟩ 2 0.8 false with
          rotationSpeed := 20 }).updatePosition ops 18).rotationAngle < 360 := by
  have h1 : (({ testBody F "Jupiter" ⟨50, 0, -5⟩ ⟨0, 0, 1⟩ 7 2 false with
      rotationSpeed := 40 }).updatePosition ops 20).rotationAngle = 440 := by
    rw [CelestialBody.updatePosition_rotationAngle _ _ _ rfl]
    simp only [testBody, CelestialBody.new]
    norm_num
  have h2 : (({ testBody F "Earth" ⟨25, 0, 0⟩ ⟨0, 0, 2⟩ 2 0.8 false with
      rotationSpeed := 20 }).updatePosition ops 18).rotationAngle = 360 := by
    rw [CelestialBody.updatePosition_rotationAngle _ _ _ rfl]
    simp only [testBody, CelestialBody.new]
    norm_num
  refine ⟨h1, h2, ?_, ?_⟩
  · rw [h1]; norm_num
  · rw [h2]; norm_num

/-- Claim C9. If the trail of a body has at most 4000 points, it still has at most 4000 points
after `addOrbitPoint`, after `updatePosition`, after `clearOrbit` and after every sequence of
method calls; a constructed body has an empty trail, so its trail never exceeds 4000 points. -/
theorem C9_orbitPoints_length_le (ops : FloatOps F) (b : CelestialBody F) (dt : F)
    (calls : List (BodyCall F)) (h : b.orbitPoints.length ≤ 4000) :
    b.addOrbitPoint.orbitPoints.length ≤ 4000 ∧
      (b.updatePosition ops dt).orbitPoints.length ≤ 4000 ∧
      b.clearOrbit.orbitPoints.length ≤ 4000 ∧
      (runCalls ops calls b).orbitPoints.length ≤ 4000 ∧
      ∀ (pos vel : Vec3 F) (m r : F) (col : Vec3 F) (n : String) (st : Bool) (par : Option Nat)
        (oc : Vec3 F),
        (CelestialBody.new pos vel m r col n st par oc).orbitPoints = [] ∧
        (runCalls ops calls (CelestialBody.new pos vel m r col n st par oc)).orbitPoints.length
          ≤ 4000 :=
  ⟨CelestialBody.addOrbitPoint_length_le b h, CelestialBody.updatePosition_length_le ops b dt h,
    Nat.zero_le _, runCalls_length_le ops calls b h,
    fun _ _ _ _ _ _ _ _ _ => ⟨rfl, runCalls_length_le ops calls _ (Nat.zero_le _)⟩⟩

/-- Claim C9 at a concrete input: a non-static body whose trail is full (4000 points). -/
theorem C9_witness :
    ({ testBody ℝ "Earth" ⟨25, 0, 0⟩ ⟨0, 0, 2⟩ 2 0.8 false with
        orbitPoints := List.replicate 4000 ⟨25, 0, 0⟩ }).orbitPoints.length ≤ 4000 ∧
    ({ testBody ℝ "Earth" ⟨25, 0, 0⟩ ⟨0, 0, 2⟩ 2 0.8 false with
        orbitPoints := List.replicate 4000 ⟨25, 0, 0⟩ }).addOrbitPoint.orbitPoints.length
      ≤ 4000 ∧
    (({ testBody ℝ "Earth" ⟨25, 0, 0⟩ ⟨0, 0, 2⟩ 2 0.8 false with
        orbitPoints := List.replicate 4000 ⟨25, 0, 0⟩ }).updatePosition
          ⟨Real.sqrt, Real.sin⟩ 0.25).orbitPoints.length ≤ 4000 ∧
    (runCalls ⟨Real.sqrt, Real.sin⟩ [.updatePosition 0.25, .addOrbitPoint]
      { testBody ℝ "Earth" ⟨25, 0, 0⟩ ⟨0, 0, 2⟩ 2 0.8 false with
        orbitPoints := List.replicate 4000 ⟨25, 0, 0⟩ }).orbitPoints.length ≤ 4000 :=
  have h := C9_orbitPoints_length_le ⟨Real.sqrt, Real.sin⟩
    { testBody ℝ "Earth" ⟨25, 0, 0⟩ ⟨0, 0, 2⟩ 2 0.8 false with
      orbitPoints := List.replicate 4000 ⟨25, 0, 0⟩ } 0.25
    [.updatePosition 0.25, .addOrbitPoint] (List.length_replicate _ _).le
  ⟨(List.length_replicate _ _).le, h.1, h.2.1, h.2.2.2.1⟩

/-- Claim C10. If a body is static or named "Sun" and its trail is empty, the trail is still
empty after every sequence of method calls (`addOrbitPoint` and `updatePosition` included), also
for a non-static body named "Sun". -/
theorem C10_star_trail_empty (ops : FloatOps F) (calls : List (BodyCall F)) (b : CelestialBody F)
    (h : b.isStatic = true ∨ b.name = "Sun") (h0 : b.orbitPoints = []) :
    (runCalls ops calls b).orbitPoints = [] := by
  induction calls generalizing b with
  | nil => exact h0
  | cons c cs ih =>
    exact ih (c.apply ops b) (BodyCall.apply_star ops c b h h0).1
      (BodyCall.apply_star ops c b h h0).2

/-- Claim C10 at a concrete input: a non-static body named "Sun". -/
theorem C10_witness :
    ((testBody ℝ "Sun" ⟨0, 0, 0⟩ ⟨1, 0, 0⟩ 10000 3 false).isStatic = true ∨
      (testBody ℝ "Sun" ⟨0, 0, 0⟩ ⟨1, 0, 0⟩ 10000 3 false).name = "Sun") ∧
    (testBody ℝ "Sun" ⟨0, 0, 0⟩ ⟨1, 0, 0⟩ 10000 3 false).orbitPoints = [] ∧
    (runCalls ⟨Real.sqrt, Real.sin⟩ [.updatePosition 0.25, .addOrbitPoint, .updatePosition 0.25]
      (testBody ℝ "Sun" ⟨0, 0, 0⟩ ⟨1, 0, 0⟩ 10000 3 false)).orbitPoints = [] :=
  ⟨Or.inr rfl, rfl, C10_star_trail_empty _ _ _ (Or.inr rfl) rfl⟩

/-- Claim C11. On a body that is neither static nor named "Sun", with trail `t` and position
`p`, `addOrbitPoint` yields `t ++ [p]` when `t` has fewer than 4000 points and
`t.tail ++ [p]` when `t` has exactly 4000 points: the oldest point is evicted and the order of
the others is kept. -/
theorem C11_addOrbitPoint_fifo (b : CelestialBody F) (hs : b.isStatic = false)
    (hn : b.name ≠ "Sun") :
    (b.orbitPoints.length < 4000 →
      b.addOrbitPoint.orbitPoints = b.orbitPoints ++ [b.position]) ∧
    (b.orbitPoints.length = 4000 →
      b.addOrbitPoint.orbitPoints = b.orbitPoints.tail ++ [b.position]) := by
  rw [CelestialBody.addOrbitPoint_orbitPoints b hs hn]
  constructor
  · intro h
    rw [if_neg]
    simp only [List.length_append, List.length_singleton]
    omega
  · intro h
    rw [if_pos]
    · cases hb : b.orbitPoints with
      | nil => rw [hb] at h; simp at h
      | cons x xs => rfl
    · simp only [List.length_append, List.length_singleton]
      omega

/-- Witness of C11: a non-static body named "Earth" whose trail holds exactly 4000 points loses
the oldest point and gains its position at the end. -/
theorem C11_witness :
    (fullTrailBody ℝ).isStatic = false ∧ (fullTrailBody ℝ).name ≠ "Sun" ∧
    (fullTrailBody ℝ).orbitPoints.length = 4000 ∧
    (fullTrailBody ℝ).addOrbitPoint.orbitPoints
      = (fullTrailBody ℝ).orbitPoints.tail ++ [(fullTrailBody ℝ).position] :=
  have hlen : (fullTrailBody ℝ).orbitPoints.length = 4000 := List.length_replicate _ _
  ⟨rfl, by decide, hlen, (C11_addOrbitPoint_fifo (fullTrailBody ℝ) rfl (by decide)).2 hlen⟩

/-- Claim C12. The predicate `CollisionInv` (an inactive body shows its base radius and base
colour) is preserved by `startCollisionAnimation`, `updateCollisionAnimation` and
`updatePosition`, and holds for every freshly constructed body; when
`updateCollisionAnimation` brings the timer of an active animation to a value `≤ 0`, the body
becomes inactive with radius and colour equal to the stored base values, which are themselves
unchanged. -/
theorem C12_collision_animation_invariant (ops : FloatOps F) (b : CelestialBody F) (dt : F)
    (h : CollisionInv b) :
    CollisionInv b.startCollisionAnimation ∧
    CollisionInv (b.updateCollisionAnimation ops dt) ∧
    CollisionInv (b.updatePosition ops dt) ∧
    (b.isColliding = true → b.collisionTimer - dt ≤ 0 →
      (b.updateCollisionAnimation ops dt).isColliding = false ∧
      (b.updateCollisionAnimation ops dt).radius = b.originalRadius ∧
      (b.updateCollisionAnimation ops dt).color = b.originalColor ∧
      (b.updateCollisionAnimation ops dt).originalRadius = b.originalRadius ∧
      (b.updateCollisionAnimation ops dt).originalColor = b.originalColor) ∧
    (∀ (pos vel : Vec3 F) (m r : F) (col : Vec3 F) (n : String) (st : Bool) (par : Option Nat)
      (oc : Vec3 F), CollisionInv (CelestialBody.new pos vel m r col n st par oc)) := by
  refine ⟨?_, CelestialBody.updateCollisionAnimation_inv ops b dt h,
    CelestialBody.updatePosition_inv ops b dt h, ?_, ?_⟩
  · intro hc
    exact Bool.noConfusion hc
  · intro hc ht
    unfold CelestialBody.updateCollisionAnimation
    dsimp only
    rw [if_pos hc, if_neg (not_lt.2 ht)]
    exact ⟨rfl, rfl, rfl, rfl, rfl⟩
  · intro pos vel m r col n st par oc _
    exact ⟨rfl, rfl⟩

/-- Witness of C12: a body whose animation has just been started (timer 2) satisfies the
invariant, and an update by `dt = 2` ends the animation with the base radius restored. -/
theorem C12_witness :
    CollisionInv (collidingA ℝ 1).startCollisionAnimation ∧
    (collidingA ℝ 1).startCollisionAnimation.isColliding = true ∧
    (collidingA ℝ 1).startCollisionAnimation.collisionTimer - 2 ≤ 0 ∧
    CollisionInv ((collidingA ℝ 1).startCollisionAnimation.updatePosition
      ⟨Real.sqrt, Real.sin⟩ 2) ∧
    ((collidingA ℝ 1).startCollisionAnimation.updateCollisionAnimation
      ⟨Real.sqrt, Real.sin⟩ 2).isColliding = false ∧
    ((collidingA ℝ 1).startCollisionAnimation.updateCollisionAnimation
      ⟨Real.sqrt, Real.sin⟩ 2).radius = 1 :=
  have h : CollisionInv (collidingA ℝ 1).startCollisionAnimation :=
    fun hc => Bool.noConfusion hc
  have ht : (collidingA ℝ 1).startCollisionAnimation.collisionTimer - 2 ≤ 0 := by
    show (2 : ℝ) - 2 ≤ 0
    norm_num
  have hm := C12_collision_animation_invariant ⟨Real.sqrt, Real.sin⟩
    (collidingA ℝ 1).startCollisionAnimation 2 h
  ⟨h, rfl, ht, hm.2.2.1, (hm.2.2.2.1 rfl ht).1, (hm.2.2.2.1 rfl ht).2.1⟩

/-- Claim C13 fails on static bodies. The static body `staticRock` with the collision animation
started (as `resolveCollision` starts it on both bodies of a pair) keeps its `collisionTimer`
through `updatePosition` with the positive time delta `0.25`: the timer is not strictly
smaller afterwards. -/
theorem C13_static_timer_stuck (ops : FloatOps F) :
    (staticRock F).startCollisionAnimation.isStatic = true ∧
    (staticRock F).startCollisionAnimation.isColliding = true ∧
    (0 : F) < 0.25 ∧
    ((staticRock F).startCollisionAnimation.updatePosition ops 0.25).collisionTimer
      = (staticRock F).startCollisionAnimation.collisionTimer ∧
    ¬ ((staticRock F).startCollisionAnimation.updatePosition ops 0.25).collisionTimer
      < (staticRock F).startCollisionAnimation.collisionTimer :=
  have he : ((staticRock F).startCollisionAnimation.updatePosition ops 0.25).collisionTimer
      = (staticRock F).startCollisionAnimation.collisionTimer := rfl
  ⟨rfl, rfl, by norm_num, he, by rw [he]; exact lt_irrefl _⟩

/-- Claim C14 fails when a static body collides with the Sun. In the scene of the static Sun
(radius 3, at the origin) and the static body `staticRock` (radius 1, at `(3, 0, 0)`, at rest),
`updatePhysics` moves the static body to `(6, 0, 0)`, the distance `3 + 1 + 2` from the Sun,
for every clock, every value of the function statics and every time delta. -/
theorem C14_static_body_pushed_by_star (clock : Nat → Nat → ℝ) (st : CollisionStatics ℝ)
    (dt : ℝ) :
    (staticRock ℝ).isStatic = true ∧ (staticRock ℝ).position = ⟨3, 0, 0⟩ ∧
    ((updatePhysics ⟨Real.sqrt, Real.sin⟩ clock st [eclipseStar ℝ, staticRock ℝ] dt).2[1]?).map
        CelestialBody.position = some (⟨6, 0, 0⟩ : Vec3 ℝ) := by
  have hs := exactSqrt_real Real.sin
  have e : (staticRock ℝ).position - (eclipseStar ℝ).position = ⟨3, 0, 0⟩ := by
    simp [staticRock, eclipseStar, testBody, CelestialBody.new, Vec3.sub_def]
  have hl : length ⟨Real.sqrt, Real.sin⟩ ((staticRock ℝ).position - (eclipseStar ℝ).position)
      = 3 := by
    rw [e]; exact hs.length_x_axis 3 (by norm_num)
  have hn : normalize ⟨Real.sqrt, Real.sin⟩
      ((staticRock ℝ).position - (eclipseStar ℝ).position) = ⟨1, 0, 0⟩ := by
    rw [e]; exact hs.normalize_x_axis 3 (by norm_num)
  have hG := gravityPass_star_pair ⟨Real.sqrt, Real.sin⟩ (eclipseStar ℝ) (staticRock ℝ)
    (Or.inl rfl) (by rw [hl]; norm_num)
  have hrs : (eclipseStar ℝ).radius = 3 := rfl
  have hrr : (staticRock ℝ).radius = 1 := rfl
  refine ⟨rfl, rfl, ?_⟩
  rw [updatePhysics_pair _ clock st _ _ dt _ _ hG, collidePair_pair]
  rw [if_pos (by
    simp only [checkCollision, CelestialBody.accelerate_position, resetBody_position,
      CelestialBody.accelerate_radius, resetBody_radius, decide_eq_true_eq]
    rw [length_sub_comm, hl, hrs, hrr]
    norm_num)]
  rw [resolveCollision_of_sun_left _ _ _ _ _ rfl]
  simp only [List.map_cons, List.getElem?_cons_succ, List.getElem?_cons_zero, Option.map_some',
    Option.some.injEq]
  rw [CelestialBody.updatePosition_of_static _ _ _
    (by rw [resolveSunCollision_isStatic]; rfl)]
  rw [resolveSunCollision_position _ _ _ _ _ (by
    simp only [CelestialBody.accelerate_position, resetBody_position,
      CelestialBody.accelerate_radius, resetBody_radius]
    rw [hl, hrs, hrr]
    norm_num)]
  simp only [CelestialBody.accelerate_position, resetBody_position,
    CelestialBody.accelerate_radius, resetBody_radius]
  rw [hn, hrs, hrr]
  show (eclipseStar ℝ).position + (⟨1, 0, 0⟩ : Vec3 ℝ).scale (3 + 1 + 2) = ⟨6, 0, 0⟩
  have : (eclipseStar ℝ).position = ⟨0, 0, 0⟩ := rfl
  rw [this]
  simp only [Vec3.add_def, Vec3.scale, Vec3.mk.injEq]
  norm_num

/-- Claim C15, amended. Two runs of `updatePhysics` from identical body states with the same
time delta, the same clock readings and the same value of the function static
`lastCollisionTime` produce identical body states; the other two function statics
(`sunCollisionCooldown`, `lastSunCollisionTime`) have no influence. -/
theorem C15_deterministic_given_clock (ops : FloatOps F) (clock : Nat → Nat → F)
    (st st1 : CollisionStatics F) (bodies : List (CelestialBody F)) (dt : F)
    (h : st.lastCollisionTime = st1.lastCollisionTime) :
    (updatePhysics ops clock st bodies dt).2 = (updatePhysics ops clock st1 bodies dt).2 := by
  unfold updatePhysics
  dsimp only
  rw [handleCollisions_congr ops clock st st1 _ h]

/-- Witness of C15: the head-on scene run with two values of the function statics that agree
on `lastCollisionTime`. -/
theorem C15_witness :
    (CollisionStatics.mk (0 : ℝ) 0 0).lastCollisionTime
      = (CollisionStatics.mk (3 : ℝ) 7 0).lastCollisionTime ∧
    (updatePhysics ⟨Real.sqrt, Real.sin⟩ (fun _ _ => 5) ⟨0, 0, 0⟩
        [collidingA ℝ (-1), collidingB ℝ 1] 0.25).2
      = (updatePhysics ⟨Real.sqrt, Real.sin⟩ (fun _ _ => 5) ⟨3, 7, 0⟩
        [collidingA ℝ (-1), collidingB ℝ 1] 0.25).2 :=
  ⟨rfl, C15_deterministic_given_clock ⟨Real.sqrt, Real.sin⟩ (fun _ _ => 5) ⟨0, 0, 0⟩ ⟨3, 7, 0⟩
    [collidingA ℝ (-1), collidingB ℝ 1] 0.25 rfl⟩

/-- Counterexample to C15 as stated. In the head-on scene (two unit-mass bodies of radius 1,
one at `(1, 0, 0)` moving with velocity `(-1, 0, 0)` toward the other at rest at the origin)
with time delta 0.25, the velocity of the first body after `updatePhysics` is
`(-0.6, 0, 0.5)` in a run at clock reading 5 (impulse 0.9) and `(-1.05, 0, 0.5)` in a run at
clock reading 0.05 (impulse damped to 0.45), and also `(-1.05, 0, 0.5)` at clock reading 5 when
the previous collision was resolved at time 4.95 instead of 0. -/
theorem C15_counterexample :
    ((updatePhysics ⟨Real.sqrt, Real.sin⟩ (fun _ _ => 5) ⟨0, 0, 0⟩
        [collidingA ℝ (-1), collidingB ℝ 1] 0.25).2[0]?).map CelestialBody.velocity
      = some (⟨-0.6, 0, 0.5⟩ : Vec3 ℝ) ∧
    ((updatePhysics ⟨Real.sqrt, Real.sin⟩ (fun _ _ => 0.05) ⟨0, 0, 0⟩
        [collidingA ℝ (-1), collidingB ℝ 1] 0.25).2[0]?).map CelestialBody.velocity
      = some (⟨-1.05, 0, 0.5⟩ : Vec3 ℝ) ∧
    ((updatePhysics ⟨Real.sqrt, Real.sin⟩ (fun _ _ => 5) ⟨0, 0, 4.95⟩
        [collidingA ℝ (-1), collidingB ℝ 1] 0.25).2[0]?).map CelestialBody.velocity
      = some (⟨-1.05, 0, 0.5⟩ : Vec3 ℝ) ∧
    ((updatePhysics ⟨Real.sqrt, Real.sin⟩ (fun _ _ => 5) ⟨0, 0, 0⟩
        [collidingA ℝ (-1), collidingB ℝ 1] 0.25).2[0]?).map CelestialBody.velocity
      ≠ ((updatePhysics ⟨Real.sqrt, Real.sin⟩ (fun _ _ => 0.05) ⟨0, 0, 0⟩
        [collidingA ℝ (-1), collidingB ℝ 1] 0.25).2[0]?).map CelestialBody.velocity ∧
    ((updatePhysics ⟨Real.sqrt, Real.sin⟩ (fun _ _ => 5) ⟨0, 0, 0⟩
        [collidingA ℝ (-1), collidingB ℝ 1] 0.25).2[0]?).map CelestialBody.velocity
      ≠ ((updatePhysics ⟨Real.sqrt, Real.sin⟩ (fun _ _ => 5) ⟨0, 0, 4.95⟩
        [collidingA ℝ (-1), collidingB ℝ 1] 0.25).2[0]?).map CelestialBody.velocity := by
  have hs := exactSqrt_real Real.sin
  obtain ⟨a1, b1, hG⟩ := gravityPass_pair_exists ⟨Real.sqrt, Real.sin⟩
    (collidingA ℝ (-1)) (collidingB ℝ 1)
  obtain ⟨⟨-, -, ham, -, -, -⟩, ⟨-, -, hbm, -, -, -⟩⟩ :=
    gravityPass_pair_fields _ _ _ a1 b1 hG
  have hma : a1.mass = 1 := ham
  have hmb : b1.mass = 1 := hbm
  have hacc : a1.acceleration = ⟨-2, 0, 0⟩ := by
    have h := gravityPass_head_on ⟨Real.sqrt, Real.sin⟩ hs
    rw [hG] at h
    exact Option.some.inj h
  have i1 : impulseScalar ⟨0, 0, 0⟩ 5 a1 b1 (-1) = 0.9 := by
    rw [impulseScalar_head_on _ _ _ _ hma hmb, if_neg (by norm_num)]
  have i2 : impulseScalar ⟨0, 0, 0⟩ 0.05 a1 b1 (-1) = 0.45 := by
    rw [impulseScalar_head_on _ _ _ _ hma hmb, if_pos (by norm_num)]
    unfold clamp
    norm_num
  have i3 : impulseScalar ⟨0, 0, 4.95⟩ 5 a1 b1 (-1) = 0.45 := by
    rw [impulseScalar_head_on _ _ _ _ hma hmb, if_pos (by norm_num)]
    unfold clamp
    norm_num
  have r1 := updatePhysics_head_on ⟨Real.sqrt, Real.sin⟩ hs (fun _ _ => 5) ⟨0, 0, 0⟩ 0.25
    a1 b1 hG (by rw [i1]; norm_num) (by rw [i1]; norm_num)
  have r2 := updatePhysics_head_on ⟨Real.sqrt, Real.sin⟩ hs (fun _ _ => 0.05) ⟨0, 0, 0⟩ 0.25
    a1 b1 hG (by rw [i2]; norm_num) (by rw [i2]; norm_num)
  have r3 := updatePhysics_head_on ⟨Real.sqrt, Real.sin⟩ hs (fun _ _ => 5) ⟨0, 0, 4.95⟩ 0.25
    a1 b1 hG (by rw [i3]; norm_num) (by rw [i3]; norm_num)
  rw [i1, hacc] at r1
  rw [i2, hacc] at r2
  rw [i3, hacc] at r3
  have v1 : (⟨-1 + 0.9, 0, 0.5⟩ : Vec3 ℝ) + (⟨-2, 0, 0⟩ : Vec3 ℝ).scale 0.25
      = ⟨-0.6, 0, 0.5⟩ := by
    simp only [Vec3.add_def, Vec3.scale, Vec3.mk.injEq]
    refine ⟨?_, ?_, ?_⟩ <;> norm_num
  have v2 : (⟨-1 + 0.45, 0, 0.5⟩ : Vec3 ℝ) + (⟨-2, 0, 0⟩ : Vec3 ℝ).scale 0.25
      = ⟨-1.05, 0, 0.5⟩ := by
    simp only [Vec3.add_def, Vec3.scale, Vec3.mk.injEq]
    refine ⟨?_, ?_, ?_⟩ <;> norm_num
  rw [v1] at r1
  rw [v2] at r2 r3
  rw [r1, r2, r3]
  refine ⟨rfl, rfl, rfl, ?_, ?_⟩ <;>
  · intro h
    have := congrArg Vec3.x (Option.some.inj h)
    norm_num at this

/-- Claim C16 fails in the code for a body at rest. For a body at rest at `(5, 0, 0)` and the
centre at the origin (distinct positions) the claimed first point
`centre + orbitRadius * normalize(body.position - centre)` is `(5, 0, 0)`, the position of the
body. The cross product of offset and velocity is the zero vector, `glm::normalize` of it is
NaN, the test `length(normal) < 0.1f` written for a degenerate normal is false for NaN, the
normal stays NaN, and the first point pushed, like every later one, is NaN. -/
theorem C16_first_point_nan :
    (orbitBodyAtRest ℝ).position ≠ (eclipseStar ℝ).position ∧
    (orbitBodyAtRest ℝ).position = ⟨5, 0, 0⟩ ∧
    (eclipseStar ℝ).position
        + (normalize ⟨Real.sqrt, Real.sin⟩
            ((orbitBodyAtRest ℝ).position - (eclipseStar ℝ).position)).scale
          (length ⟨Real.sqrt, Real.sin⟩
            ((orbitBodyAtRest ℝ).position - (eclipseStar ℝ).position))
      = ⟨5, 0, 0⟩ ∧
    Vec3.cross ((orbitBodyAtRest ℝ).position - (eclipseStar ℝ).position)
      (orbitBodyAtRest ℝ).velocity = ⟨0, 0, 0⟩ ∧
    orbitNormalChecked ⟨Real.sqrt, Real.sin⟩ (orbitBodyAtRest ℝ) (eclipseStar ℝ) = none ∧
    (generateFullOrbitChecked ⟨Real.sqrt, Real.sin⟩ ⟨Real.cos, Real.pi⟩ (orbitBodyAtRest ℝ)
      (eclipseStar ℝ))[0]? = some none ∧
    (∀ p ∈ generateFullOrbitChecked ⟨Real.sqrt, Real.sin⟩ ⟨Real.cos, Real.pi⟩
      (orbitBodyAtRest ℝ) (eclipseStar ℝ), p = none) := by
  have hs := exactSqrt_real Real.sin
  have e : (orbitBodyAtRest ℝ).position - (eclipseStar ℝ).position = ⟨5, 0, 0⟩ := by
    simp [orbitBodyAtRest, eclipseStar, testBody, CelestialBody.new, Vec3.sub_def]
  have hc : Vec3.cross ((orbitBodyAtRest ℝ).position - (eclipseStar ℝ).position)
      (orbitBodyAtRest ℝ).velocity = ⟨0, 0, 0⟩ := by
    rw [e]
    simp [orbitBodyAtRest, testBody, CelestialBody.new, Vec3.cross]
  have hp : ∀ i, orbitPointChecked ⟨Real.sqrt, Real.sin⟩ ⟨Real.cos, Real.pi⟩
      (orbitBodyAtRest ℝ) (eclipseStar ℝ) i = none :=
    fun i => orbitPointChecked_of_cross_eq_zero _ _ _ _ i hc
  refine ⟨?_, rfl, ?_, hc, ?_, ?_, ?_⟩
  · intro h
    have := congrArg Vec3.x h
    simp [orbitBodyAtRest, eclipseStar, testBody, CelestialBody.new] at this
  · rw [e, hs.normalize_x_axis 5 (by norm_num), hs.length_x_axis 5 (by norm_num)]
    simp [eclipseStar, testBody, CelestialBody.new, Vec3.add_def, Vec3.scale]
  · unfold orbitNormalChecked
    simp only [hc, normalizeChecked_zero]
  · unfold generateFullOrbitChecked
    rw [List.getElem?_map]
    simp [hp]
  · intro p hmem
    unfold generateFullOrbitChecked at hmem
    obtain ⟨i, -, hi⟩ := List.mem_map.1 hmem
    rw [← hi, hp]

/-- Counterexample to C17 as stated. With the star at the origin, the target at `(10, 0, 0)`
and an occluder of radius 0.5 at `(5, 3, 0)` (no eclipse), a target whose previous shadow
direction was `(0, 0, 0)` ends with direction `(0, 0, 0)` and a target that differs only in its
previous shadow state ends with the stale direction `(-1, 0, 0)`. -/
theorem C17_counterexample :
    (checkForEclipse ⟨Real.sqrt, Real.sin⟩ (eclipseStar ℝ) (eclipseTarget ℝ)
        (eclipseOccluder ℝ 5 3 0.5)).shadowDirection = ⟨0, 0, 0⟩ ∧
    (checkForEclipse ⟨Real.sqrt, Real.sin⟩ (eclipseStar ℝ) (eclipseTargetShadowed ℝ)
        (eclipseOccluder ℝ 5 3 0.5)).shadowDirection = ⟨-1, 0, 0⟩ ∧
    (checkForEclipse ⟨Real.sqrt, Real.sin⟩ (eclipseStar ℝ) (eclipseTarget ℝ)
        (eclipseOccluder ℝ 5 3 0.5)).shadowDirection
      ≠ (checkForEclipse ⟨Real.sqrt, Real.sin⟩ (eclipseStar ℝ) (eclipseTargetShadowed ℝ)
        (eclipseOccluder ℝ 5 3 0.5)).shadowDirection := by
  have hs := exactSqrt_real Real.sin
  obtain ⟨-, -, hq⟩ := eclipse_aligned_values ⟨Real.sqrt, Real.sin⟩ hs (eclipseStar ℝ)
    (eclipseTarget ℝ) (eclipseOccluder ℝ 5 3 0.5) 5 3 (by norm_num) rfl rfl rfl
  have ha : eclipseAlignment ⟨Real.sqrt, Real.sin⟩ (eclipseStar ℝ) (eclipseTarget ℝ)
      (eclipseOccluder ℝ 5 3 0.5) = 0 := by
    unfold eclipseAlignment clamp
    rw [hq]
    show (1 : ℝ) - min (max (3 / (2 * 0.5)) 0) 1 = 0
    norm_num
  have hsh : ¬ (checkForEclipse ⟨Real.sqrt, Real.sin⟩ (eclipseStar ℝ) (eclipseTarget ℝ)
      (eclipseOccluder ℝ 5 3 0.5)).isInShadow = true := by
    rw [checkForEclipse_isInShadow, ha]
    norm_num
  have hsh2 : ¬ (checkForEclipse ⟨Real.sqrt, Real.sin⟩ (eclipseStar ℝ)
      (eclipseTargetShadowed ℝ) (eclipseOccluder ℝ 5 3 0.5)).isInShadow = true := by
    rw [checkForEclipse_isInShadow_congr ⟨Real.sqrt, Real.sin⟩ (eclipseStar ℝ) (eclipseTarget ℝ)
      (eclipseTargetShadowed ℝ) (eclipseOccluder ℝ 5 3 0.5) rfl]
    exact hsh
  have h1 : (checkForEclipse ⟨Real.sqrt, Real.sin⟩ (eclipseStar ℝ) (eclipseTarget ℝ)
      (eclipseOccluder ℝ 5 3 0.5)).shadowDirection = ⟨0, 0, 0⟩ := by
    rw [checkForEclipse_shadowDirection, if_neg hsh]; rfl
  have h2 : (checkForEclipse ⟨Real.sqrt, Real.sin⟩ (eclipseStar ℝ) (eclipseTargetShadowed ℝ)
      (eclipseOccluder ℝ 5 3 0.5)).shadowDirection = ⟨-1, 0, 0⟩ := by
    rw [checkForEclipse_shadowDirection, if_neg hsh2]; rfl
  refine ⟨h1, h2, ?_⟩
  rw [h1, h2]
  intro h
  have := congrArg Vec3.x h
  norm_num at this

/-- Claim C17, amended. For two targets that differ only in their previous shadow state,
`checkForEclipse` produces the same flag `isInShadow` and the same `shadowIntensity`; the
resulting `shadowDirection` is the freshly computed one when the target ends in shadow, and is
the previous direction, unchanged, when it does not. -/
theorem C17_eclipse_shadow_state (ops : FloatOps F) (sun earth moon : CelestialBody F)
    (flag : Bool) (intensity : F) (direction : Vec3 F) :
    (checkForEclipse ops sun
        { earth with isInShadow := flag, shadowIntensity := intensity,
                     shadowDirection := direction } moon).isInShadow
      = (checkForEclipse ops sun earth moon).isInShadow ∧
    (checkForEclipse ops sun
        { earth with isInShadow := flag, shadowIntensity := intensity,
                     shadowDirection := direction } moon).shadowIntensity
      = (checkForEclipse ops sun earth moon).shadowIntensity ∧
    (checkForEclipse ops sun
        { earth with isInShadow := flag, shadowIntensity := intensity,
                     shadowDirection := direction } moon).shadowDirection
      = (if (checkForEclipse ops sun earth moon).isInShadow = true then
          (checkForEclipse ops sun earth moon).shadowDirection
        else direction) := by
  refine ⟨checkForEclipse_isInShadow_congr ops sun earth _ moon rfl,
    checkForEclipse_shadowIntensity_congr ops sun earth _ moon rfl, ?_⟩
  have hc := checkForEclipse_isInShadow_congr ops sun earth
    { earth with isInShadow := flag, shadowIntensity := intensity,
                 shadowDirection := direction } moon rfl
  have h2 := checkForEclipse_shadowDirection ops sun
    { earth with isInShadow := flag, shadowIntensity := intensity,
                 shadowDirection := direction } moon
  rw [hc] at h2
  rw [h2]
  by_cases h : (checkForEclipse ops sun earth moon).isInShadow = true
  · rw [if_pos h, if_pos h, checkForEclipse_shadowDirection, if_pos h]
  · rw [if_neg h, if_neg h]

/-- Claim C18. For bodies `a` and `b`, neither named "Sun", whose relative velocity has a
strictly positive component along `normalize(posA - posB)`, `resolveCollision` returns both
bodies with every field unchanged, and leaves the function statics unchanged. -/
theorem C18_separating_pair_untouched (ops : FloatOps F) (st : CollisionStatics F) (t : F)
    (a b : CelestialBody F) (ha : a.name ≠ "Sun") (hb : b.name ≠ "Sun")
    (hv : Vec3.dot (a.velocity - b.velocity) (normalize ops (a.position - b.position)) > 0) :
    (resolveCollision ops st t a b).2.1 = a ∧ (resolveCollision ops st t a b).2.2 = b ∧
      (resolveCollision ops st t a b).1 = st := by
  rw [resolveCollision_separating ops st t a b ha hb hv]
  exact ⟨rfl, rfl, rfl⟩

/-- Witness of C18: body `a` at `(1, 0, 0)` moving away from body `b` at the origin. -/
theorem C18_witness :
    (collidingA ℝ 1).name ≠ "Sun" ∧ (collidingB ℝ 1).name ≠ "Sun" ∧
    Vec3.dot ((collidingA ℝ 1).velocity - (collidingB ℝ 1).velocity)
      (normalize ⟨Real.sqrt, Real.sin⟩
        ((collidingA ℝ 1).position - (collidingB ℝ 1).position)) > 0 ∧
    (resolveCollision ⟨Real.sqrt, Real.sin⟩ ⟨0, 0, 0⟩ 5 (collidingA ℝ 1) (collidingB ℝ 1)).2.1
      = collidingA ℝ 1 ∧
    (resolveCollision ⟨Real.sqrt, Real.sin⟩ ⟨0, 0, 0⟩ 5 (collidingA ℝ 1) (collidingB ℝ 1)).2.2
      = collidingB ℝ 1 ∧
    (resolveCollision ⟨Real.sqrt, Real.sin⟩ ⟨0, 0, 0⟩ 5 (collidingA ℝ 1) (collidingB ℝ 1)).1
      = ⟨0, 0, 0⟩ := by
  have hv : Vec3.dot ((collidingA ℝ 1).velocity - (collidingB ℝ 1).velocity)
      (normalize ⟨Real.sqrt, Real.sin⟩
        ((collidingA ℝ 1).position - (collidingB ℝ 1).position)) > 0 := by
    rw [(colliding_values 1 1).1, (colliding_values 1 1).2.1,
      (exactSqrt_real Real.sin).normalize_x_axis 1 (by norm_num)]
    simp [Vec3.dot]
  exact ⟨by decide, by decide, hv,
    C18_separating_pair_untouched ⟨Real.sqrt, Real.sin⟩ ⟨0, 0, 0⟩ 5 (collidingA ℝ 1)
      (collidingB ℝ 1) (by decide) (by decide) hv⟩

/-- Claim C19. For a body `s` named "Sun" and a body `p` at a distinct position for which
`checkCollision` holds (exact square root), after `resolveCollision`, in either argument
order, no field of `s` is changed and the offset of `p` from the centre of `s` is a positive
multiple of its previous offset, of length exactly `s.radius + p.radius + 2`. In the order
`(p, s)` the body `p` is not named "Sun" itself. -/
theorem C19_star_collision_pushes_out (ops : FloatOps F) (hs : ops.ExactSqrt)
    (st : CollisionStatics F) (t : F) (s p : CelestialBody F)
    (hsn : s.name = "Sun") (hpos : p.position ≠ s.position)
    (hc : checkCollision ops s p = true) :
    ((resolveCollision ops st t s p).2.1 = s ∧
      (resolveCollision ops st t s p).2.2.position - s.position
        = (p.position - s.position).scale
            ((s.radius + p.radius + 2) / length ops (p.position - s.position)) ∧
      length ops ((resolveCollision ops st t s p).2.2.position - s.position)
        = s.radius + p.radius + 2) ∧
    (p.name ≠ "Sun" →
      (resolveCollision ops st t p s).2.2 = s ∧
      (resolveCollision ops st t p s).2.1.position - s.position
        = (p.position - s.position).scale
            ((s.radius + p.radius + 2) / length ops (p.position - s.position)) ∧
      length ops ((resolveCollision ops st t p s).2.1.position - s.position)
        = s.radius + p.radius + 2) ∧
    0 < (s.radius + p.radius + 2) / length ops (p.position - s.position) := by
  have hd := hs.length_pos p.position s.position hpos
  have hlt : length ops (p.position - s.position) < s.radius + p.radius - 0.1 := by
    have := hc
    simp only [checkCollision, decide_eq_true_eq] at this
    rw [length_sub_comm] at this
    exact this
  have hk : 0 < s.radius + p.radius + 2 := by
    have : (0 : F) < 0.1 := by norm_num
    linarith
  have hpen : s.radius + p.radius + 2 - length ops (p.position - s.position) > 0 := by
    have : (0 : F) < 0.1 := by norm_num
    linarith
  obtain ⟨hray, hlen⟩ := pushed_out_on_ray ops hs s.position p.position
    (s.radius + p.radius + 2) (le_of_lt hk) hpos
  have hpp := resolveSunCollision_position ops st t s p hpen
  have h1 := resolveCollision_of_sun_left ops st t s p hsn
  refine ⟨⟨?_, ?_, ?_⟩, ?_, div_pos hk hd⟩
  · rw [h1]
  · rw [h1]; show (resolveSunCollision ops st t s p).2.position - s.position = _
    rw [hpp]; exact hray
  · rw [h1]; show length ops ((resolveSunCollision ops st t s p).2.position - s.position) = _
    rw [hpp]; exact hlen
  · intro hpn
    have h2 := resolveCollision_of_sun_right ops st t p s hpn hsn
    refine ⟨?_, ?_, ?_⟩
    · rw [h2]
    · rw [h2]; show (resolveSunCollision ops st t s p).2.position - s.position = _
      rw [hpp]; exact hray
    · rw [h2]; show length ops ((resolveSunCollision ops st t s p).2.position - s.position) = _
      rw [hpp]; exact hlen

/-- Witness of C19: the Sun of radius 3 at the origin and a body of radius 1 at `(1, 0, 0)`;
the body ends at distance `3 + 1 + 2 = 6` from the centre of the Sun, in both argument orders. -/
theorem C19_witness :
    (FloatOps.mk Real.sqrt Real.sin).ExactSqrt ∧ (eclipseStar ℝ).name = "Sun" ∧
    (collidingA ℝ (-1)).name ≠ "Sun" ∧
    (collidingA ℝ (-1)).position ≠ (eclipseStar ℝ).position ∧
    checkCollision ⟨Real.sqrt, Real.sin⟩ (eclipseStar ℝ) (collidingA ℝ (-1)) = true ∧
    (resolveCollision ⟨Real.sqrt, Real.sin⟩ ⟨0, 0, 0⟩ 5 (eclipseStar ℝ)
        (collidingA ℝ (-1))).2.1 = eclipseStar ℝ ∧
    length ⟨Real.sqrt, Real.sin⟩
        ((resolveCollision ⟨Real.sqrt, Real.sin⟩ ⟨0, 0, 0⟩ 5 (eclipseStar ℝ)
          (collidingA ℝ (-1))).2.2.position - (eclipseStar ℝ).position)
      = (eclipseStar ℝ).radius + (collidingA ℝ (-1)).radius + 2 ∧
    length ⟨Real.sqrt, Real.sin⟩
        ((resolveCollision ⟨Real.sqrt, Real.sin⟩ ⟨0, 0, 0⟩ 5 (collidingA ℝ (-1))
          (eclipseStar ℝ)).2.1.position - (eclipseStar ℝ).position)
      = (eclipseStar ℝ).radius + (collidingA ℝ (-1)).radius + 2 := by
  have hs := exactSqrt_real Real.sin
  have hpos : (collidingA ℝ (-1)).position ≠ (eclipseStar ℝ).position := by
    intro h
    have := congrArg Vec3.x h
    simp [collidingA, eclipseStar, testBody, CelestialBody.new] at this
  have e : (collidingA ℝ (-1)).position - (eclipseStar ℝ).position = ⟨1, 0, 0⟩ := by
    simp [collidingA, eclipseStar, testBody, CelestialBody.new, Vec3.sub_def]
  have hc : checkCollision ⟨Real.sqrt, Real.sin⟩ (eclipseStar ℝ) (collidingA ℝ (-1))
      = true := by
    simp only [checkCollision, decide_eq_true_eq]
    rw [length_sub_comm, e, hs.length_x_axis 1 (by norm_num)]
    show (1 : ℝ) < 3 + 1 - 0.1
    norm_num
  have hm := C19_star_collision_pushes_out ⟨Real.sqrt, Real.sin⟩ hs ⟨0, 0, 0⟩ 5
    (eclipseStar ℝ) (collidingA ℝ (-1)) rfl hpos hc
  exact ⟨hs, rfl, by decide, hpos, hc, hm.1.1, hm.1.2.2, (hm.2.1 (by decide)).2.2⟩

/-- Counterexample to C20 as stated. In the scene of a Sun of mass 10000 at the origin and a
body of mass 2 at `(10, 0, 0)` (distance `10 ≥ 0.01`), the acceleration accumulated on the Sun
by `updatePhysics` is `(0.0002, 0, 0)`, not the zero vector. -/
theorem C20_counterexample :
    (gravityStar ℝ).name = "Sun" ∧
    0.01 ≤ length ⟨Real.sqrt, Real.sin⟩ ((farPlanetB ℝ).position - (gravityStar ℝ).position) ∧
    ((updatePhysics ⟨Real.sqrt, Real.sin⟩ (fun _ _ => 5) ⟨0, 0, 0⟩
        [gravityStar ℝ, farPlanetB ℝ] 0.25).2[0]?).map CelestialBody.acceleration
      = some (⟨0.0002, 0, 0⟩ : Vec3 ℝ) ∧
    ((updatePhysics ⟨Real.sqrt, Real.sin⟩ (fun _ _ => 5) ⟨0, 0, 0⟩
        [gravityStar ℝ, farPlanetB ℝ] 0.25).2[0]?).map CelestialBody.acceleration
      ≠ some (⟨0, 0, 0⟩ : Vec3 ℝ) := by
  have hs := exactSqrt_real Real.sin
  have e : (farPlanetB ℝ).position - (gravityStar ℝ).position = ⟨10, 0, 0⟩ := by
    simp [farPlanetB, gravityStar, testBody, CelestialBody.new, Vec3.sub_def]
  have hl : length ⟨Real.sqrt, Real.sin⟩ ((farPlanetB ℝ).position - (gravityStar ℝ).position)
      = 10 := by
    rw [e]; exact hs.length_x_axis 10 (by norm_num)
  have hn : normalize ⟨Real.sqrt, Real.sin⟩
      ((farPlanetB ℝ).position - (gravityStar ℝ).position) = ⟨1, 0, 0⟩ := by
    rw [e]; exact hs.normalize_x_axis 10 (by norm_num)
  have hd : 0.01 ≤ length ⟨Real.sqrt, Real.sin⟩
      ((farPlanetB ℝ).position - (gravityStar ℝ).position) := by
    rw [hl]; norm_num
  have h := (updatePhysics_star_acceleration ⟨Real.sqrt, Real.sin⟩ (fun _ _ => 5) ⟨0, 0, 0⟩
    0.25 (gravityStar ℝ) (farPlanetB ℝ) rfl (by show (10000 : ℝ) ≠ 0; norm_num) hd).1
  rw [hl, hn] at h
  have hv : (⟨1, 0, 0⟩ : Vec3 ℝ).scale (0.01 * (farPlanetB ℝ).mass / 10 ^ 2)
      = ⟨0.0002, 0, 0⟩ := by
    show (⟨1, 0, 0⟩ : Vec3 ℝ).scale (0.01 * 2 / 10 ^ 2) = ⟨0.0002, 0, 0⟩
    simp only [Vec3.scale, Vec3.mk.injEq]
    norm_num
  rw [hv] at h
  refine ⟨rfl, hd, h, ?_⟩
  rw [h]
  intro hc
  have := congrArg Vec3.x (Option.some.inj hc)
  norm_num at this

/-- Claim C20, amended. In every scene, for a body of positive mass named "Sun" at index `s`,
the acceleration accumulated on it by `updatePhysics` is `starAcceleration`: the sum, over the
other bodies at distance `d ≥ 0.01` (a Moon within the capture distance of the Earth excepted),
of `0.01 * m / d ^ 2` toward that body, `m` being its mass. The Sun is accelerated once by each
other body, in the visit of the pair in which the Sun is the first body. -/
theorem C20_star_accelerated_once (ops : FloatOps F) (clock : Nat → Nat → F)
    (st : CollisionStatics F) (bodies : List (CelestialBody F)) (dt : F) (s : Nat)
    (S : CelestialBody F) (hS : bodies[s]? = some S) (hn : S.name = "Sun")
    (hm : 0 < S.mass) :
    ((updatePhysics ops clock st bodies dt).2[s]?).map CelestialBody.acceleration
      = some (starAcceleration ops (findNamed (resetBodies bodies) 0 ⟨none, none, none⟩).earth
          bodies s S) :=
  updatePhysics_star ops clock st bodies dt s S hS hn (ne_of_gt hm)

/-- Witness of C20: a body of mass 2 at `(10, 0, 0)` followed by a Sun of mass 10000 at the
origin; the Sun receives the acceleration `(0.0002, 0, 0)`. -/
theorem C20_witness :
    [farPlanetB ℝ, gravityStar ℝ][1]? = some (gravityStar ℝ) ∧
    (gravityStar ℝ).name = "Sun" ∧ 0 < (gravityStar ℝ).mass ∧
    ((updatePhysics ⟨Real.sqrt, Real.sin⟩ (fun _ _ => 5) ⟨0, 0, 0⟩
        [farPlanetB ℝ, gravityStar ℝ] 0.25).2[1]?).map CelestialBody.acceleration
      = some (starAcceleration ⟨Real.sqrt, Real.sin⟩
          (findNamed (resetBodies [farPlanetB ℝ, gravityStar ℝ]) 0 ⟨none, none, none⟩).earth
          [farPlanetB ℝ, gravityStar ℝ] 1 (gravityStar ℝ)) ∧
    starAcceleration ⟨Real.sqrt, Real.sin⟩
        (findNamed (resetBodies [farPlanetB ℝ, gravityStar ℝ]) 0 ⟨none, none, none⟩).earth
        [farPlanetB ℝ, gravityStar ℝ] 1 (gravityStar ℝ) = ⟨0.0002, 0, 0⟩ := by
  have hs := exactSqrt_real Real.sin
  have e : (farPlanetB ℝ).position - (gravityStar ℝ).position = ⟨10, 0, 0⟩ := by
    simp [farPlanetB, gravityStar, testBody, CelestialBody.new, Vec3.sub_def]
  have hl : length ⟨Real.sqrt, Real.sin⟩ ((farPlanetB ℝ).position - (gravityStar ℝ).position)
      = 10 := by
    rw [e]; exact hs.length_x_axis 10 (by norm_num)
  have hnm : normalize ⟨Real.sqrt, Real.sin⟩
      ((farPlanetB ℝ).position - (gravityStar ℝ).position) = ⟨1, 0, 0⟩ := by
    rw [e]; exact hs.normalize_x_axis 10 (by norm_num)
  have hm : 0 < (gravityStar ℝ).mass := by
    show (0 : ℝ) < 10000
    norm_num
  have hB : ¬ ((farPlanetB ℝ).name = "Moon" ∧ withinMoonEscape ⟨Real.sqrt, Real.sin⟩
      (findNamed (resetBodies [farPlanetB ℝ, gravityStar ℝ]) 0 ⟨none, none, none⟩).earth
      [farPlanetB ℝ, gravityStar ℝ] (farPlanetB ℝ) = true) := by
    rintro ⟨h, -⟩
    exact absurd h (by decide)
  refine ⟨rfl, rfl, hm,
    C20_star_accelerated_once ⟨Real.sqrt, Real.sin⟩ (fun _ _ => 5) ⟨0, 0, 0⟩
      [farPlanetB ℝ, gravityStar ℝ] 0.25 1 (gravityStar ℝ) rfl rfl hm, ?_⟩
  have hfold : starAcceleration ⟨Real.sqrt, Real.sin⟩
      (findNamed (resetBodies [farPlanetB ℝ, gravityStar ℝ]) 0 ⟨none, none, none⟩).earth
      [farPlanetB ℝ, gravityStar ℝ] 1 (gravityStar ℝ)
      = starPull ⟨Real.sqrt, Real.sin⟩
          (findNamed (resetBodies [farPlanetB ℝ, gravityStar ℝ]) 0 ⟨none, none, none⟩).earth
          [farPlanetB ℝ, gravityStar ℝ] (gravityStar ℝ) (Vec3.splat 0) (farPlanetB ℝ) := by
    simp [starAcceleration, List.range_succ]
  rw [hfold]
  unfold starPull
  rw [if_neg hB, hl, hnm, if_neg (by norm_num)]
  show Vec3.splat 0 + (⟨1, 0, 0⟩ : Vec3 ℝ).scale (0.01 * 2 / 10 ^ 2) = ⟨0.0002, 0, 0⟩
  simp only [Vec3.add_def, Vec3.splat, Vec3.scale, Vec3.mk.injEq]
  norm_num

/-- Claim C22. In a scene of three bodies named "Sun", "Earth" and "Moon" (any order) in which
the Moon-Earth distance `d` satisfies `0.01 < d ≤ 5` and the Moon-to-Earth vector is not
parallel to world-up, the acceleration of the Moon after the gravity pass is
`1 * (d - 2) * u + 1.5 * (1 - vt) * t`, with `u` the unit vector from Moon to Earth,
`t = normalize(cross(earth - moon, (0, 1, 0)))` and `vt` the component along `t` of the velocity
of the Moon relative to the Earth; the gravity loop adds nothing to the Moon. -/
theorem C22_captured_moon (ops : FloatOps F) (bodies : List (CelestialBody F))
    (s e m : Nat) (S E M : CelestialBody F) (hlen : bodies.length = 3)
    (hS : bodies[s]? = some S) (hE : bodies[e]? = some E) (hM : bodies[m]? = some M)
    (hSn : S.name = "Sun") (hEn : E.name = "Earth") (hMn : M.name = "Moon")
    (hd0 : 0.01 < length ops (E.position - M.position))
    (hd5 : length ops (E.position - M.position) ≤ 5)
    (_hup : Vec3.cross (E.position - M.position) ⟨0, 1, 0⟩ ≠ ⟨0, 0, 0⟩) :
    ((gravityPass ops bodies)[m]?).map CelestialBody.acceleration
      = some ((normalize ops (E.position - M.position)).scale
            (1 * (length ops (E.position - M.position) - 2))
          + (normalize ops (Vec3.cross (E.position - M.position) ⟨0, 1, 0⟩)).scale
            (1.5 * (1 - Vec3.dot (M.velocity - E.velocity)
              (normalize ops (Vec3.cross (E.position - M.position) ⟨0, 1, 0⟩))))) :=
  gravityPass_captured_moon ops bodies s e m S E M hlen hS hE hM hSn hEn hMn hd0 hd5

/-- Witness of C22: the Sun at the origin, the Earth at `(25, 0, 0)` with velocity `(0, 0, 2)`
and a Moon at rest at `(28, 0, 0)`, 3 away from the Earth. The Moon receives the acceleration
`(-1, 0, 1.5)`: `1 * (3 - 2)` toward the Earth and `1.5 * (1 - 2)` along the tangent
`(0, 0, -1)`. -/
theorem C22_witness :
    [eclipseStar ℝ, captureEarth ℝ, eclipseOccluder ℝ 28 0 0.3].length = 3 ∧
    (eclipseStar ℝ).name = "Sun" ∧ (captureEarth ℝ).name = "Earth" ∧
    (eclipseOccluder ℝ 28 0 0.3).name = "Moon" ∧
    length ⟨Real.sqrt, Real.sin⟩
      ((captureEarth ℝ).position - (eclipseOccluder ℝ 28 0 0.3).position) = 3 ∧
    Vec3.cross ((captureEarth ℝ).position - (eclipseOccluder ℝ 28 0 0.3).position) ⟨0, 1, 0⟩
      ≠ ⟨0, 0, 0⟩ ∧
    ((gravityPass ⟨Real.sqrt, Real.sin⟩
        [eclipseStar ℝ, captureEarth ℝ, eclipseOccluder ℝ 28 0 0.3])[2]?).map
        CelestialBody.acceleration = some (⟨-1, 0, 1.5⟩ : Vec3 ℝ) := by
  have hs := exactSqrt_real Real.sin
  have e : (captureEarth ℝ).position - (eclipseOccluder ℝ 28 0 0.3).position = ⟨-3, 0, 0⟩ := by
    simp only [captureEarth, eclipseOccluder, testBody, CelestialBody.new, Vec3.sub_def,
      Vec3.mk.injEq]
    refine ⟨?_, ?_, ?_⟩ <;> norm_num
  have ev : (eclipseOccluder ℝ 28 0 0.3).velocity - (captureEarth ℝ).velocity = ⟨0, 0, -2⟩ := by
    simp only [captureEarth, eclipseOccluder, testBody, CelestialBody.new, Vec3.sub_def,
      Vec3.mk.injEq]
    refine ⟨?_, ?_, ?_⟩ <;> norm_num
  have hl : length ⟨Real.sqrt, Real.sin⟩ (⟨-3, 0, 0⟩ : Vec3 ℝ) = 3 :=
    hs.length_of_dot _ 3 (by norm_num) (by simp only [Vec3.dot]; norm_num)
  have hn : normalize ⟨Real.sqrt, Real.sin⟩ (⟨-3, 0, 0⟩ : Vec3 ℝ) = ⟨-1, 0, 0⟩ := by
    rw [normalize_eq_scale, hl]
    simp only [Vec3.scale, Vec3.mk.injEq]
    refine ⟨?_, ?_, ?_⟩ <;> norm_num
  have hc : Vec3.cross (⟨-3, 0, 0⟩ : Vec3 ℝ) ⟨0, 1, 0⟩ = ⟨0, 0, -3⟩ := by
    simp only [Vec3.cross, Vec3.mk.injEq]
    refine ⟨?_, ?_, ?_⟩ <;> norm_num
  have hl2 : length ⟨Real.sqrt, Real.sin⟩ (⟨0, 0, -3⟩ : Vec3 ℝ) = 3 :=
    hs.length_of_dot _ 3 (by norm_num) (by simp only [Vec3.dot]; norm_num)
  have hn2 : normalize ⟨Real.sqrt, Real.sin⟩ (⟨0, 0, -3⟩ : Vec3 ℝ) = ⟨0, 0, -1⟩ := by
    rw [normalize_eq_scale, hl2]
    simp only [Vec3.scale, Vec3.mk.injEq]
    refine ⟨?_, ?_, ?_⟩ <;> norm_num
  have hup : Vec3.cross ((captureEarth ℝ).position - (eclipseOccluder ℝ 28 0 0.3).position)
      ⟨0, 1, 0⟩ ≠ ⟨0, 0, 0⟩ := by
    rw [e, hc]
    intro h
    have := congrArg Vec3.z h
    norm_num at this
  have h := C22_captured_moon ⟨Real.sqrt, Real.sin⟩
    [eclipseStar ℝ, captureEarth ℝ, eclipseOccluder ℝ 28 0 0.3] 0 1 2
    (eclipseStar ℝ) (captureEarth ℝ) (eclipseOccluder ℝ 28 0 0.3) rfl rfl rfl rfl rfl rfl rfl
    (by rw [e, hl]; norm_num) (by rw [e, hl]; norm_num) hup
  rw [e, ev, hl, hn, hc, hn2] at h
  refine ⟨rfl, rfl, rfl, rfl, by rw [e, hl], hup, ?_⟩
  rw [h]
  simp only [Vec3.add_def, Vec3.scale, Vec3.dot, Option.some.injEq, Vec3.mk.injEq]
  refine ⟨?_, ?_, ?_⟩ <;> norm_num

/-- Claim C23. For two bodies `a` and `b` whose centres are less than 0.01 apart, the visit of
the pair by the gravity loop changes nothing in any scene, in either order, and in the two-body
scene the gravity pass leaves both accelerations at zero. -/
theorem C23_coincident_pair_skipped (ops : FloatOps F) (a b : CelestialBody F)
    (hd : length ops (b.position - a.position) < 0.01) :
    (∀ (earth : Option Nat) (bodies : List (CelestialBody F)) (i j : Nat),
      bodies[i]? = some a → bodies[j]? = some b →
      gravityPair ops earth bodies i j = bodies ∧ gravityPair ops earth bodies j i = bodies) ∧
    gravityPass ops [a, b] = [resetBody a, resetBody b] ∧
    (gravityPass ops [a, b]).map CelestialBody.acceleration = [Vec3.splat 0, Vec3.splat 0] := by
  have hd1 : length ops (a.position - b.position) < 0.01 := by
    rw [length_sub_comm]; exact hd
  have hG : gravityPass ops [a, b] = [resetBody a, resetBody b] := by
    unfold gravityPass
    simp only [resetBodies, List.map]
    rw [moonOverride_coincident ops a b hd, gravityLoop_pair]
    rw [gravityPair_coincident ops _ _ 0 1 (resetBody a) (resetBody b) rfl rfl hd]
    rw [gravityPair_coincident ops _ _ 1 0 (resetBody b) (resetBody a) rfl rfl hd1]
  refine ⟨fun earth bodies i j hi hj =>
    ⟨gravityPair_coincident ops earth bodies i j a b hi hj hd,
      gravityPair_coincident ops earth bodies j i b a hj hi hd1⟩, hG, ?_⟩
  rw [hG]
  rfl

/-- Witness of C23: two bodies with the same centre. -/
theorem C23_witness :
    length ⟨Real.sqrt, Real.sin⟩ ((collidingB ℝ 1).position - (farPlanetA ℝ).position) < 0.01 ∧
    gravityPass ⟨Real.sqrt, Real.sin⟩ [farPlanetA ℝ, collidingB ℝ 1]
      = [resetBody (farPlanetA ℝ), resetBody (collidingB ℝ 1)] := by
  have hd : length ⟨Real.sqrt, Real.sin⟩
      ((collidingB ℝ 1).position - (farPlanetA ℝ).position) < 0.01 := by
    have e : (collidingB ℝ 1).position - (farPlanetA ℝ).position = ⟨0, 0, 0⟩ := by
      simp [collidingB, farPlanetA, testBody, CelestialBody.new, Vec3.sub_def]
    rw [e, (exactSqrt_real Real.sin).length_x_axis 0 (le_refl _)]
    norm_num
  exact ⟨hd, (C23_coincident_pair_skipped ⟨Real.sqrt, Real.sin⟩ (farPlanetA ℝ)
    (collidingB ℝ 1) hd).2.1⟩

/-- Counterexample to C24 as stated. A body at `(1, 0, 0)` that moves away from the Sun (at the
origin, radius 3) with velocity `(20, 0, 0)` collides with it; `resolveCollision` leaves the
velocity `(20, 0, 0)`, of length 20, which is not at most 10. And a body at `(0, 1, 0)`,
straight above the Sun, that falls toward it with velocity `(0, -20, 0)` collides with it: the
normal `(0, 1, 0)` is parallel to world-up, the tangent is `glm::normalize` of the zero vector,
and the velocity the star branch leaves is NaN, which is not of length at most 10 either. -/
theorem C24_counterexample :
    (eclipseStar ℝ).name = "Sun" ∧ (collidingA ℝ 20).position ≠ (eclipseStar ℝ).position ∧
    checkCollision ⟨Real.sqrt, Real.sin⟩ (eclipseStar ℝ) (collidingA ℝ 20) = true ∧
    (resolveCollision ⟨Real.sqrt, Real.sin⟩ ⟨0, 0, 0⟩ 5 (eclipseStar ℝ)
      (collidingA ℝ 20)).2.2.velocity = ⟨20, 0, 0⟩ ∧
    sunCollisionVelocityChecked ⟨Real.sqrt, Real.sin⟩ (eclipseStar ℝ) (collidingA ℝ 20)
      = some ⟨20, 0, 0⟩ ∧
    length ⟨Real.sqrt, Real.sin⟩ (resolveCollision ⟨Real.sqrt, Real.sin⟩ ⟨0, 0, 0⟩ 5
      (eclipseStar ℝ) (collidingA ℝ 20)).2.2.velocity = 20 ∧
    ¬ length ⟨Real.sqrt, Real.sin⟩ (resolveCollision ⟨Real.sqrt, Real.sin⟩ ⟨0, 0, 0⟩ 5
      (eclipseStar ℝ) (collidingA ℝ 20)).2.2.velocity ≤ 10 ∧
    (fallingBody ℝ).position ≠ (eclipseStar ℝ).position ∧
    checkCollision ⟨Real.sqrt, Real.sin⟩ (eclipseStar ℝ) (fallingBody ℝ) = true ∧
    normalize ⟨Real.sqrt, Real.sin⟩ ((fallingBody ℝ).position - (eclipseStar ℝ).position)
      = ⟨0, 1, 0⟩ ∧
    Vec3.dot ((fallingBody ℝ).velocity - (eclipseStar ℝ).velocity)
      (normalize ⟨Real.sqrt, Real.sin⟩
        ((fallingBody ℝ).position - (eclipseStar ℝ).position)) < 0 ∧
    sunCollisionVelocityChecked ⟨Real.sqrt, Real.sin⟩ (eclipseStar ℝ) (fallingBody ℝ)
      = none := by
  have hs := exactSqrt_real Real.sin
  have hpos : (collidingA ℝ 20).position ≠ (eclipseStar ℝ).position := by
    intro h
    have := congrArg Vec3.x h
    simp [collidingA, eclipseStar, testBody, CelestialBody.new] at this
  have e : (collidingA ℝ 20).position - (eclipseStar ℝ).position = ⟨1, 0, 0⟩ := by
    simp [collidingA, eclipseStar, testBody, CelestialBody.new, Vec3.sub_def]
  have ev : (collidingA ℝ 20).velocity - (eclipseStar ℝ).velocity = ⟨20, 0, 0⟩ := by
    simp [collidingA, eclipseStar, testBody, CelestialBody.new, Vec3.sub_def]
  have hc : checkCollision ⟨Real.sqrt, Real.sin⟩ (eclipseStar ℝ) (collidingA ℝ 20)
      = true := by
    simp only [checkCollision, decide_eq_true_eq]
    rw [length_sub_comm, e, hs.length_x_axis 1 (by norm_num)]
    show (1 : ℝ) < 3 + 1 - 0.1
    norm_num
  have hrec : ¬ Vec3.dot ((collidingA ℝ 20).velocity - (eclipseStar ℝ).velocity)
      (normalize ⟨Real.sqrt, Real.sin⟩
        ((collidingA ℝ 20).position - (eclipseStar ℝ).position)) < 0 := by
    rw [e, ev, hs.normalize_x_axis 1 (by norm_num)]
    simp [Vec3.dot]
  have hv : (resolveCollision ⟨Real.sqrt, Real.sin⟩ ⟨0, 0, 0⟩ 5 (eclipseStar ℝ)
      (collidingA ℝ 20)).2.2.velocity = ⟨20, 0, 0⟩ := by
    rw [resolveCollision_of_sun_left _ _ _ _ _ rfl]
    exact resolveSunCollision_velocity_of_receding ⟨Real.sqrt, Real.sin⟩ ⟨0, 0, 0⟩ 5
      (eclipseStar ℝ) (collidingA ℝ 20) hrec
  have hck : sunCollisionVelocityChecked ⟨Real.sqrt, Real.sin⟩ (eclipseStar ℝ)
      (collidingA ℝ 20) = some ⟨20, 0, 0⟩ := by
    rw [sunCollisionVelocityChecked_eq ⟨Real.sqrt, Real.sin⟩ ⟨0, 0, 0⟩ 5 (eclipseStar ℝ)
      (collidingA ℝ 20) hpos (fun h => absurd h hrec),
      resolveSunCollision_velocity_of_receding _ _ _ _ _ hrec]
    rfl
  have hposF : (fallingBody ℝ).position ≠ (eclipseStar ℝ).position := by
    intro h
    have := congrArg Vec3.y h
    simp [fallingBody, eclipseStar, testBody, CelestialBody.new] at this
  have eF : (fallingBody ℝ).position - (eclipseStar ℝ).position = ⟨0, 1, 0⟩ := by
    simp [fallingBody, eclipseStar, testBody, CelestialBody.new, Vec3.sub_def]
  have evF : (fallingBody ℝ).velocity - (eclipseStar ℝ).velocity = ⟨0, -20, 0⟩ := by
    simp [fallingBody, eclipseStar, testBody, CelestialBody.new, Vec3.sub_def]
  have hlF : length ⟨Real.sqrt, Real.sin⟩ (⟨0, 1, 0⟩ : Vec3 ℝ) = 1 :=
    hs.length_of_dot _ 1 (by norm_num) (by simp [Vec3.dot])
  have hnF : normalize ⟨Real.sqrt, Real.sin⟩ (⟨0, 1, 0⟩ : Vec3 ℝ) = ⟨0, 1, 0⟩ := by
    rw [normalize_eq_scale, hlF]
    simp [Vec3.scale]
  have hcF : checkCollision ⟨Real.sqrt, Real.sin⟩ (eclipseStar ℝ) (fallingBody ℝ)
      = true := by
    simp only [checkCollision, decide_eq_true_eq]
    rw [length_sub_comm, eF, hlF]
    show (1 : ℝ) < 3 + 1 - 0.1
    norm_num
  have happ : Vec3.dot ((fallingBody ℝ).velocity - (eclipseStar ℝ).velocity)
      (normalize ⟨Real.sqrt, Real.sin⟩
        ((fallingBody ℝ).position - (eclipseStar ℝ).position)) < 0 := by
    rw [eF, evF, hnF]
    simp [Vec3.dot]
  have hnan : sunCollisionVelocityChecked ⟨Real.sqrt, Real.sin⟩ (eclipseStar ℝ)
      (fallingBody ℝ) = none := by
    unfold sunCollisionVelocityChecked
    rw [normalizeChecked_of_ne_zero _ _ (Vec3.sub_ne_zero_of_ne _ _ hposF)]
    dsimp only
    rw [if_pos happ, eF, hnF]
    have hx : Vec3.cross (⟨0, 1, 0⟩ : Vec3 ℝ) ⟨0, 1, 0⟩ = ⟨0, 0, 0⟩ := by
      simp [Vec3.cross]
    rw [hx, normalizeChecked_zero]
  refine ⟨rfl, hpos, hc, hv, hck, ?_, ?_, hposF, hcF, by rw [eF, hnF], happ, hnan⟩
  · rw [hv]; exact hs.length_x_axis 20 (by norm_num)
  · rw [hv, hs.length_x_axis 20 (by norm_num)]; norm_num

/-- Claim C24, amended. For a body `s` named "Sun" and a body `p` at a distinct position (exact
square root): when the velocity of `p` relative to `s` has a negative component along the
direction `n` from `s` to `p` and `n` is not parallel to world-up (`cross(n, (0, 1, 0))` is not
the zero vector), the star branch of `resolveCollision` produces no NaN and leaves `p` a speed
of at most 10; when that component is not negative it leaves the velocity of `p` unchanged.
Both argument orders; in the order `(p, s)` the body `p` is not named "Sun" itself. -/
theorem C24_star_collision_speed (ops : FloatOps F) (hs : ops.ExactSqrt)
    (st : CollisionStatics F) (t : F) (s p : CelestialBody F) (hsn : s.name = "Sun")
    (hpos : p.position ≠ s.position) :
    (Vec3.dot (p.velocity - s.velocity) (normalize ops (p.position - s.position)) < 0 →
      Vec3.cross (normalize ops (p.position - s.position)) ⟨0, 1, 0⟩ ≠ ⟨0, 0, 0⟩ →
      sunCollisionVelocityChecked ops s p = some (resolveCollision ops st t s p).2.2.velocity ∧
      length ops (resolveCollision ops st t s p).2.2.velocity ≤ 10 ∧
      (p.name ≠ "Sun" → length ops (resolveCollision ops st t p s).2.1.velocity ≤ 10)) ∧
    (¬ Vec3.dot (p.velocity - s.velocity) (normalize ops (p.position - s.position)) < 0 →
      sunCollisionVelocityChecked ops s p = some p.velocity ∧
      (resolveCollision ops st t s p).2.2.velocity = p.velocity ∧
      (p.name ≠ "Sun" → (resolveCollision ops st t p s).2.1.velocity = p.velocity)) := by
  have h1 := resolveCollision_of_sun_left ops st t s p hsn
  constructor
  · intro h hup
    refine ⟨?_, ?_, fun hpn => ?_⟩
    · rw [h1]; exact sunCollisionVelocityChecked_eq ops st t s p hpos (fun _ => hup)
    · rw [h1]; exact resolveSunCollision_speed_le ops hs st t s p h
    · rw [resolveCollision_of_sun_right ops st t p s hpn hsn]
      exact resolveSunCollision_speed_le ops hs st t s p h
  · intro h
    refine ⟨?_, ?_, fun hpn => ?_⟩
    · rw [sunCollisionVelocityChecked_eq ops st t s p hpos (fun h' => absurd h' h),
        resolveSunCollision_velocity_of_receding ops st t s p h]
    · rw [h1]; exact resolveSunCollision_velocity_of_receding ops st t s p h
    · rw [resolveCollision_of_sun_right ops st t p s hpn hsn]
      exact resolveSunCollision_velocity_of_receding ops st t s p h

/-- Witness of C24: a body at `(1, 0, 0)` that moves toward the Sun with velocity
`(-20, 0, 0)`; the normal `(1, 0, 0)` is not parallel to world-up, and the body leaves the
collision with a speed of at most 10. -/
theorem C24_witness :
    (FloatOps.mk Real.sqrt Real.sin).ExactSqrt ∧ (eclipseStar ℝ).name = "Sun" ∧
    (collidingA ℝ (-20)).position ≠ (eclipseStar ℝ).position ∧
    Vec3.dot ((collidingA ℝ (-20)).velocity - (eclipseStar ℝ).velocity)
      (normalize ⟨Real.sqrt, Real.sin⟩
        ((collidingA ℝ (-20)).position - (eclipseStar ℝ).position)) < 0 ∧
    Vec3.cross (normalize ⟨Real.sqrt, Real.sin⟩
        ((collidingA ℝ (-20)).position - (eclipseStar ℝ).position)) ⟨0, 1, 0⟩
      ≠ ⟨0, 0, 0⟩ ∧
    sunCollisionVelocityChecked ⟨Real.sqrt, Real.sin⟩ (eclipseStar ℝ) (collidingA ℝ (-20))
      = some (resolveCollision ⟨Real.sqrt, Real.sin⟩ ⟨0, 0, 0⟩ 5
          (eclipseStar ℝ) (collidingA ℝ (-20))).2.2.velocity ∧
    length ⟨Real.sqrt, Real.sin⟩ (resolveCollision ⟨Real.sqrt, Real.sin⟩ ⟨0, 0, 0⟩ 5
      (eclipseStar ℝ) (collidingA ℝ (-20))).2.2.velocity ≤ 10 := by
  have hs := exactSqrt_real Real.sin
  have hpos : (collidingA ℝ (-20)).position ≠ (eclipseStar ℝ).position := by
    intro h
    have := congrArg Vec3.x h
    simp [collidingA, eclipseStar, testBody, CelestialBody.new] at this
  have e : (collidingA ℝ (-20)).position - (eclipseStar ℝ).position = ⟨1, 0, 0⟩ := by
    simp [collidingA, eclipseStar, testBody, CelestialBody.new, Vec3.sub_def]
  have ev : (collidingA ℝ (-20)).velocity - (eclipseStar ℝ).velocity = ⟨-20, 0, 0⟩ := by
    simp [collidingA, eclipseStar, testBody, CelestialBody.new, Vec3.sub_def]
  have happ : Vec3.dot ((collidingA ℝ (-20)).velocity - (eclipseStar ℝ).velocity)
      (normalize ⟨Real.sqrt, Real.sin⟩
        ((collidingA ℝ (-20)).position - (eclipseStar ℝ).position)) < 0 := by
    rw [e, ev, hs.normalize_x_axis 1 (by norm_num)]
    simp [Vec3.dot]
  have hup : Vec3.cross (normalize ⟨Real.sqrt, Real.sin⟩
      ((collidingA ℝ (-20)).position - (eclipseStar ℝ).position)) ⟨0, 1, 0⟩
      ≠ ⟨0, 0, 0⟩ := by
    rw [e, hs.normalize_x_axis 1 (by norm_num)]
    intro h
    have := congrArg Vec3.z h
    simp [Vec3.cross] at this
  have h := (C24_star_collision_speed ⟨Real.sqrt, Real.sin⟩ hs ⟨0, 0, 0⟩ 5 (eclipseStar ℝ)
    (collidingA ℝ (-20)) rfl hpos).1 happ hup
  exact ⟨hs, rfl, hpos, happ, hup, h.1, h.2.1⟩

/-- Claim C25. For non-static bodies `a` and `b` of positive mass, neither named "Sun", at
distinct positions, approaching each other (`v_rel · n ≤ 0` with `n = normalize(posA - posB)`),
with at least 0.1 elapsed since `lastCollisionTime` and both post-impulse speeds at most 5
(exact square root), after `resolveCollision` the relative velocity along `n` is `-0.8` times
its value before; the spin kick leaves the component along `n` untouched. -/
theorem C25_restitution (ops : FloatOps F) (hs : ops.ExactSqrt)
    (st : CollisionStatics F) (t : F) (a b : CelestialBody F)
    (ha : a.name ≠ "Sun") (hb : b.name ≠ "Sun")
    (hsa : a.isStatic = false) (hsb : b.isStatic = false)
    (hma : 0 < a.mass) (hmb : 0 < b.mass) (hpos : a.position ≠ b.position)
    (hv : Vec3.dot (a.velocity - b.velocity) (normalize ops (a.position - b.position)) ≤ 0)
    (ht : 0.1 ≤ t - st.lastCollisionTime)
    (hslowA : length ops (a.velocity + ((normalize ops (a.position - b.position)).scale
      (impulseScalar st t a b (Vec3.dot (a.velocity - b.velocity)
        (normalize ops (a.position - b.position))))).sdiv a.mass) ≤ 5)
    (hslowB : length ops (b.velocity - ((normalize ops (a.position - b.position)).scale
      (impulseScalar st t a b (Vec3.dot (a.velocity - b.velocity)
        (normalize ops (a.position - b.position))))).sdiv b.mass) ≤ 5) :
    Vec3.dot ((resolveCollision ops st t a b).2.1.velocity
        - (resolveCollision ops st t a b).2.2.velocity)
        (normalize ops (a.position - b.position))
      = -0.8 * Vec3.dot (a.velocity - b.velocity) (normalize ops (a.position - b.position)) ∧
    (∀ p q : CelestialBody F,
      Vec3.dot ((spinKick ops (normalize ops (a.position - b.position)) p q).1.velocity
          - (spinKick ops (normalize ops (a.position - b.position)) p q).2.velocity)
          (normalize ops (a.position - b.position))
        = Vec3.dot (p.velocity - q.velocity) (normalize ops (a.position - b.position))) :=
  ⟨resolveCollision_restitution ops hs st t a b ha hb hsa hsb hma hmb hpos hv ht hslowA hslowB,
    fun p q => spinKick_dot ops _ p q⟩

/-- Witness of C25: the head-on pair (unit masses, `a` at `(1, 0, 0)` with velocity
`(-1, 0, 0)`, `b` at rest at the origin) at clock reading 5 with no earlier collision. The
relative velocity along the normal goes from `-1` to `0.8`. -/
theorem C25_witness :
    (FloatOps.mk Real.sqrt Real.sin).ExactSqrt ∧
    Vec3.dot ((collidingA ℝ (-1)).velocity - (collidingB ℝ 1).velocity)
      (normalize ⟨Real.sqrt, Real.sin⟩
        ((collidingA ℝ (-1)).position - (collidingB ℝ 1).position)) = -1 ∧
    (0.1 : ℝ) ≤ 5 - (CollisionStatics.mk (0 : ℝ) 0 0).lastCollisionTime ∧
    Vec3.dot ((resolveCollision ⟨Real.sqrt, Real.sin⟩ ⟨0, 0, 0⟩ 5 (collidingA ℝ (-1))
        (collidingB ℝ 1)).2.1.velocity
        - (resolveCollision ⟨Real.sqrt, Real.sin⟩ ⟨0, 0, 0⟩ 5 (collidingA ℝ (-1))
        (collidingB ℝ 1)).2.2.velocity)
        (normalize ⟨Real.sqrt, Real.sin⟩
          ((collidingA ℝ (-1)).position - (collidingB ℝ 1).position))
      = 0.8 := by
  have hs := exactSqrt_real Real.sin
  obtain ⟨ep, ev, hpos⟩ := colliding_values (-1) 1
  have hn : normalize ⟨Real.sqrt, Real.sin⟩
      ((collidingA ℝ (-1)).position - (collidingB ℝ 1).position) = ⟨1, 0, 0⟩ := by
    rw [ep]; exact hs.normalize_x_axis 1 (by norm_num)
  have hvn : Vec3.dot ((collidingA ℝ (-1)).velocity - (collidingB ℝ 1).velocity)
      (normalize ⟨Real.sqrt, Real.sin⟩
        ((collidingA ℝ (-1)).position - (collidingB ℝ 1).position)) = -1 := by
    rw [hn, ev]; simp [Vec3.dot]
  have ht : (0.1 : ℝ) ≤ 5 - (CollisionStatics.mk (0 : ℝ) 0 0).lastCollisionTime := by
    show (0.1 : ℝ) ≤ 5 - 0
    norm_num
  have hJ : impulseScalar ⟨0, 0, 0⟩ 5 (collidingA ℝ (-1)) (collidingB ℝ 1) (-1) = 0.9 := by
    rw [impulseScalar_head_on _ _ _ _ rfl rfl, if_neg (by norm_num)]
  have hma : 0 < (collidingA ℝ (-1)).mass := by
    show (0 : ℝ) < 1
    norm_num
  have hmb : 0 < (collidingB ℝ 1).mass := by
    show (0 : ℝ) < 1
    norm_num
  have hslowA : length ⟨Real.sqrt, Real.sin⟩ ((collidingA ℝ (-1)).velocity
      + ((normalize ⟨Real.sqrt, Real.sin⟩
          ((collidingA ℝ (-1)).position - (collidingB ℝ 1).position)).scale
        (impulseScalar ⟨0, 0, 0⟩ 5 (collidingA ℝ (-1)) (collidingB ℝ 1)
          (Vec3.dot ((collidingA ℝ (-1)).velocity - (collidingB ℝ 1).velocity)
            (normalize ⟨Real.sqrt, Real.sin⟩
              ((collidingA ℝ (-1)).position - (collidingB ℝ 1).position))))).sdiv
        (collidingA ℝ (-1)).mass) ≤ 5 := by
    rw [hvn, hJ, hn]
    have e : (collidingA ℝ (-1)).velocity
        + ((⟨1, 0, 0⟩ : Vec3 ℝ).scale 0.9).sdiv (collidingA ℝ (-1)).mass = ⟨-0.1, 0, 0⟩ := by
      show (⟨-1, 0, 0⟩ : Vec3 ℝ) + ((⟨1, 0, 0⟩ : Vec3 ℝ).scale 0.9).sdiv 1 = ⟨-0.1, 0, 0⟩
      simp only [Vec3.add_def, Vec3.scale, Vec3.sdiv, Vec3.mk.injEq]
      refine ⟨?_, ?_, ?_⟩ <;> norm_num
    rw [e, hs.length_of_dot _ 0.1 (by norm_num) (by simp only [Vec3.dot]; norm_num)]
    norm_num
  have hslowB : length ⟨Real.sqrt, Real.sin⟩ ((collidingB ℝ 1).velocity
      - ((normalize ⟨Real.sqrt, Real.sin⟩
          ((collidingA ℝ (-1)).position - (collidingB ℝ 1).position)).scale
        (impulseScalar ⟨0, 0, 0⟩ 5 (collidingA ℝ (-1)) (collidingB ℝ 1)
          (Vec3.dot ((collidingA ℝ (-1)).velocity - (collidingB ℝ 1).velocity)
            (normalize ⟨Real.sqrt, Real.sin⟩
              ((collidingA ℝ (-1)).position - (collidingB ℝ 1).position))))).sdiv
        (collidingB ℝ 1).mass) ≤ 5 := by
    rw [hvn, hJ, hn]
    have e : (collidingB ℝ 1).velocity
        - ((⟨1, 0, 0⟩ : Vec3 ℝ).scale 0.9).sdiv (collidingB ℝ 1).mass = ⟨-0.9, 0, 0⟩ := by
      show (⟨0, 0, 0⟩ : Vec3 ℝ) - ((⟨1, 0, 0⟩ : Vec3 ℝ).scale 0.9).sdiv 1 = ⟨-0.9, 0, 0⟩
      simp only [Vec3.sub_def, Vec3.scale, Vec3.sdiv, Vec3.mk.injEq]
      refine ⟨?_, ?_, ?_⟩ <;> norm_num
    rw [e, hs.length_of_dot _ 0.9 (by norm_num) (by simp only [Vec3.dot]; norm_num)]
    norm_num
  have h := (C25_restitution ⟨Real.sqrt, Real.sin⟩ hs ⟨0, 0, 0⟩ 5 (collidingA ℝ (-1))
    (collidingB ℝ 1) (by decide) (by decide) rfl rfl hma hmb hpos (by rw [hvn]; norm_num) ht
    hslowA hslowB).1
  rw [hvn] at h
  refine ⟨hs, hvn, ht, ?_⟩
  rw [h]
  norm_num

/-- Counterexample to C26 as stated. Two non-static bodies at rest with the same centre, neither
named "Sun", of masses 100 and 1 and radii 1 and 0.6, overlap (distance 0 < 1.6). Their
collision normal is `glm::normalize` of the zero vector, NaN; `velocityAlongNormal` is NaN, so
the test `velocityAlongNormal > 0` does not return, and the positional correction turns both
positions into NaN: neither body is moved along a normal by the stated amount, and the heavier
body is not displaced strictly less than the lighter one. -/
theorem C26_counterexample :
    (heavyBody ℝ).name ≠ "Sun" ∧ (farPlanetA ℝ).name ≠ "Sun" ∧
    (heavyBody ℝ).isStatic = false ∧ (farPlanetA ℝ).isStatic = false ∧
    (heavyBody ℝ).mass > (farPlanetA ℝ).mass ∧
    length ⟨Real.sqrt, Real.sin⟩ ((heavyBody ℝ).position - (farPlanetA ℝ).position)
      < (heavyBody ℝ).radius + (farPlanetA ℝ).radius ∧
    normalizeChecked ⟨Real.sqrt, Real.sin⟩ ((heavyBody ℝ).position - (farPlanetA ℝ).position)
      = none ∧
    separatedPositionsChecked ⟨Real.sqrt, Real.sin⟩ (heavyBody ℝ) (farPlanetA ℝ)
      = (none, none) := by
  have hs := exactSqrt_real Real.sin
  have e : (heavyBody ℝ).position - (farPlanetA ℝ).position = ⟨0, 0, 0⟩ := by
    simp [heavyBody, farPlanetA, testBody, CelestialBody.new, Vec3.sub_def]
  have hl : length ⟨Real.sqrt, Real.sin⟩ (⟨0, 0, 0⟩ : Vec3 ℝ) = 0 :=
    hs.length_x_axis 0 (le_refl _)
  have hov : (heavyBody ℝ).radius + (farPlanetA ℝ).radius
      - length ⟨Real.sqrt, Real.sin⟩ ((heavyBody ℝ).position - (farPlanetA ℝ).position)
      > 0 := by
    rw [e, hl]
    show (1 : ℝ) + 0.6 - 0 > 0
    norm_num
  refine ⟨by decide, by decide, rfl, rfl, ?_, ?_, ?_, ?_⟩
  · show (100 : ℝ) > 1
    norm_num
  · rw [e, hl]
    show (0 : ℝ) < 1 + 0.6
    norm_num
  · rw [e, normalizeChecked_zero]
  · unfold separatedPositionsChecked
    dsimp only
    rw [if_pos hov]
    rw [e, normalizeChecked_zero]
    rfl

/-- Claim C26, amended. For non-static bodies `a` and `b` of positive mass, neither named
"Sun", at distinct positions, that overlap and are not separating (exact square root), the
positional correction of `resolveCollision` moves `a` by
`(0.5 * overlap + 0.1) * (massB / (massA + massB))` along the normal `n = normalize(posA - posB)`
and `b` by `(0.5 * overlap + 0.1) * (massA / (massA + massB))` along `-n`; if `massA > massB`,
`a` is displaced strictly less than `b`; no NaN arises. -/
theorem C26_positional_correction (ops : FloatOps F) (hs : ops.ExactSqrt)
    (st : CollisionStatics F) (t : F) (a b : CelestialBody F)
    (ha : a.name ≠ "Sun") (hb : b.name ≠ "Sun")
    (hsa : a.isStatic = false) (hsb : b.isStatic = false)
    (hma : 0 < a.mass) (hmb : 0 < b.mass) (hpos : a.position ≠ b.position)
    (hov : length ops (a.position - b.position) < a.radius + b.radius)
    (hv : ¬ Vec3.dot (a.velocity - b.velocity) (normalize ops (a.position - b.position)) > 0) :
    (resolveCollision ops st t a b).2.1.position
      = a.position + (normalize ops (a.position - b.position)).scale
          ((0.5 * ((a.radius + b.radius) - length ops (a.position - b.position)) + 0.1)
            * (b.mass / (a.mass + b.mass))) ∧
    (resolveCollision ops st t a b).2.2.position
      = b.position - (normalize ops (a.position - b.position)).scale
          ((0.5 * ((a.radius + b.radius) - length ops (a.position - b.position)) + 0.1)
            * (a.mass / (a.mass + b.mass))) ∧
    length ops ((resolveCollision ops st t a b).2.1.position - a.position)
      = (0.5 * ((a.radius + b.radius) - length ops (a.position - b.position)) + 0.1)
          * (b.mass / (a.mass + b.mass)) ∧
    length ops ((resolveCollision ops st t a b).2.2.position - b.position)
      = (0.5 * ((a.radius + b.radius) - length ops (a.position - b.position)) + 0.1)
          * (a.mass / (a.mass + b.mass)) ∧
    (a.mass > b.mass →
      length ops ((resolveCollision ops st t a b).2.1.position - a.position)
        < length ops ((resolveCollision ops st t a b).2.2.position - b.position)) ∧
    separatedPositionsChecked ops a b
      = (some (resolveCollision ops st t a b).2.1.position,
         some (resolveCollision ops st t a b).2.2.position) := by
  obtain ⟨⟨h1, h2⟩, h3, h4⟩ := resolveCollision_displacement ops hs st t a b ha hb hsa hsb
    hma hmb hpos hov hv
  refine ⟨h1, h2, h3, h4, fun hm => ?_, separatedPositionsChecked_eq ops st t a b ha hb hpos⟩
  rw [h3, h4]
  have hsum : 0 < a.mass + b.mass := add_pos hma hmb
  have hk : (0 : F) < 0.5 * ((a.radius + b.radius) - length ops (a.position - b.position))
      + 0.1 := by
    have : (0 : F) < 0.1 := by norm_num
    linarith
  exact mul_lt_mul_of_pos_left (div_lt_div_of_pos_right hm hsum) hk

/-- Witness of C26: a body of mass 1 at `(1, 0, 0)` and a body of mass 100 at the origin, both
of radius 1 and at rest; the heavy body is displaced less than the light one. -/
theorem C26_witness :
    (FloatOps.mk Real.sqrt Real.sin).ExactSqrt ∧
    (heavyBody ℝ).position ≠ (collidingA ℝ 0).position ∧
    length ⟨Real.sqrt, Real.sin⟩ ((heavyBody ℝ).position - (collidingA ℝ 0).position)
      < (heavyBody ℝ).radius + (collidingA ℝ 0).radius ∧
    ¬ Vec3.dot ((heavyBody ℝ).velocity - (collidingA ℝ 0).velocity)
      (normalize ⟨Real.sqrt, Real.sin⟩
        ((heavyBody ℝ).position - (collidingA ℝ 0).position)) > 0 ∧
    (heavyBody ℝ).mass > (collidingA ℝ 0).mass ∧
    length ⟨Real.sqrt, Real.sin⟩ ((resolveCollision ⟨Real.sqrt, Real.sin⟩ ⟨0, 0, 0⟩ 5
        (heavyBody ℝ) (collidingA ℝ 0)).2.1.position - (heavyBody ℝ).position)
      < length ⟨Real.sqrt, Real.sin⟩ ((resolveCollision ⟨Real.sqrt, Real.sin⟩ ⟨0, 0, 0⟩ 5
        (heavyBody ℝ) (collidingA ℝ 0)).2.2.position - (collidingA ℝ 0).position) := by
  have hs := exactSqrt_real Real.sin
  have hpos : (heavyBody ℝ).position ≠ (collidingA ℝ 0).position := by
    intro h
    have := congrArg Vec3.x h
    simp [collidingA, heavyBody, testBody, CelestialBody.new] at this
  have e : (heavyBody ℝ).position - (collidingA ℝ 0).position = ⟨-1, 0, 0⟩ := by
    simp [heavyBody, collidingA, testBody, CelestialBody.new, Vec3.sub_def]
  have ev : (heavyBody ℝ).velocity - (collidingA ℝ 0).velocity = ⟨0, 0, 0⟩ := by
    simp [heavyBody, collidingA, testBody, CelestialBody.new, Vec3.sub_def]
  have hl : length ⟨Real.sqrt, Real.sin⟩ (⟨-1, 0, 0⟩ : Vec3 ℝ) = 1 :=
    hs.length_of_dot _ 1 (by norm_num) (by simp [Vec3.dot])
  have hov : length ⟨Real.sqrt, Real.sin⟩ ((heavyBody ℝ).position - (collidingA ℝ 0).position)
      < (heavyBody ℝ).radius + (collidingA ℝ 0).radius := by
    rw [e, hl]
    show (1 : ℝ) < 1 + 1
    norm_num
  have hv : ¬ Vec3.dot ((heavyBody ℝ).velocity - (collidingA ℝ 0).velocity)
      (normalize ⟨Real.sqrt, Real.sin⟩
        ((heavyBody ℝ).position - (collidingA ℝ 0).position)) > 0 := by
    rw [ev]
    simp [Vec3.dot]
  have hma : 0 < (heavyBody ℝ).mass := by
    show (0 : ℝ) < 100
    norm_num
  have hmb : 0 < (collidingA ℝ 0).mass := by
    show (0 : ℝ) < 1
    norm_num
  have hm : (heavyBody ℝ).mass > (collidingA ℝ 0).mass := by
    show (100 : ℝ) > 1
    norm_num
  exact ⟨hs, hpos, hov, hv, hm,
    (C26_positional_correction ⟨Real.sqrt, Real.sin⟩ hs ⟨0, 0, 0⟩ 5 (heavyBody ℝ)
      (collidingA ℝ 0) (by decide) (by decide) rfl rfl hma hmb hpos hov hv).2.2.2.2.1 hm⟩

/-- Claim C27. For star and target at distinct positions and an occluder of positive radius
`r`, with `D` the star-target distance, `projection` the projection of the occluder onto the
star-to-target line and `alignment = 1 - clamp(perpDistance / (2 r), 0, 1)`: the
`shadowIntensity` that `checkForEclipse` leaves on the target lies in `[0.2, 1]`; the target is
put in shadow exactly when `-r < projection < D + r` and `alignment > 0.3`; in that case the
intensity is `1 - ((alignment - 0.3) / 0.7) * 0.8`, and otherwise it is `1`. -/
theorem C27_shadowIntensity (ops : FloatOps F) (sun earth moon : CelestialBody F)
    (_hpos : earth.position ≠ sun.position) (_hr : 0 < moon.radius) :
    0.2 ≤ (checkForEclipse ops sun earth moon).shadowIntensity ∧
    (checkForEclipse ops sun earth moon).shadowIntensity ≤ 1 ∧
    ((checkForEclipse ops sun earth moon).isInShadow = true ↔
      (-moon.radius < eclipseProjection ops sun earth moon ∧
        eclipseProjection ops sun earth moon
          < length ops (earth.position - sun.position) + moon.radius) ∧
      eclipseAlignment ops sun earth moon > 0.3) ∧
    ((-moon.radius < eclipseProjection ops sun earth moon ∧
        eclipseProjection ops sun earth moon
          < length ops (earth.position - sun.position) + moon.radius) ∧
      eclipseAlignment ops sun earth moon > 0.3 →
      (checkForEclipse ops sun earth moon).shadowIntensity
        = 1 - ((eclipseAlignment ops sun earth moon - 0.3) / 0.7) * 0.8) ∧
    (¬ ((-moon.radius < eclipseProjection ops sun earth moon ∧
        eclipseProjection ops sun earth moon
          < length ops (earth.position - sun.position) + moon.radius) ∧
      eclipseAlignment ops sun earth moon > 0.3) →
      (checkForEclipse ops sun earth moon).shadowIntensity = 1) ∧
    ((checkForEclipse ops sun earth moon).isInShadow = true →
      (checkForEclipse ops sun earth moon).shadowIntensity
        = 1 - ((eclipseAlignment ops sun earth moon - 0.3) / 0.7) * 0.8) ∧
    ((checkForEclipse ops sun earth moon).isInShadow = false →
      (checkForEclipse ops sun earth moon).shadowIntensity = 1) := by
  have hI := checkForEclipse_shadowIntensity ops sun earth moon
  have hiff := checkForEclipse_isInShadow ops sun earth moon
  obtain ⟨-, ha1⟩ := eclipseAlignment_range ops sun earth moon
  by_cases hsh : (checkForEclipse ops sun earth moon).isInShadow = true
  · rw [if_pos hsh] at hI
    have hgt := (hiff.1 hsh).2
    refine ⟨?_, ?_, hiff, fun _ => hI, fun h => absurd (hiff.1 hsh) h, fun _ => hI,
      fun h => ?_⟩
    · rw [hI]
      have : (eclipseAlignment ops sun earth moon - 0.3) / 0.7 ≤ 1 := by
        rw [div_le_one (by norm_num)]; linarith
      linarith
    · rw [hI]
      have : 0 ≤ (eclipseAlignment ops sun earth moon - 0.3) / 0.7 :=
        div_nonneg (by linarith) (by norm_num)
      linarith
    · rw [hsh] at h; exact Bool.noConfusion h
  · rw [if_neg hsh] at hI
    refine ⟨?_, ?_, hiff, fun h => absurd (hiff.2 h) hsh, fun _ => hI,
      fun h => absurd h hsh, fun _ => hI⟩
    · rw [hI]; norm_num
    · rw [hI]

/-- Witness of C27: star at the origin, target at `(10, 0, 0)`. An occluder of radius 0.5 at
`(5, 0.35, 0)` has projection 5, perpendicular distance 0.35 and alignment 0.65: the target is
in shadow with intensity `1 - (0.35 / 0.7) * 0.8 = 0.6`. An occluder of radius 0.5 at
`(5, 3, 0)` has alignment 0: the target is not in shadow and the intensity is 1. -/
theorem C27_witness :
    (eclipseTarget ℝ).position ≠ (eclipseStar ℝ).position ∧
    0 < (eclipseOccluder ℝ 5 0.35 0.5).radius ∧
    eclipseAlignment ⟨Real.sqrt, Real.sin⟩ (eclipseStar ℝ) (eclipseTarget ℝ)
      (eclipseOccluder ℝ 5 0.35 0.5) = 0.65 ∧
    (checkForEclipse ⟨Real.sqrt, Real.sin⟩ (eclipseStar ℝ) (eclipseTarget ℝ)
      (eclipseOccluder ℝ 5 0.35 0.5)).isInShadow = true ∧
    (checkForEclipse ⟨Real.sqrt, Real.sin⟩ (eclipseStar ℝ) (eclipseTarget ℝ)
      (eclipseOccluder ℝ 5 0.35 0.5)).shadowIntensity = 0.6 ∧
    0 < (eclipseOccluder ℝ 5 3 0.5).radius ∧
    (checkForEclipse ⟨Real.sqrt, Real.sin⟩ (eclipseStar ℝ) (eclipseTarget ℝ)
      (eclipseOccluder ℝ 5 3 0.5)).isInShadow = false ∧
    (checkForEclipse ⟨Real.sqrt, Real.sin⟩ (eclipseStar ℝ) (eclipseTarget ℝ)
      (eclipseOccluder ℝ 5 3 0.5)).shadowIntensity = 1 := by
  have hs := exactSqrt_real Real.sin
  have hpos : (eclipseTarget ℝ).position ≠ (eclipseStar ℝ).position := by
    intro h
    have := congrArg Vec3.x h
    simp [eclipseTarget, eclipseStar, testBody, CelestialBody.new] at this
  have hr : 0 < (eclipseOccluder ℝ 5 0.35 0.5).radius := by
    show (0 : ℝ) < 0.5
    norm_num
  have hr' : 0 < (eclipseOccluder ℝ 5 3 0.5).radius := by
    show (0 : ℝ) < 0.5
    norm_num
  obtain ⟨hD, hp, hq⟩ := eclipse_aligned_values ⟨Real.sqrt, Real.sin⟩ hs
    (eclipseStar ℝ) (eclipseTarget ℝ) (eclipseOccluder ℝ 5 0.35 0.5) 5 0.35 (by norm_num)
    rfl rfl rfl
  obtain ⟨-, hp', hq'⟩ := eclipse_aligned_values ⟨Real.sqrt, Real.sin⟩ hs
    (eclipseStar ℝ) (eclipseTarget ℝ) (eclipseOccluder ℝ 5 3 0.5) 5 3 (by norm_num)
    rfl rfl rfl
  have hrv : (eclipseOccluder ℝ 5 0.35 0.5).radius = 0.5 := rfl
  have hrv' : (eclipseOccluder ℝ 5 3 0.5).radius = 0.5 := rfl
  have ha : eclipseAlignment ⟨Real.sqrt, Real.sin⟩ (eclipseStar ℝ) (eclipseTarget ℝ)
      (eclipseOccluder ℝ 5 0.35 0.5) = 0.65 := by
    unfold eclipseAlignment clamp
    rw [hq, hrv]
    norm_num
  have ha' : eclipseAlignment ⟨Real.sqrt, Real.sin⟩ (eclipseStar ℝ) (eclipseTarget ℝ)
      (eclipseOccluder ℝ 5 3 0.5) = 0 := by
    unfold eclipseAlignment clamp
    rw [hq', hrv']
    norm_num
  have h := C27_shadowIntensity ⟨Real.sqrt, Real.sin⟩ (eclipseStar ℝ) (eclipseTarget ℝ)
    (eclipseOccluder ℝ 5 0.35 0.5) hpos hr
  have h' := C27_shadowIntensity ⟨Real.sqrt, Real.sin⟩ (eclipseStar ℝ) (eclipseTarget ℝ)
    (eclipseOccluder ℝ 5 3 0.5) hpos hr'
  have hG : (-(eclipseOccluder ℝ 5 0.35 0.5).radius
        < eclipseProjection ⟨Real.sqrt, Real.sin⟩ (eclipseStar ℝ) (eclipseTarget ℝ)
            (eclipseOccluder ℝ 5 0.35 0.5) ∧
      eclipseProjection ⟨Real.sqrt, Real.sin⟩ (eclipseStar ℝ) (eclipseTarget ℝ)
          (eclipseOccluder ℝ 5 0.35 0.5)
        < length ⟨Real.sqrt, Real.sin⟩ ((eclipseTarget ℝ).position - (eclipseStar ℝ).position)
            + (eclipseOccluder ℝ 5 0.35 0.5).radius) ∧
      eclipseAlignment ⟨Real.sqrt, Real.sin⟩ (eclipseStar ℝ) (eclipseTarget ℝ)
        (eclipseOccluder ℝ 5 0.35 0.5) > 0.3 := by
    rw [hp, hD, ha, hrv]
    norm_num
  have hG' : ¬ ((-(eclipseOccluder ℝ 5 3 0.5).radius
        < eclipseProjection ⟨Real.sqrt, Real.sin⟩ (eclipseStar ℝ) (eclipseTarget ℝ)
            (eclipseOccluder ℝ 5 3 0.5) ∧
      eclipseProjection ⟨Real.sqrt, Real.sin⟩ (eclipseStar ℝ) (eclipseTarget ℝ)
          (eclipseOccluder ℝ 5 3 0.5)
        < length ⟨Real.sqrt, Real.sin⟩ ((eclipseTarget ℝ).position - (eclipseStar ℝ).position)
            + (eclipseOccluder ℝ 5 3 0.5).radius) ∧
      eclipseAlignment ⟨Real.sqrt, Real.sin⟩ (eclipseStar ℝ) (eclipseTarget ℝ)
        (eclipseOccluder ℝ 5 3 0.5) > 0.3) := by
    rw [ha']
    norm_num
  refine ⟨hpos, hr, ha, h.2.2.1.2 hG, ?_, hr', ?_, h'.2.2.2.2.1 hG'⟩
  · rw [h.2.2.2.1 hG, ha]
    norm_num
  · cases hb : (checkForEclipse ⟨Real.sqrt, Real.sin⟩ (eclipseStar ℝ) (eclipseTarget ℝ)
      (eclipseOccluder ℝ 5 3 0.5)).isInShadow
    · rfl
    · exact absurd (h'.2.2.1.1 hb) hG'

/-- Claim C28 fails while the timer is above 1. A white body whose animation was started with
timer 2 and updated with time delta 0.25 has timer 1.75, still positive, and the colour
`mix(alert, base, 1 - 1.75)`: the blend weight is `-0.75`, outside `[0, 1]`, and the green
channel `-0.225` does not lie between the alert value 0.3 and the base value 1. -/
theorem C28_color_outside_blend (ops : FloatOps F) :
    (collidingA F 1).startCollisionAnimation.collisionTimer = 2 ∧
    (collidingA F 1).startCollisionAnimation.originalColor = ⟨1, 1, 1⟩ ∧
    ((collidingA F 1).startCollisionAnimation.updateCollisionAnimation ops 0.25).collisionTimer
      = 1.75 ∧
    (0 : F) < 1.75 ∧
    ((collidingA F 1).startCollisionAnimation.updateCollisionAnimation ops 0.25).color
      = Vec3.mix ⟨1, 0.3, 0.3⟩ ⟨1, 1, 1⟩ (1 - 1.75) ∧
    ((collidingA F 1).startCollisionAnimation.updateCollisionAnimation ops 0.25).color
      = ⟨1, -0.225, -0.225⟩ ∧
    ¬ ((0 : F) ≤ 1 - 1.75) ∧
    ¬ ((0.3 : F) ≤
      ((collidingA F 1).startCollisionAnimation.updateCollisionAnimation ops 0.25).color.y) := by
  have ht : (collidingA F 1).startCollisionAnimation.collisionTimer - 0.25 = (1.75 : F) := by
    show (2 : F) - 0.25 = 1.75
    norm_num
  obtain ⟨h1, -, h3, -, -, -⟩ := CelestialBody.updateCollisionAnimation_active ops
    (collidingA F 1).startCollisionAnimation 0.25 rfl (by rw [ht]; norm_num)
  rw [ht] at h1 h3
  have h3a : ((collidingA F 1).startCollisionAnimation.updateCollisionAnimation ops 0.25).color
      = Vec3.mix ⟨1, 0.3, 0.3⟩ ⟨1, 1, 1⟩ (1 - 1.75) := h3
  have hc : Vec3.mix (⟨1, 0.3, 0.3⟩ : Vec3 F) ⟨1, 1, 1⟩ (1 - 1.75) = ⟨1, -0.225, -0.225⟩ := by
    simp only [Vec3.mix, Vec3.add, Vec3.scale, Vec3.mk.injEq]
    refine ⟨?_, ?_, ?_⟩ <;> norm_num
  refine ⟨rfl, rfl, h1, by norm_num, h3a, h3a.trans hc, by norm_num, ?_⟩
  rw [h3a, hc]
  norm_num

/-- Claim C29 fails when a collision starts while the previous animation is pulsing. A body
constructed with radius 1 whose animation is started, updated with time delta 0.25 (timer 1.75,
radius `1 * (sin 35 * 0.2 + 1)`) and started again has `originalRadius = sin 35 * 0.2 + 1`,
which is not 1; the end of the animation then restores that radius. -/
theorem C29_originalRadius_overwritten :
    (collidingA ℝ 1).radius = 1 ∧ (collidingA ℝ 1).originalRadius = 1 ∧
    (runCalls ⟨Real.sqrt, Real.sin⟩
      [.startCollisionAnimation, .updateCollisionAnimation 0.25, .startCollisionAnimation]
      (collidingA ℝ 1)).originalRadius = 1 * (Real.sin (1.75 * 20) * 0.2 + 1) ∧
    (runCalls ⟨Real.sqrt, Real.sin⟩
      [.startCollisionAnimation, .updateCollisionAnimation 0.25, .startCollisionAnimation]
      (collidingA ℝ 1)).originalRadius ≠ 1 ∧
    (runCalls ⟨Real.sqrt, Real.sin⟩
      [.startCollisionAnimation, .updateCollisionAnimation 0.25, .startCollisionAnimation,
        .updateCollisionAnimation 2]
      (collidingA ℝ 1)).isColliding = false ∧
    (runCalls ⟨Real.sqrt, Real.sin⟩
      [.startCollisionAnimation, .updateCollisionAnimation 0.25, .startCollisionAnimation,
        .updateCollisionAnimation 2]
      (collidingA ℝ 1)).radius ≠ 1 := by
  have ht : (collidingA ℝ 1).startCollisionAnimation.collisionTimer - 0.25 = (1.75 : ℝ) := by
    show (2 : ℝ) - 0.25 = 1.75
    norm_num
  obtain ⟨-, h2, -, -, -, -⟩ := CelestialBody.updateCollisionAnimation_active
    ⟨Real.sqrt, Real.sin⟩ (collidingA ℝ 1).startCollisionAnimation 0.25 rfl
    (by rw [ht]; norm_num)
  rw [ht] at h2
  have hr : ((collidingA ℝ 1).startCollisionAnimation.updateCollisionAnimation
      ⟨Real.sqrt, Real.sin⟩ 0.25).radius = 1 * (Real.sin (1.75 * 20) * 0.2 + 1) := h2
  have hne : (1 : ℝ) * (Real.sin (1.75 * 20) * 0.2 + 1) ≠ 1 := by
    have e : (1.75 : ℝ) * 20 = 35 := by norm_num
    rw [e]
    intro h
    apply sin_35_ne_zero
    linarith
  have ho : (runCalls ⟨Real.sqrt, Real.sin⟩
      [.startCollisionAnimation, .updateCollisionAnimation 0.25, .startCollisionAnimation]
      (collidingA ℝ 1)).originalRadius = 1 * (Real.sin (1.75 * 20) * 0.2 + 1) := hr
  obtain ⟨d1, d2, -⟩ := CelestialBody.updateCollisionAnimation_done ⟨Real.sqrt, Real.sin⟩
    (runCalls ⟨Real.sqrt, Real.sin⟩
      [.startCollisionAnimation, .updateCollisionAnimation 0.25, .startCollisionAnimation]
      (collidingA ℝ 1)) 2 rfl (by show (2 : ℝ) - 2 ≤ 0; norm_num)
  refine ⟨rfl, rfl, ho, by rw [ho]; exact hne, d1, ?_⟩
  have : (runCalls ⟨Real.sqrt, Real.sin⟩
      [.startCollisionAnimation, .updateCollisionAnimation 0.25, .startCollisionAnimation,
        .updateCollisionAnimation 2]
      (collidingA ℝ 1)).radius = 1 * (Real.sin (1.75 * 20) * 0.2 + 1) := d2.trans ho
  rw [this]
  exact hne

end Claims

end SolarSystem
